import Mathlib

/-!
# Wi-SUN FFN bootstrap: candidate parent table and tick dispatcher

A shallow embedding of

* `stack/source/6lowpan/ws/ws_bootstrap_ffn.c` (candidate parent table:
  lookup, allocation, ranking comparator, sorted re-insertion, failure marking;
  neighbor binding and the authentication retry; the PAN configuration solicit
  trickle),
* `stack/source/timers.c` (the global tick dispatcher),

followed by theorems about the embedded functions.

Conventions.  A `parent_info_t *` is a slot number of the candidate pool; the
two intrusive lists of `ws_info` are lists of slot numbers and the pool maps a
slot number to the record stored there.  Constants that the sources take from
headers outside the embedded files (`PRC_WEIGHT_FACTOR`, `PS_WEIGHT_FACTOR`,
`TIMER_GLOBAL_PERIOD_MS`, `PCS_MAX`) are parameters of the definitions that use
them, and so are the results of the collaborator functions they call; the
calls themselves are appended to a log.
-/

namespace WsFfn

/-! ## Data model -/

/-- The fields of `parent_info_t` that the embedded functions read or write.
`addr` is the 8-byte EUI-64 read as one number, so that `memcmp(a, b, 8) == 0`
is equality; `routing_cost` and `pan_size` are the `uint16_t` fields of
`pan_information`, `use_parent_bs` its flag; `signal_dbm` is signed. -/
structure parent_info_t where
  addr : Nat
  pan_id : Nat
  routing_cost : Nat
  pan_size : Nat
  use_parent_bs : Bool
  signal_dbm : Int
  tx_fail : Nat
  link_acceptable : Bool
deriving DecidableEq, Repr

/-- The candidate parent table inside `cur->ws_info`: the storage of the
records (`pool`, indexed by slot number, which plays the role of the pointer)
and the two intrusive lists, head first. -/
structure parent_table where
  pool : Nat → parent_info_t
  parent_list_free : List Nat
  parent_list_reserved : List Nat

/-- Write through a `parent_info_t *`: replace the record stored in one slot. -/
def pool_set (pool : Nat → parent_info_t) (entry : Nat) (v : parent_info_t) :
    Nat → parent_info_t :=
  fun i => if i = entry then v else pool i

/-! ## The intrusive list primitives (`common/ns_list.h`) -/

/-- Modelled from the spec: `ns_list_get_first` of `common/ns_list.h` (not among
the embedded sources); the head of the list, or none (NULL) if it is empty. -/
def ns_list_get_first (l : List Nat) : Option Nat := l.head?

/-- Modelled from the spec: `ns_list_get_last` of `common/ns_list.h`; the tail
element of the list, or none (NULL) if it is empty. -/
def ns_list_get_last (l : List Nat) : Option Nat := l.getLast?

/-- Modelled from the spec: `ns_list_remove` of `common/ns_list.h`; unlinks
`entry`, the other entries keep their order. -/
def ns_list_remove (l : List Nat) (entry : Nat) : List Nat := l.erase entry

/-- Modelled from the spec: `ns_list_add_to_end` of `common/ns_list.h`; links
`entry` after the current tail. -/
def ns_list_add_to_end (l : List Nat) (entry : Nat) : List Nat := l ++ [entry]

/-- Modelled from the spec: `ns_list_add_before` of `common/ns_list.h`; links
`entry` immediately before the list member `before`. -/
def ns_list_add_before : List Nat → Nat → Nat → List Nat
  | [], _, _ => []
  | x :: xs, before, entry =>
    if x = before then entry :: x :: xs else x :: ns_list_add_before xs before entry

/-! ## `ws_bootstrap_ffn.c`: candidate parent table -/

/-- `ws_bootstrap_ffn_candidate_parent_get_best`: the head of the reserved
list (the loop before the return only traces). -/
def ws_bootstrap_ffn_candidate_parent_get_best (cur : parent_table) : Option Nat :=
  ns_list_get_first cur.parent_list_reserved

/-- `ws_bootstrap_ffn_candidate_parent_allocate`.  With a free entry: copy the
address into it, move it to the end of the reserved list.  Without one: take
the last reserved entry (no address copy on this path).  Then, if an entry was
obtained, reset `tx_fail` and `link_acceptable`. -/
def ws_bootstrap_ffn_candidate_parent_allocate (cur : parent_table) (addr : Nat) :
    parent_table × Option Nat :=
  let r : parent_table × Option Nat :=
    match ns_list_get_first cur.parent_list_free with
    | some entry =>
      ({ pool := pool_set cur.pool entry { cur.pool entry with addr := addr },
         parent_list_free := ns_list_remove cur.parent_list_free entry,
         parent_list_reserved := ns_list_add_to_end cur.parent_list_reserved entry },
       some entry)
    | none => (cur, ns_list_get_last cur.parent_list_reserved)
  match r.2 with
  | some entry =>
    ({ r.1 with pool := pool_set r.1.pool entry
                  { r.1.pool entry with tx_fail := 0, link_acceptable := false } },
     some entry)
  | none => (r.1, none)

/-- The scan of `ws_bootstrap_ffn_candidate_parent_get`: the first reserved
entry whose address equals `addr`. -/
def candidate_parent_lookup (pool : Nat → parent_info_t) (addr : Nat) : List Nat → Option Nat
  | [] => none
  | entry :: rest =>
    if (pool entry).addr = addr then some entry else candidate_parent_lookup pool addr rest

/-- `ws_bootstrap_ffn_candidate_parent_get`. -/
def ws_bootstrap_ffn_candidate_parent_get (cur : parent_table) (addr : Nat) (create : Bool) :
    parent_table × Option Nat :=
  match candidate_parent_lookup cur.pool addr cur.parent_list_reserved with
  | some entry => (cur, some entry)
  | none =>
    if create then ws_bootstrap_ffn_candidate_parent_allocate cur addr else (cur, none)

/-- The weighted PAN cost computed inside the comparator, held in a
`uint16_t`. -/
def pan_cost (PRC_WEIGHT_FACTOR PS_WEIGHT_FACTOR : Nat) (p : parent_info_t) : Nat :=
  (p.routing_cost / PRC_WEIGHT_FACTOR + p.pan_size / PS_WEIGHT_FACTOR) % 65536

/-- `ws_bootstrap_ffn_candidate_parent_compare`: "Return true if P2 is better". -/
def ws_bootstrap_ffn_candidate_parent_compare (PRC_WEIGHT_FACTOR PS_WEIGHT_FACTOR : Nat)
    (p1 p2 : parent_info_t) : Bool :=
  if p2.tx_fail > p1.tx_fail then false
  else if p2.tx_fail < p1.tx_fail then true
  else if p1.link_acceptable && !p2.link_acceptable then true
  else if !p1.link_acceptable && p2.link_acceptable then false
  else
    let p1_pan_cost := pan_cost PRC_WEIGHT_FACTOR PS_WEIGHT_FACTOR p1
    let p2_pan_cost := pan_cost PRC_WEIGHT_FACTOR PS_WEIGHT_FACTOR p2
    if p1_pan_cost > p2_pan_cost then true
    else if p1_pan_cost < p2_pan_cost then false
    else if p1.signal_dbm < p2.signal_dbm then true
    else false

/-- The loop of `ws_bootstrap_ffn_candidate_parent_sort`: the first reserved
entry, other than `new_entry` itself, that `new_entry` is better than. -/
def candidate_parent_sort_scan (PRC_WEIGHT_FACTOR PS_WEIGHT_FACTOR : Nat)
    (pool : Nat → parent_info_t) (new_entry : Nat) : List Nat → Option Nat
  | [] => none
  | entry :: rest =>
    if entry = new_entry then
      candidate_parent_sort_scan PRC_WEIGHT_FACTOR PS_WEIGHT_FACTOR pool new_entry rest
    else if ws_bootstrap_ffn_candidate_parent_compare PRC_WEIGHT_FACTOR PS_WEIGHT_FACTOR
        (pool entry) (pool new_entry) then
      some entry
    else
      candidate_parent_sort_scan PRC_WEIGHT_FACTOR PS_WEIGHT_FACTOR pool new_entry rest

/-- `ws_bootstrap_ffn_candidate_parent_sort`. -/
def ws_bootstrap_ffn_candidate_parent_sort (PRC_WEIGHT_FACTOR PS_WEIGHT_FACTOR : Nat)
    (cur : parent_table) (new_entry : Nat) : parent_table :=
  match candidate_parent_sort_scan PRC_WEIGHT_FACTOR PS_WEIGHT_FACTOR cur.pool new_entry
      cur.parent_list_reserved with
  | some entry =>
    { cur with parent_list_reserved :=
        ns_list_add_before (ns_list_remove cur.parent_list_reserved new_entry) entry new_entry }
  | none =>
    { cur with parent_list_reserved :=
        ns_list_add_to_end (ns_list_remove cur.parent_list_reserved new_entry) new_entry }

/-- `ws_bootstrap_ffn_candidate_parent_mark_failure`.  The increment is only
reached with `tx_fail < 2`, so it cannot overflow the field. -/
def ws_bootstrap_ffn_candidate_parent_mark_failure (PRC_WEIGHT_FACTOR PS_WEIGHT_FACTOR : Nat)
    (cur : parent_table) (addr : Nat) : parent_table :=
  match (ws_bootstrap_ffn_candidate_parent_get cur addr false).2 with
  | some entry =>
    if (cur.pool entry).tx_fail ≥ 2 then
      { cur with
        parent_list_reserved := ns_list_remove cur.parent_list_reserved entry,
        parent_list_free := ns_list_add_to_end cur.parent_list_free entry }
    else
      ws_bootstrap_ffn_candidate_parent_sort PRC_WEIGHT_FACTOR PS_WEIGHT_FACTOR
        { cur with pool := pool_set cur.pool entry
                     { cur.pool entry with tx_fail := (cur.pool entry).tx_fail + 1 } }
        entry
  | none => cur

/-- The list surgery of `ws_bootstrap_ffn_neighbor_set` on its failure path
(neither `ws_bootstrap_neighbor_get` nor `ws_bootstrap_neighbor_add`
succeeds): the candidate goes from the reserved list to the end of the free
list. -/
def neighbor_set_evict (cur : parent_table) (parent_ptr : Nat) : parent_table :=
  { cur with
    parent_list_reserved := ns_list_remove cur.parent_list_reserved parent_ptr,
    parent_list_free := ns_list_add_to_end cur.parent_list_free parent_ptr }

/-! ## `ws_bootstrap_ffn.c`: neighbor binding and the authentication retry -/

/-- The calls that the embedded functions make to collaborators outside the
file, with the address or frame type they are made for; the functions below
append them to a log in the order of the calls. -/
inductive ffn_call where
  | neighbor_list_clean
  | fhss_activate
  | neighbor_get (eui64 : Nat)
  | neighbor_add (eui64 : Nat)
  | neighbor_set_stable (eui64 : Nat)
  | neighbor_class_ut_update (eui64 : Nat)
  | neighbor_class_us_update (eui64 : Nat)
  | trickle_timer_pas (fired : Bool)
  | trickle_timer_pcs (fired : Bool)
  | stats_update_tx_pas
  | stats_update_tx_pcs
  | llc_asynch_request_pas
  | llc_asynch_request_pcs
  | trickle_inconsistent_heard_pas
  | event_discovery_start
  | trickle_inconsistent_heard_pcs
  | test_procedure_trigger_exec (procedure : Int)
  | rpl_control_dao_timeout
  | event_disconnect_fast
  | address_registration_update
deriving DecidableEq, Repr

/-- The fields of `cur->ws_info.pan_information` written by
`ws_bootstrap_ffn_neighbor_set`. -/
structure ws_pan_information where
  pan_size : Nat
  routing_cost : Nat
  use_parent_bs : Bool
  pan_version : Nat
  lpan_version : Nat
deriving DecidableEq, Repr

/-- The part of `struct net_if` that the neighbor binding and the
authentication retry read or write: the candidate table, the network PAN id,
the PAN information, and the log of the collaborator calls made so far.  The
collaborators keep their own state (the neighbor table); they do not write
these fields. -/
structure net_if where
  parents : parent_table
  network_pan_id : Nat
  pan_information : ws_pan_information
  calls : List ffn_call

/-- `ws_bootstrap_ffn_neighbor_set`.  `neighbor_get_ok` and `neighbor_add_ok`
are what `ws_bootstrap_neighbor_get` and `ws_bootstrap_neighbor_add` return in
this call (the second is only called when the first fails).  Returns the new
state and the `int8_t` result. -/
def ws_bootstrap_ffn_neighbor_set (cur : net_if) (parent_ptr : Nat) (clear_list : Bool)
    (neighbor_get_ok neighbor_add_ok : Bool) : net_if × Int :=
  let p := cur.parents.pool parent_ptr
  let pan_id := cur.network_pan_id
  let cur1 : net_if :=
    { cur with
      network_pan_id := p.pan_id,
      pan_information :=
        { pan_size := p.pan_size, routing_cost := p.routing_cost,
          use_parent_bs := p.use_parent_bs, pan_version := 0, lpan_version := 0 } }
  let cur2 : net_if :=
    if pan_id ≠ cur1.network_pan_id then
      let c : net_if :=
        if clear_list then { cur1 with calls := cur1.calls ++ [ffn_call.neighbor_list_clean] }
        else cur1
      { c with calls := c.calls ++ [ffn_call.fhss_activate] }
    else cur1
  let cur3 : net_if := { cur2 with calls := cur2.calls ++ [ffn_call.neighbor_get p.addr] }
  if neighbor_get_ok then
    ({ cur3 with calls := cur3.calls ++
        [ffn_call.neighbor_set_stable p.addr, ffn_call.neighbor_class_ut_update p.addr,
         ffn_call.neighbor_class_us_update p.addr] }, 0)
  else
    let cur4 : net_if := { cur3 with calls := cur3.calls ++ [ffn_call.neighbor_add p.addr] }
    if neighbor_add_ok then
      ({ cur4 with calls := cur4.calls ++
          [ffn_call.neighbor_set_stable p.addr, ffn_call.neighbor_class_ut_update p.addr,
           ffn_call.neighbor_class_us_update p.addr] }, 0)
    else
      ({ cur4 with parents := neighbor_set_evict cur4.parents parent_ptr }, -1)

/-- The pointer returned by `ws_bootstrap_authentication_next_target`: the
caller's `previous_eui_64`, or the `addr` field of a pool slot. -/
inductive auth_target where
  | previous_eui_64
  | parent_addr (slot : Nat)
deriving DecidableEq, Repr

/-- The eight bytes a returned pointer points at. -/
def auth_target_bytes (cur : net_if) (previous_eui_64 : Nat) : auth_target → Nat
  | auth_target.previous_eui_64 => previous_eui_64
  | auth_target.parent_addr slot => (cur.parents.pool slot).addr

/-- `ws_bootstrap_authentication_next_target`.  `pan_id` is the content of
`*pan_id` at the call; the result is the new state, the returned pointer and
the content of `*pan_id` at the return. -/
def ws_bootstrap_authentication_next_target (PRC_WEIGHT_FACTOR PS_WEIGHT_FACTOR : Nat)
    (cur : net_if) (previous_eui_64 : Nat) (pan_id : Nat)
    (neighbor_get_ok neighbor_add_ok : Bool) : net_if × auth_target × Nat :=
  let cur1 : net_if :=
    { cur with
      parents :=
        ws_bootstrap_ffn_candidate_parent_mark_failure PRC_WEIGHT_FACTOR PS_WEIGHT_FACTOR
          cur.parents previous_eui_64 }
  match ws_bootstrap_ffn_candidate_parent_get_best cur1.parents with
  | some parent_info =>
    let r := ws_bootstrap_ffn_neighbor_set cur1 parent_info true neighbor_get_ok neighbor_add_ok
    (r.1, auth_target.parent_addr parent_info, (r.1.parents.pool parent_info).pan_id)
  | none => (cur1, auth_target.previous_eui_64, pan_id)

/-! ## `ws_bootstrap_ffn.c`: the PAN configuration solicit trickle -/

/-- The fields of `struct ws_mngt` used by the solicit trickles.  `T` is the
state of one trickle timer (`trickle_t`); `pcs_count` and `pcs_max_timeout`
hold the value of the C field. -/
structure ws_mngt (T : Type) where
  trickle_pas : T
  trickle_pcs : T
  trickle_pas_running : Bool
  trickle_pcs_running : Bool
  pcs_count : Nat
  pcs_max_timeout : Int

/-- The two functions of `common/trickle.c` called by the solicit trickles,
with the `trickle_params` of the interface fixed: `trickle_timer` advances a
timer by `ticks` and tells whether it fires, `trickle_inconsistent_heard`
resets a timer. -/
structure trickle_ops (T : Type) where
  trickle_timer : T → Int → T × Bool
  trickle_inconsistent_heard : T → T

/-- The part of `struct net_if` that the solicit trickles read or write:
`ws_info.mngt` and the log of the collaborator calls made so far. -/
structure mngt_if (T : Type) where
  mngt : ws_mngt T
  calls : List ffn_call

/-- `ws_bootstrap_pan_config_solicit`: count the transmission in the
statistics, hand a PAN Configuration Solicit request to the LLC. -/
def ws_bootstrap_pan_config_solicit {T : Type} (cur : mngt_if T) : mngt_if T :=
  { cur with calls := cur.calls ++
      [ffn_call.stats_update_tx_pcs, ffn_call.llc_asynch_request_pcs] }

/-- `ws_ffn_pcs_trickle`.  For `0 ≤ ticks` the value stored in
`pcs_max_timeout` lies between 0 and the old one, so the width of the field
does not matter; `pcs_count++` is taken without wrap-around. -/
def ws_ffn_pcs_trickle {T : Type} (PCS_MAX : Nat) (ops : trickle_ops T) (cur : mngt_if T)
    (ticks : Int) : mngt_if T :=
  if cur.mngt.trickle_pcs_running then
    let cur1 : mngt_if T :=
      { cur with mngt := { cur.mngt with
          pcs_max_timeout :=
            if cur.mngt.pcs_max_timeout > ticks then cur.mngt.pcs_max_timeout - ticks else 0 } }
    let r := ops.trickle_timer cur1.mngt.trickle_pcs ticks
    let cur2 : mngt_if T :=
      { mngt := { cur1.mngt with trickle_pcs := r.1 },
        calls := cur1.calls ++ [ffn_call.trickle_timer_pcs r.2] }
    let cur3 : mngt_if T :=
      if r.2 then
        let c : mngt_if T :=
          if cur2.mngt.pcs_count < PCS_MAX then ws_bootstrap_pan_config_solicit cur2 else cur2
        { c with mngt := { c.mngt with pcs_count := c.mngt.pcs_count + 1 } }
      else cur2
    if cur3.mngt.pcs_count > PCS_MAX ∨ cur3.mngt.pcs_max_timeout = 0 then
      { mngt := { cur3.mngt with
          trickle_pas := ops.trickle_inconsistent_heard cur3.mngt.trickle_pas },
        calls := cur3.calls ++
          [ffn_call.trickle_inconsistent_heard_pas, ffn_call.event_discovery_start] }
    else cur3
  else cur

/-- Successive calls of `ws_ffn_pcs_trickle`, one for each element of `ticks`. -/
def pcs_trickle_run {T : Type} (PCS_MAX : Nat) (ops : trickle_ops T) (cur : mngt_if T)
    (ticks : List Int) : mngt_if T :=
  ticks.foldl (fun c t => ws_ffn_pcs_trickle PCS_MAX ops c t) cur

/-- Whether the PCS trickle timer fires in a call with these `ticks`. -/
def pcs_fired {T : Type} (ops : trickle_ops T) (cur : mngt_if T) (ticks : Int) : Bool :=
  (ops.trickle_timer cur.mngt.trickle_pcs ticks).2

/-- The value of `pcs_max_timeout` after the decrement of a call. -/
def pcs_timeout_after {T : Type} (cur : mngt_if T) (ticks : Int) : Int :=
  if cur.mngt.pcs_max_timeout > ticks then cur.mngt.pcs_max_timeout - ticks else 0

/-- The value of `pcs_count` after a call with the PCS trickle running. -/
def pcs_count_after {T : Type} (ops : trickle_ops T) (cur : mngt_if T) (ticks : Int) : Nat :=
  if pcs_fired ops cur ticks then cur.mngt.pcs_count + 1 else cur.mngt.pcs_count

/-- The collaborator calls logged after `before` in `after`. -/
def calls_since (before after : List ffn_call) : List ffn_call :=
  after.drop before.length

/-! ## `ws_bootstrap_ffn.c`: the PAN advertisement solicit trickle and the test procedures -/

/-- `ws_ffn_trickle_stop`. -/
def ws_ffn_trickle_stop {T : Type} (mngt : ws_mngt T) : ws_mngt T :=
  { mngt with trickle_pas_running := false, trickle_pcs_running := false }

/-- `ws_bootstrap_pan_advert_solicit`: count the transmission in the
statistics, hand a PAN Advertisement Solicit request to the LLC. -/
def ws_bootstrap_pan_advert_solicit {T : Type} (cur : mngt_if T) : mngt_if T :=
  { cur with calls := cur.calls ++
      [ffn_call.stats_update_tx_pas, ffn_call.llc_asynch_request_pas] }

/-- `ws_ffn_pas_trickle`: `trickle_timer` is only called with the PAS trickle
running. -/
def ws_ffn_pas_trickle {T : Type} (ops : trickle_ops T) (cur : mngt_if T) (ticks : Int) :
    mngt_if T :=
  if cur.mngt.trickle_pas_running then
    let r := ops.trickle_timer cur.mngt.trickle_pas ticks
    let cur1 : mngt_if T :=
      { mngt := { cur.mngt with trickle_pas := r.1 },
        calls := cur.calls ++ [ffn_call.trickle_timer_pas r.2] }
    if r.2 then ws_bootstrap_pan_advert_solicit cur1 else cur1
  else cur

/-- `ws_ffn_pas_test_exec`; `PROCEDURE_PAS_TRICKLE_INCON` is the constant of
that name. -/
def ws_ffn_pas_test_exec {T : Type} (PROCEDURE_PAS_TRICKLE_INCON : Int) (ops : trickle_ops T)
    (cur : mngt_if T) (procedure : Int) : mngt_if T :=
  let cur1 : mngt_if T :=
    if procedure ≠ PROCEDURE_PAS_TRICKLE_INCON then ws_bootstrap_pan_advert_solicit cur else cur
  if cur1.mngt.trickle_pas_running then
    { mngt := { cur1.mngt with
        trickle_pas := ops.trickle_inconsistent_heard cur1.mngt.trickle_pas },
      calls := cur1.calls ++ [ffn_call.trickle_inconsistent_heard_pas] }
  else cur1

/-- `ws_ffn_pcs_test_exec`; `state_active` is what `ws_bootstrap_state_active`
returns (it is only asked with the PCS trickle not running). -/
def ws_ffn_pcs_test_exec {T : Type} (PROCEDURE_PCS_TRICKLE_INCON : Int) (ops : trickle_ops T)
    (cur : mngt_if T) (procedure : Int) (state_active : Bool) : mngt_if T :=
  if cur.mngt.trickle_pcs_running || state_active then
    let cur1 : mngt_if T :=
      if procedure ≠ PROCEDURE_PCS_TRICKLE_INCON then ws_bootstrap_pan_config_solicit cur
      else cur
    if cur1.mngt.trickle_pcs_running then
      { mngt := { cur1.mngt with
          trickle_pcs := ops.trickle_inconsistent_heard cur1.mngt.trickle_pcs },
        calls := cur1.calls ++ [ffn_call.trickle_inconsistent_heard_pcs] }
    else cur1
  else cur

/-- The fields of `cur->ws_info.test_proc_trg` used by the test triggers, each
holding the value of the C field. -/
structure test_proc_trg_t where
  pas_trigger_timer : Int
  pas_trigger_count : Nat
  eapol_trigger_timer : Int
  pcs_trigger_timer : Int
  pcs_trigger_count : Nat
deriving DecidableEq, Repr

/-- The part of `struct net_if` that the test triggers read or write: the two
running flags, `trickle_params.Imin`, `test_proc_trg` and the log of the
collaborator calls. -/
structure test_if where
  trickle_pas_running : Bool
  trickle_pcs_running : Bool
  Imin : Int
  test_proc_trg : test_proc_trg_t
  calls : List ffn_call

/-- The three procedure numbers passed on by the test triggers. -/
structure test_procedures where
  PROCEDURE_PAS : Int
  PROCEDURE_PAS_TRICKLE_INCON : Int
  PROCEDURE_EAPOL : Int
  PROCEDURE_PCS : Int
  PROCEDURE_PCS_TRICKLE_INCON : Int

/-- `ws_ffn_pas_test_trigger`; `/` is C's truncating division. -/
def ws_ffn_pas_test_trigger (P : test_procedures) (cur : test_if) (seconds : Int) : test_if :=
  if cur.trickle_pas_running then
    let cur1 : test_if :=
      if cur.test_proc_trg.pas_trigger_timer > seconds then
        { cur with test_proc_trg := { cur.test_proc_trg with
            pas_trigger_timer := cur.test_proc_trg.pas_trigger_timer - seconds } }
      else
        let c : test_if :=
          if cur.test_proc_trg.pas_trigger_count > 2 then
            { cur with calls := cur.calls ++
                [ffn_call.test_procedure_trigger_exec P.PROCEDURE_PAS_TRICKLE_INCON] }
          else
            { cur with
              test_proc_trg := { cur.test_proc_trg with
                pas_trigger_count := cur.test_proc_trg.pas_trigger_count + 1 },
              calls := cur.calls ++ [ffn_call.test_procedure_trigger_exec P.PROCEDURE_PAS] }
        { c with test_proc_trg := { c.test_proc_trg with
            pas_trigger_timer := c.Imin.tdiv 10 } }
    if cur1.test_proc_trg.eapol_trigger_timer > seconds then
      { cur1 with test_proc_trg := { cur1.test_proc_trg with
          eapol_trigger_timer := cur1.test_proc_trg.eapol_trigger_timer - seconds } }
    else
      { cur1 with
        test_proc_trg := { cur1.test_proc_trg with
          eapol_trigger_timer := (cur1.Imin.tdiv 10).tdiv 2 },
        calls := cur1.calls ++ [ffn_call.test_procedure_trigger_exec P.PROCEDURE_EAPOL] }
  else cur

/-- `ws_ffn_pcs_test_trigger`. -/
def ws_ffn_pcs_test_trigger (P : test_procedures) (cur : test_if) (seconds : Int) : test_if :=
  if cur.trickle_pcs_running then
    if cur.test_proc_trg.pcs_trigger_timer > seconds then
      { cur with test_proc_trg := { cur.test_proc_trg with
          pcs_trigger_timer := cur.test_proc_trg.pcs_trigger_timer - seconds } }
    else
      let c : test_if :=
        if cur.test_proc_trg.pcs_trigger_count > 2 then
          { cur with calls := cur.calls ++
              [ffn_call.test_procedure_trigger_exec P.PROCEDURE_PCS_TRICKLE_INCON] }
        else
          { cur with
            test_proc_trg := { cur.test_proc_trg with
              pcs_trigger_count := cur.test_proc_trg.pcs_trigger_count + 1 },
            calls := cur.calls ++ [ffn_call.test_procedure_trigger_exec P.PROCEDURE_PCS] }
      { c with test_proc_trg := { c.test_proc_trg with
          pcs_trigger_timer := c.Imin.tdiv 10 } }
  else cur

/-! ## `ws_bootstrap_ffn.c`: the housekeeping countdowns -/

/-- `ws_bsi_block_t` (`ws_common.h`): `uint32_t block_time`, `uint16_t old_bsi`. -/
structure ws_bsi_block_t where
  block_time : Nat
  old_bsi : Nat
deriving DecidableEq, Repr

/-- The fields read or written by `ws_bootstrap_ffn_seconds_timer`:
`pan_timeout_timer` (`uint32_t`), `aro_registration_timer` (`uint16_t`),
`ws_bsi_block`, the configured `cfg->timing.pan_timeout`, and `env`, the rest
of the interface that its collaborators work on. -/
structure seconds_info (E : Type) where
  pan_timeout_timer : Nat
  aro_registration_timer : Nat
  ws_bsi_block : ws_bsi_block_t
  pan_timeout : Nat
  env : E

/-- What the three collaborators called by `ws_bootstrap_ffn_seconds_timer` do
to the interface: `rpl_control_dao_timeout`, `ws_bootstrap_event_disconnect`
(with `WS_FAST_DISCONNECT`) and `ws_address_registration_update`, of which the
source says that it "will update the timer value if needed". -/
structure seconds_ops (E : Type) where
  rpl_control_dao_timeout : seconds_info E → seconds_info E
  ws_bootstrap_event_disconnect : seconds_info E → seconds_info E
  ws_address_registration_update : seconds_info E → seconds_info E

/-- The interface as seen by the housekeeping countdowns, with the log of the
collaborator calls made so far. -/
structure seconds_if (E : Type) where
  info : seconds_info E
  calls : List ffn_call

/-- The PAN timeout block of `ws_bootstrap_ffn_seconds_timer`; the
subtraction is the `uint32_t` one. -/
def seconds_timer_pan {E : Type} (ops : seconds_ops E) (cur : seconds_if E) (seconds : Nat) :
    seconds_if E :=
  if cur.info.pan_timeout_timer ≠ 0 then
    if cur.info.pan_timeout_timer > seconds then
      let c : seconds_if E :=
        { cur with info := { cur.info with
            pan_timeout_timer := (cur.info.pan_timeout_timer - seconds) % 4294967296 } }
      if c.info.pan_timeout_timer < c.info.pan_timeout / 10 then
        { info := ops.rpl_control_dao_timeout c.info,
          calls := c.calls ++ [ffn_call.rpl_control_dao_timeout] }
      else c
    else
      { info := ops.ws_bootstrap_event_disconnect { cur.info with pan_timeout_timer := 0 },
        calls := cur.calls ++ [ffn_call.event_disconnect_fast] }
  else cur

/-- The address registration block; the result of the `uint32_t` subtraction
is stored in the `uint16_t` field. -/
def seconds_timer_aro {E : Type} (ops : seconds_ops E) (cur : seconds_if E) (seconds : Nat) :
    seconds_if E :=
  if cur.info.aro_registration_timer ≠ 0 then
    if cur.info.aro_registration_timer > seconds then
      { cur with info := { cur.info with
          aro_registration_timer :=
            ((cur.info.aro_registration_timer - seconds) % 4294967296) % 65536 } }
    else
      { info := ops.ws_address_registration_update
          { cur.info with aro_registration_timer := 0 },
        calls := cur.calls ++ [ffn_call.address_registration_update] }
  else cur

/-- The BSI block of `ws_bootstrap_ffn_seconds_timer`. -/
def seconds_timer_bsi {E : Type} (cur : seconds_if E) (seconds : Nat) : seconds_if E :=
  if cur.info.ws_bsi_block.block_time ≠ 0 then
    if cur.info.ws_bsi_block.block_time > seconds then
      { cur with info := { cur.info with
          ws_bsi_block := { cur.info.ws_bsi_block with
            block_time := (cur.info.ws_bsi_block.block_time - seconds) % 4294967296 } } }
    else
      { cur with info := { cur.info with
          ws_bsi_block := { block_time := 0, old_bsi := 0 } } }
  else cur

/-- `ws_bootstrap_ffn_seconds_timer`: the three blocks in the order of the
source; `seconds` is a `uint32_t`. -/
def ws_bootstrap_ffn_seconds_timer {E : Type} (ops : seconds_ops E) (cur : seconds_if E)
    (seconds : Nat) : seconds_if E :=
  seconds_timer_bsi (seconds_timer_aro ops (seconds_timer_pan ops cur seconds) seconds) seconds

/-! ## Ordering predicates used in the statements -/

/-- Best-first order of a list of slots: no entry is ranked by the comparator
strictly above an entry that precedes it. -/
def best_first (PRC_WEIGHT_FACTOR PS_WEIGHT_FACTOR : Nat) (pool : Nat → parent_info_t)
    (l : List Nat) : Prop :=
  l.Pairwise (fun a b =>
    ws_bootstrap_ffn_candidate_parent_compare PRC_WEIGHT_FACTOR PS_WEIGHT_FACTOR
      (pool a) (pool b) = false)

/-- The reserved list produced by the resort from the list without the entry:
the splice chosen by the scan result. -/
def sort_splice (w1 w2 : Nat) (pool : Nat → parent_info_t) (e : Nat) (m : List Nat) : List Nat :=
  match candidate_parent_sort_scan w1 w2 pool e m with
  | some y => ns_list_add_before m y e
  | none => ns_list_add_to_end m e

/-- Well-formed lists: an entry is linked at most once in each list and never
in both (an intrusive link can be on one list only). -/
def table_wf (cur : parent_table) : Prop :=
  cur.parent_list_reserved.Nodup ∧ cur.parent_list_free.Nodup ∧
    ∀ x ∈ cur.parent_list_free, x ∉ cur.parent_list_reserved

instance table_wf_decidable (cur : parent_table) : Decidable (table_wf cur) := by
  unfold table_wf
  infer_instance

/-- The second table has well-formed lists and as many entries on its two
lists together as the first. -/
def conserved (a b : parent_table) : Prop :=
  table_wf b ∧
    b.parent_list_reserved.length + b.parent_list_free.length =
      a.parent_list_reserved.length + a.parent_list_free.length

/-- The addresses carried by the listed slots are pairwise distinct. -/
def addr_distinct (pool : Nat → parent_info_t) (l : List Nat) : Prop :=
  (l.map (fun e => (pool e).addr)).Nodup

instance addr_distinct_decidable (pool : Nat → parent_info_t) (l : List Nat) :
    Decidable (addr_distinct pool l) := by
  unfold addr_distinct
  infer_instance

/-- Every listed slot has a failure count of at most 2. -/
def fail_bounded (pool : Nat → parent_info_t) (l : List Nat) : Prop :=
  ∀ x ∈ l, (pool x).tx_fail ≤ 2

instance fail_bounded_decidable (pool : Nat → parent_info_t) (l : List Nat) :
    Decidable (fail_bounded pool l) := by
  unfold fail_bounded
  infer_instance

/-! ## Concrete records and tables used as inputs -/

/-- A record with every field zero and not link-acceptable. -/
def blank_parent : parent_info_t :=
  { addr := 0, pan_id := 0, routing_cost := 0, pan_size := 0, use_parent_bs := false,
    signal_dbm := 0, tx_fail := 0, link_acceptable := false }

/-- A candidate that is not link-acceptable. -/
def cand_weak : parent_info_t := { blank_parent with addr := 1, signal_dbm := -90 }

/-- A link-acceptable candidate, otherwise equal in rank keys to `cand_weak`. -/
def cand_good : parent_info_t :=
  { blank_parent with addr := 2, signal_dbm := -90, link_acceptable := true }

/-- A candidate with one failure. -/
def cand_failed : parent_info_t := { blank_parent with addr := 3, tx_fail := 1 }

instance best_first_decidable (w1 w2 : Nat) (pool : Nat → parent_info_t) (l : List Nat) :
    Decidable (best_first w1 w2 pool l) := by
  unfold best_first
  infer_instance

/-- A table with one resident candidate that has failed once and one free
slot. -/
def table_one_failed : parent_table :=
  { pool := fun i => if i = 0 then cand_failed else blank_parent,
    parent_list_free := [1],
    parent_list_reserved := [0] }

/-- A full table of two candidates, both with one failure, in best-first
order: slot 0 (address 3, 0 dBm) before slot 1 (address 4, -10 dBm). -/
def table_full_failed : parent_table :=
  { pool := fun i =>
      if i = 0 then cand_failed
      else { blank_parent with addr := 4, tx_fail := 1, signal_dbm := -10 },
    parent_list_free := [],
    parent_list_reserved := [0, 1] }

/-- A full table of two fresh candidates: slot 0 (address 10) before slot 1
(address 11). -/
def table_full_fresh : parent_table :=
  { pool := fun i => { blank_parent with addr := 10 + i },
    parent_list_free := [],
    parent_list_reserved := [0, 1] }

/-! ## The insertion scenario -/

/-- How the scenarios insert a candidate heard with the given PAN cost fields
and signal level: `get` with `create`, write the fields into the returned
entry, resort it. -/
def candidate_insert (w1 w2 : Nat) (cur : parent_table) (addr routing_cost pan_size : Nat)
    (signal_dbm : Int) : parent_table :=
  match ws_bootstrap_ffn_candidate_parent_get cur addr true with
  | (cur1, some entry) =>
    ws_bootstrap_ffn_candidate_parent_sort w1 w2
      { cur1 with pool := pool_set cur1.pool entry
                    ({ cur1.pool entry with
                       routing_cost := routing_cost, pan_size := pan_size,
                       signal_dbm := signal_dbm }) }
      entry
  | (cur1, none) => cur1

/-- An empty table of capacity 4: slots 0 to 3 on the free list, with
whatever the pool memory holds. -/
def empty_table4 (pool : Nat → parent_info_t) : parent_table :=
  { pool := pool, parent_list_free := [0, 1, 2, 3], parent_list_reserved := [] }

/-- The scenario table: A (address 0xA, weighted cost 10, -60 dBm), B (address
0xB, weighted cost 10, -50 dBm) and C (address 0xC, weighted cost 5, -70 dBm)
inserted in that order into an empty capacity-4 table, with weight factors 256
and 64. -/
def scenario_table : parent_table :=
  candidate_insert 256 64
    (candidate_insert 256 64
      (candidate_insert 256 64 (empty_table4 (fun _ => blank_parent)) 0xA 2560 0 (-60))
      0xB 2560 0 (-50))
    0xC 1280 0 (-70)

/-! ## Concrete interfaces used as inputs -/

/-- A trickle timer without state that fires on every call. -/
def always_fire : trickle_ops Unit :=
  { trickle_timer := fun t _ => (t, true), trickle_inconsistent_heard := fun t => t }

/-- The configuration solicit phase just entered: PCS trickle running, no
solicit sent yet, `pcs_max_timeout` as given. -/
def pcs_start (pcs_max_timeout : Int) : mngt_if Unit :=
  { mngt := { trickle_pas := (), trickle_pcs := (), trickle_pas_running := false,
              trickle_pcs_running := true, pcs_count := 0,
              pcs_max_timeout := pcs_max_timeout },
    calls := [] }

/-- PAN information with every field zero. -/
def blank_pan_information : ws_pan_information :=
  { pan_size := 0, routing_cost := 0, use_parent_bs := false, pan_version := 0,
    lpan_version := 0 }

/-- Two fresh candidates, slot 0 (address 10, PAN id 100) before slot 1
(address 11, PAN id 101), and two free slots. -/
def bind_table : parent_table :=
  { pool := fun i => { blank_parent with addr := 10 + i, pan_id := 100 + i },
    parent_list_free := [2, 3],
    parent_list_reserved := [0, 1] }

/-- An interface on PAN 5 holding `bind_table`, no collaborator call made yet. -/
def bind_net_if : net_if :=
  { parents := bind_table, network_pan_id := 5, pan_information := blank_pan_information,
    calls := [] }

/-- An interface on PAN 5 with an empty candidate table of capacity 4. -/
def empty_net_if : net_if :=
  { parents := empty_table4 (fun _ => blank_parent), network_pan_id := 5,
    pan_information := blank_pan_information, calls := [] }

/-- An interface on PAN 5 whose only candidate (slot 0, address 10) has
already failed twice. -/
def lone_net_if : net_if :=
  { parents :=
      { pool := fun i => { blank_parent with addr := 10 + i, pan_id := 100 + i, tx_fail := 2 },
        parent_list_free := [1, 2, 3],
        parent_list_reserved := [0] },
    network_pan_id := 5, pan_information := blank_pan_information, calls := [] }

/-! ## Further predicates and concrete inputs -/

/-- A candidate with weighted PAN cost 2 under the factors 256 and 64, heard
at -80 dBm. -/
def cand_near : parent_info_t :=
  { blank_parent with addr := 4, routing_cost := 512, signal_dbm := -80 }

/-- A candidate with weighted PAN cost 4 under the factors 256 and 64, heard
at -40 dBm. -/
def cand_far : parent_info_t :=
  { blank_parent with addr := 5, routing_cost := 1024, signal_dbm := -40 }

/-- A solicit handed to the LLC: the `ws_llc_asynch_request` of a PAN
Advertisement Solicit or of a PAN Configuration Solicit. -/
def solicit_request (c : ffn_call) : Prop :=
  c = ffn_call.llc_asynch_request_pas ∨ c = ffn_call.llc_asynch_request_pcs

instance : DecidablePred solicit_request := fun c => by
  unfold solicit_request
  exact inferInstance

/-- A collaborator that writes none of the three housekeeping counters (nor
the blocked identifier). -/
def keeps_counters {E : Type} (f : seconds_info E → seconds_info E) : Prop :=
  ∀ i, (f i).pan_timeout_timer = i.pan_timeout_timer ∧
    (f i).aro_registration_timer = i.aro_registration_timer ∧
    (f i).ws_bsi_block = i.ws_bsi_block

/-- A collaborator that does not write `pan_timeout_timer`. -/
def keeps_pan_timeout {E : Type} (f : seconds_info E → seconds_info E) : Prop :=
  ∀ i, (f i).pan_timeout_timer = i.pan_timeout_timer

/-- A collaborator that does not write `ws_bsi_block`. -/
def keeps_bsi_block {E : Type} (f : seconds_info E → seconds_info E) : Prop :=
  ∀ i, (f i).ws_bsi_block = i.ws_bsi_block

/-- The value a 32-bit countdown holding `t` is given by a call with `seconds`. -/
def countdown32 (t seconds : Nat) : Nat :=
  if t ≠ 0 then (if t > seconds then (t - seconds) % 4294967296 else 0) else t

/-- The value the 16-bit countdown holding `t` is given by a call with
`seconds`. -/
def countdown16 (t seconds : Nat) : Nat :=
  if t ≠ 0 then (if t > seconds then (t - seconds) % 4294967296 % 65536 else 0) else t

/-- The collaborator calls of the PAN timeout block for a countdown holding
`t` and the configured `pan_timeout`. -/
def pan_block_calls (t pan_timeout seconds : Nat) : List ffn_call :=
  if t ≠ 0 then
    if t > seconds then
      (if (t - seconds) % 4294967296 < pan_timeout / 10 then
        [ffn_call.rpl_control_dao_timeout] else [])
    else [ffn_call.event_disconnect_fast]
  else []

/-- The collaborator calls of the address registration block for a countdown
holding `t`. -/
def aro_block_calls (t seconds : Nat) : List ffn_call :=
  if t ≠ 0 ∧ ¬ t > seconds then [ffn_call.address_registration_update] else []

/-- Collaborators that leave the interface alone. -/
def idle_seconds_ops : seconds_ops Unit :=
  { rpl_control_dao_timeout := fun i => i,
    ws_bootstrap_event_disconnect := fun i => i,
    ws_address_registration_update := fun i => i }

/-- An interface with the three countdowns at the given values, a configured
PAN timeout of 3600 s and the blocked identifier 7. -/
def seconds_start (pan aro bsi : Nat) : seconds_if Unit :=
  { info := { pan_timeout_timer := pan, aro_registration_timer := aro,
              ws_bsi_block := { block_time := bsi, old_bsi := 7 },
              pan_timeout := 3600, env := () },
    calls := [] }

/-- One call of a solicit trickle entry point: `ws_ffn_pas_trickle` or
`ws_ffn_pcs_trickle` with the given `ticks`. -/
inductive trickle_tick where
  | pas (ticks : Int)
  | pcs (ticks : Int)
deriving DecidableEq, Repr

/-- Successive calls of the two solicit trickle entry points, in the order of
the list. -/
def trickle_tick_run {T : Type} (PCS_MAX : Nat) (ops : trickle_ops T) (cur : mngt_if T)
    (l : List trickle_tick) : mngt_if T :=
  l.foldl (fun c e =>
    match e with
    | trickle_tick.pas ticks => ws_ffn_pas_trickle ops c ticks
    | trickle_tick.pcs ticks => ws_ffn_pcs_trickle PCS_MAX ops c ticks) cur

/-- Both solicit trickles running, 100 ticks of configuration solicit timeout
left, nothing logged. -/
def both_running : mngt_if Unit :=
  { mngt := { trickle_pas := (), trickle_pcs := (), trickle_pas_running := true,
              trickle_pcs_running := true, pcs_count := 0, pcs_max_timeout := 100 },
    calls := [] }

/-- Collaborators of which `ws_address_registration_update` sets the address
registration timer to 120 s and the others leave the interface alone. -/
def rearming_seconds_ops : seconds_ops Unit :=
  { rpl_control_dao_timeout := fun i => i,
    ws_bootstrap_event_disconnect := fun i => i,
    ws_address_registration_update := fun i => { i with aro_registration_timer := 120 } }

end WsFfn

/-! ## `timers.c`: the tick dispatcher -/

namespace WsTimers

/-- The state a timer callback can reach: the `timeout` column of `s_timers`
(callbacks change it through `timer_start` and `timer_stop`) and the rest of
the process state, `env`. -/
structure timer_world (E : Type) where
  timeout : Nat → Int
  env : E

/-- The constant columns of one entry of `s_timers`: the callback, run to
completion on the reachable state, `period_ms` and `periodic`. -/
structure timer_entry (E : Type) where
  callback : Int → timer_world E → timer_world E
  period_ms : Int
  periodic : Bool

/-- `timer_start`.  `BUG_ON` aborts the process (none) when the period is not
a multiple of `TIMER_GLOBAL_PERIOD_MS`; `%` and `/` are C's truncating
operators on `int`.  An `id` outside the table is not a value of
`enum timer_id`. -/
def timer_start {E : Type} (TIMER_GLOBAL_PERIOD_MS : Int) (s_timers : List (timer_entry E))
    (id : Nat) (w : timer_world E) : Option (timer_world E) :=
  match s_timers.get? id with
  | none => none
  | some t =>
    if t.period_ms.tmod TIMER_GLOBAL_PERIOD_MS ≠ 0 then none
    else
      some { w with timeout := fun j =>
        if j = id then t.period_ms.tdiv TIMER_GLOBAL_PERIOD_MS else w.timeout j }

/-- `timer_stop`. -/
def timer_stop {E : Type} (id : Nat) (w : timer_world E) : timer_world E :=
  { w with timeout := fun j => if j = id then 0 else w.timeout j }

/-- The body of the loop of `timer_global_tick` for index `i`.  The state is
paired with the list of the indices whose callback has been invoked so far in
this tick (a record kept for the statements; the code keeps none). -/
def timer_tick_step {E : Type} (TIMER_GLOBAL_PERIOD_MS : Int) (s_timers : List (timer_entry E))
    (i : Nat) (st : timer_world E × List Nat) : Option (timer_world E × List Nat) :=
  match s_timers.get? i with
  | none => some st
  | some t =>
    if st.1.timeout i = 0 then some st
    else
      let w1 : timer_world E :=
        { st.1 with timeout := fun j => if j = i then st.1.timeout i - 1 else st.1.timeout j }
      if w1.timeout i ≠ 0 then some (w1, st.2)
      else
        let w2 := t.callback 1 w1
        if t.periodic then
          match timer_start TIMER_GLOBAL_PERIOD_MS s_timers i w2 with
          | none => none
          | some w3 => some (w3, st.2 ++ [i])
        else some (w2, st.2 ++ [i])

/-- The loop of `timer_global_tick` over the given indices, in order. -/
def timer_tick_loop {E : Type} (TIMER_GLOBAL_PERIOD_MS : Int) (s_timers : List (timer_entry E)) :
    List Nat → timer_world E × List Nat → Option (timer_world E × List Nat)
  | [], st => some st
  | i :: rest, st =>
    match timer_tick_step TIMER_GLOBAL_PERIOD_MS s_timers i st with
    | none => none
    | some st1 => timer_tick_loop TIMER_GLOBAL_PERIOD_MS s_timers rest st1

/-- `timer_global_tick`: the loop for `i` from 0 to `ARRAY_SIZE(s_timers) - 1`.
Returns the new state and the indices whose callback was invoked, in order of
invocation; none when a `BUG_ON` aborted. -/
def timer_global_tick {E : Type} (TIMER_GLOBAL_PERIOD_MS : Int) (s_timers : List (timer_entry E))
    (w : timer_world E) : Option (timer_world E × List Nat) :=
  timer_tick_loop TIMER_GLOBAL_PERIOD_MS s_timers (List.range s_timers.length) (w, [])

/-- `n` consecutive calls of `timer_global_tick`; the second component lists,
for each call in order, the indices whose callback it invoked. -/
def timer_run {E : Type} (TIMER_GLOBAL_PERIOD_MS : Int) (s_timers : List (timer_entry E)) :
    Nat → timer_world E → Option (timer_world E × List (List Nat))
  | 0, w => some (w, [])
  | n + 1, w =>
    match timer_global_tick TIMER_GLOBAL_PERIOD_MS s_timers w with
    | none => none
    | some (w1, fired) =>
      match timer_run TIMER_GLOBAL_PERIOD_MS s_timers n w1 with
      | none => none
      | some (w2, log) => some (w2, fired :: log)

/-- A two-entry table over a counter: entry 0 is periodic with period 300 ms
and adds one to the counter, entry 1 is periodic with period 100 ms and leaves
the state alone. -/
def demo_timers : List (timer_entry Nat) :=
  [ { callback := fun _ w => { w with env := w.env + 1 }, period_ms := 300, periodic := true },
    { callback := fun _ w => w, period_ms := 100, periodic := true } ]

/-- All timers dormant, counter 0. -/
def demo_world : timer_world Nat := { timeout := fun _ => 0, env := 0 }

/-- A one-entry table: a one-shot timer of period 300 ms whose callback starts
the timer again (the effect of `timer_start` on it with base period 100 ms:
countdown 3). -/
def selfstart_timers : List (timer_entry Nat) :=
  [ { callback := fun _ w => { w with timeout := fun j => if j = 0 then 3 else w.timeout j },
      period_ms := 300, periodic := false } ]

/-- Timer 0 about to expire (countdown 1), counter 0. -/
def expiring_world : timer_world Nat := { timeout := fun j => if j = 0 then 1 else 0, env := 0 }

/-- A one-entry table whose period, 250 ms, is no multiple of a base period of
100 ms. -/
def misfit_timers : List (timer_entry Nat) :=
  [ { callback := fun _ w => w, period_ms := 250, periodic := true } ]

/-- A three-entry table: the callback of entry 0 (one-shot) stops timer 1 and
starts timer 2 (the effect of `timer_start` on it with base period 100 ms:
countdown 3); entry 1 is periodic with period 100 ms, entry 2 is one-shot with
period 300 ms, and their callbacks leave the state alone. -/
def relay_timers : List (timer_entry Nat) :=
  [ { callback := fun _ w =>
        { w with timeout := fun j =>
            if j = 2 then 3 else (timer_stop 1 w).timeout j },
      period_ms := 100, periodic := false },
    { callback := fun _ w => w, period_ms := 100, periodic := true },
    { callback := fun _ w => w, period_ms := 300, periodic := false } ]

/-- Timers 0 and 1 about to expire (countdown 1), timer 2 dormant. -/
def relay_world : timer_world Nat :=
  { timeout := fun j => if j = 0 then 1 else if j = 1 then 1 else 0, env := 0 }

/-- A two-entry table of timers with period 300 ms whose callbacks call
`timer_stop` on their own timer: entry 0 is periodic, entry 1 is one-shot. -/
def selfstop_timers : List (timer_entry Nat) :=
  [ { callback := fun _ w => timer_stop 0 w, period_ms := 300, periodic := true },
    { callback := fun _ w => timer_stop 1 w, period_ms := 300, periodic := false } ]

/-- Both timers about to expire (countdown 1). -/
def both_expiring : timer_world Nat := { timeout := fun _ => 1, env := 0 }

end WsTimers

/-! ## The trickle timer (section 4.2 of the specification) -/

namespace TrickleTimer

/-- Modelled from the spec: the TrickleTimer record of the data model (the
trickle timer implementation is not among the sources): `Imin`, `Imax` (the
maximum doubling count), the redundancy constant `k`, the current interval
`I`, the fired-count `c`, the time-to-expiry `t`, and whether it is running. -/
structure trickle_t where
  Imin : Nat
  Imax : Nat
  k : Nat
  I : Nat
  c : Nat
  t : Int
  running : Bool
deriving DecidableEq, Repr

/-- Modelled from the spec: "random in [I/2, I]"; `r` is the number delivered
by the random source, reduced into the range. -/
def draw (I r : Nat) : Int := ((I / 2 + r % (I - I / 2 + 1) : Nat) : Int)

/-- Modelled from the spec: `start()`: I = Imin, t = random in [I/2, I],
c = 0, running. -/
def start (s : trickle_t) (r : Nat) : trickle_t :=
  { s with I := s.Imin, t := draw s.Imin r, c := 0, running := true }

/-- Modelled from the spec: `tick(n)`: decrement t by n; on t ≤ 0: if c < k
the caller is told to transmit; regardless, double I up to Imax (the interval
`Imin * 2 ^ Imax`), reset c = 0, draw new t in [I/2, I].  A no-op when not
running.  The result is the new state and whether to transmit. -/
def tick (s : trickle_t) (n r : Nat) : trickle_t × Bool :=
  if s.running then
    if s.t - (n : Int) ≤ 0 then
      ({ s with I := min (2 * s.I) (s.Imin * 2 ^ s.Imax), c := 0,
                t := draw (min (2 * s.I) (s.Imin * 2 ^ s.Imax)) r },
        decide (s.c < s.k))
    else ({ s with t := s.t - (n : Int) }, false)
  else (s, false)

/-- Modelled from the spec: `heard_transmission()`: increments c. -/
def heard_transmission (s : trickle_t) : trickle_t := { s with c := s.c + 1 }

/-- Modelled from the spec: `heard_inconsistency()`: resets I = Imin and
re-draws t immediately. -/
def heard_inconsistency (s : trickle_t) (r : Nat) : trickle_t :=
  { s with I := s.Imin, t := draw s.Imin r }

/-- Modelled from the spec: `stop()`: running = false. -/
def stop (s : trickle_t) : trickle_t := { s with running := false }

/-- One operation on a trickle timer, with the numbers the random source
delivers to it. -/
inductive trickle_op where
  | start (r : Nat)
  | tick (n r : Nat)
  | heard_transmission
  | heard_inconsistency (r : Nat)
  | stop
deriving DecidableEq, Repr

/-- The effect of one operation on the state. -/
def apply_op (s : trickle_t) : trickle_op → trickle_t
  | trickle_op.start r => start s r
  | trickle_op.tick n r => (tick s n r).1
  | trickle_op.heard_transmission => heard_transmission s
  | trickle_op.heard_inconsistency r => heard_inconsistency s r
  | trickle_op.stop => stop s

/-- A sequence of operations, in order. -/
def run (s : trickle_t) (ops : List trickle_op) : trickle_t := ops.foldl apply_op s

/-- The invariant of the data model: `Imin ≤ I ≤ Imin * 2 ^ Imax`. -/
def interval_bounded (s : trickle_t) : Prop :=
  s.Imin ≤ s.I ∧ s.I ≤ s.Imin * 2 ^ s.Imax

instance (s : trickle_t) : Decidable (interval_bounded s) := by
  unfold interval_bounded
  exact inferInstance

/-- A trickle timer with `Imin = 4`, at most 3 doublings and `k = 1`, not yet
started; its other fields hold arbitrary values. -/
def fresh_trickle : trickle_t :=
  { Imin := 4, Imax := 3, k := 1, I := 1000, c := 7, t := -5, running := false }

end TrickleTimer

/-! ## `bus_uart.c`: the frame check sequence -/

namespace BusUart

/-- The body of the loop of `crc16` for the data byte `b`: `x` is a
`uint8_t`, `crc` a `uint16_t`, and every assignment truncates to the width of
its target. -/
def crc16_step (crc b : Nat) : Nat :=
  let x0 := ((crc >>> 8) ^^^ b) % 256
  let x := (x0 ^^^ (x0 >>> 4)) % 256
  let c1 := (crc <<< 8) % 65536
  let c2 := (c1 ^^^ (x <<< 12)) % 65536
  let c3 := (c2 ^^^ (x <<< 5)) % 65536
  (c3 ^^^ x) % 65536

/-- `crc16`: the register starts at 0 and the loop runs once for each of the
`len` bytes of `data`, in order. -/
def crc16 (data : List Nat) : Nat := data.foldl crc16_step 0

/-- The reference CRC-16/XMODEM, one bit: the 16-bit register is shifted left
by one, and the polynomial 0x1021 is xored in when the bit shifted out is 1. -/
def crc16_xmodem_shift (crc : Nat) : Nat :=
  if crc.testBit 15 then ((crc <<< 1) ^^^ 0x1021) % 65536 else (crc <<< 1) % 65536

/-- The reference CRC-16/XMODEM: `n` successive bits. -/
def crc16_xmodem_shifts : Nat → Nat → Nat
  | 0, crc => crc
  | n + 1, crc => crc16_xmodem_shifts n (crc16_xmodem_shift crc)

/-- The reference CRC-16/XMODEM, one byte: the byte is xored into the high
byte of the register (no input reflection), then eight bits are shifted. -/
def crc16_xmodem_byte (crc b : Nat) : Nat := crc16_xmodem_shifts 8 (crc ^^^ (b <<< 8))

/-- The reference bit-serial CRC-16/XMODEM of a byte sequence: initial value
0, the bytes in order, no output reflection and no final xor. -/
def crc16_xmodem (data : List Nat) : Nat := data.foldl crc16_xmodem_byte 0

/-- What the loop body of `crc16` xors into the shifted register, as a
function of `y`, the high byte of the register xored with the data byte. -/
def crc16_high (y : Nat) : Nat :=
  (((y ^^^ (y >>> 4)) % 256) <<< 12 ^^^ ((y ^^^ (y >>> 4)) % 256) <<< 5 ^^^
    ((y ^^^ (y >>> 4)) % 256)) % 65536

/-- The nine ASCII digits "123456789", the customary check input of CRC
catalogues. -/
def check_digits : List Nat := [0x31, 0x32, 0x33, 0x34, 0x35, 0x36, 0x37, 0x38, 0x39]

end BusUart

/-! ## Theorems -/

namespace WsFfn

/-- The comparator as a lexicographic comparison of its four keys. -/
theorem compare_iff (w1 w2 : Nat) (a b : parent_info_t) :
    ws_bootstrap_ffn_candidate_parent_compare w1 w2 a b = true ↔
      (b.tx_fail < a.tx_fail ∨ (b.tx_fail = a.tx_fail ∧
        ((a.link_acceptable = true ∧ b.link_acceptable = false) ∨
          (a.link_acceptable = b.link_acceptable ∧
            (pan_cost w1 w2 b < pan_cost w1 w2 a ∨
              (pan_cost w1 w2 b = pan_cost w1 w2 a ∧ a.signal_dbm < b.signal_dbm)))))) := by
  unfold ws_bootstrap_ffn_candidate_parent_compare
  generalize pan_cost w1 w2 a = ca
  generalize pan_cost w1 w2 b = cb
  cases hla : a.link_acceptable <;> cases hlb : b.link_acceptable <;>
    simp only [] <;> split_ifs <;> simp_all <;> omega

theorem compare_false_iff (w1 w2 : Nat) (a b : parent_info_t) :
    ws_bootstrap_ffn_candidate_parent_compare w1 w2 a b = false ↔
      ¬ (b.tx_fail < a.tx_fail ∨ (b.tx_fail = a.tx_fail ∧
        ((a.link_acceptable = true ∧ b.link_acceptable = false) ∨
          (a.link_acceptable = b.link_acceptable ∧
            (pan_cost w1 w2 b < pan_cost w1 w2 a ∨
              (pan_cost w1 w2 b = pan_cost w1 w2 a ∧ a.signal_dbm < b.signal_dbm)))))) := by
  rw [← compare_iff, Bool.not_eq_true]

theorem compare_irrefl (w1 w2 : Nat) (a : parent_info_t) :
    ws_bootstrap_ffn_candidate_parent_compare w1 w2 a a = false := by
  simp [ws_bootstrap_ffn_candidate_parent_compare]

theorem compare_asymm (w1 w2 : Nat) (a b : parent_info_t)
    (h : ws_bootstrap_ffn_candidate_parent_compare w1 w2 a b = true) :
    ws_bootstrap_ffn_candidate_parent_compare w1 w2 b a = false := by
  rw [compare_false_iff]
  rw [compare_iff] at h
  generalize pan_cost w1 w2 a = ca at *
  generalize pan_cost w1 w2 b = cb at *
  cases hla : a.link_acceptable <;> cases hlb : b.link_acceptable <;>
    simp only [hla, hlb] at * <;> simp at * <;> omega

theorem compare_trans (w1 w2 : Nat) (a b c : parent_info_t)
    (hab : ws_bootstrap_ffn_candidate_parent_compare w1 w2 a b = true)
    (hbc : ws_bootstrap_ffn_candidate_parent_compare w1 w2 b c = true) :
    ws_bootstrap_ffn_candidate_parent_compare w1 w2 a c = true := by
  rw [compare_iff] at *
  generalize pan_cost w1 w2 a = ca at *
  generalize pan_cost w1 w2 b = cb at *
  generalize pan_cost w1 w2 c = cc at *
  cases hla : a.link_acceptable <;> cases hlb : b.link_acceptable <;>
    cases hlc : c.link_acceptable <;>
    simp only [hla, hlb, hlc] at * <;> simp at * <;> omega

theorem compare_incomp_trans (w1 w2 : Nat) (a b c : parent_info_t)
    (hab : ws_bootstrap_ffn_candidate_parent_compare w1 w2 a b = false)
    (hba : ws_bootstrap_ffn_candidate_parent_compare w1 w2 b a = false)
    (hbc : ws_bootstrap_ffn_candidate_parent_compare w1 w2 b c = false)
    (hcb : ws_bootstrap_ffn_candidate_parent_compare w1 w2 c b = false) :
    ws_bootstrap_ffn_candidate_parent_compare w1 w2 a c = false ∧
    ws_bootstrap_ffn_candidate_parent_compare w1 w2 c a = false := by
  simp only [compare_false_iff] at *
  generalize pan_cost w1 w2 a = ca at *
  generalize pan_cost w1 w2 b = cb at *
  generalize pan_cost w1 w2 c = cc at *
  cases hla : a.link_acceptable <;> cases hlb : b.link_acceptable <;>
    cases hlc : c.link_acceptable <;>
    simp only [hla, hlb, hlc] at * <;> simp at * <;> omega

/-! ### The scan and the insertion performed by the resort -/

theorem sort_scan_some (w1 w2 : Nat) (pool : Nat → parent_info_t) (e : Nat) :
    ∀ (l : List Nat) (y : Nat), candidate_parent_sort_scan w1 w2 pool e l = some y →
      y ∈ l ∧ y ≠ e ∧
        ws_bootstrap_ffn_candidate_parent_compare w1 w2 (pool y) (pool e) = true := by
  intro l
  induction l with
  | nil => intro y h; simp [candidate_parent_sort_scan] at h
  | cons x xs ih =>
    intro y h
    unfold candidate_parent_sort_scan at h
    by_cases hx : x = e
    · rw [if_pos hx] at h
      obtain ⟨h1, h2, h3⟩ := ih y h
      exact ⟨List.mem_cons_of_mem _ h1, h2, h3⟩
    · rw [if_neg hx] at h
      by_cases hc : ws_bootstrap_ffn_candidate_parent_compare w1 w2 (pool x) (pool e) = true
      · rw [if_pos hc] at h
        have hxy : x = y := Option.some.inj h
        subst hxy
        exact ⟨List.mem_cons_self _ _, hx, hc⟩
      · rw [if_neg hc] at h
        obtain ⟨h1, h2, h3⟩ := ih y h
        exact ⟨List.mem_cons_of_mem _ h1, h2, h3⟩

theorem sort_scan_erase (w1 w2 : Nat) (pool : Nat → parent_info_t) (e : Nat) :
    ∀ l : List Nat, candidate_parent_sort_scan w1 w2 pool e l =
      candidate_parent_sort_scan w1 w2 pool e (l.erase e) := by
  intro l
  induction l with
  | nil => rfl
  | cons x xs ih =>
    by_cases hx : x = e
    · subst hx
      simp [candidate_parent_sort_scan]
    · have hbeq : (x == e) = false := by simpa using hx
      rw [List.erase_cons, hbeq]
      simp only [candidate_parent_sort_scan, if_neg hx, ih, Bool.false_eq_true, if_false]

theorem sort_reserved_eq (w1 w2 : Nat) (cur : parent_table) (e : Nat) :
    (ws_bootstrap_ffn_candidate_parent_sort w1 w2 cur e).parent_list_reserved =
      sort_splice w1 w2 cur.pool e (cur.parent_list_reserved.erase e) := by
  unfold ws_bootstrap_ffn_candidate_parent_sort sort_splice
  rw [← sort_scan_erase]
  cases candidate_parent_sort_scan w1 w2 cur.pool e cur.parent_list_reserved <;> rfl

theorem sort_pool_eq (w1 w2 : Nat) (cur : parent_table) (e : Nat) :
    (ws_bootstrap_ffn_candidate_parent_sort w1 w2 cur e).pool = cur.pool := by
  unfold ws_bootstrap_ffn_candidate_parent_sort
  cases candidate_parent_sort_scan w1 w2 cur.pool e cur.parent_list_reserved <;> rfl

theorem sort_free_eq (w1 w2 : Nat) (cur : parent_table) (e : Nat) :
    (ws_bootstrap_ffn_candidate_parent_sort w1 w2 cur e).parent_list_free =
      cur.parent_list_free := by
  unfold ws_bootstrap_ffn_candidate_parent_sort
  cases candidate_parent_sort_scan w1 w2 cur.pool e cur.parent_list_reserved <;> rfl

/-- Where the resort puts the entry: after the entries it does not beat,
immediately before the first one it beats. -/
theorem sort_splice_decomp (w1 w2 : Nat) (pool : Nat → parent_info_t) (e : Nat) :
    ∀ m : List Nat, e ∉ m →
      ∃ l1 l2, m = l1 ++ l2 ∧ sort_splice w1 w2 pool e m = l1 ++ e :: l2 ∧
        (∀ x ∈ l1, ws_bootstrap_ffn_candidate_parent_compare w1 w2 (pool x) (pool e) = false) ∧
        (∀ y, l2.head? = some y →
          ws_bootstrap_ffn_candidate_parent_compare w1 w2 (pool y) (pool e) = true) := by
  intro m
  induction m with
  | nil =>
    intro _
    exact ⟨[], [], rfl, rfl, by simp, by simp⟩
  | cons x xs ih =>
    intro he
    have hx : x ≠ e := fun h => he (by simp [h])
    have he2 : e ∉ xs := fun h => he (List.mem_cons_of_mem _ h)
    by_cases hc : ws_bootstrap_ffn_candidate_parent_compare w1 w2 (pool x) (pool e) = true
    · refine ⟨[], x :: xs, rfl, ?_, by simp, ?_⟩
      · simp [sort_splice, candidate_parent_sort_scan, hx, hc, ns_list_add_before]
      · intro y hy
        simp only [List.head?_cons, Option.some.injEq] at hy
        rw [← hy]; exact hc
    · obtain ⟨l1, l2, hm, hsp, h1, h2⟩ := ih he2
      refine ⟨x :: l1, l2, by simp [hm], ?_, ?_, h2⟩
      · unfold sort_splice at hsp ⊢
        simp only [candidate_parent_sort_scan, if_neg hx, if_neg hc]
        cases hscan : candidate_parent_sort_scan w1 w2 pool e xs with
        | none =>
          rw [hscan] at hsp
          simp only [ns_list_add_to_end] at hsp ⊢
          simp [hsp]
        | some y =>
          rw [hscan] at hsp
          have hy := (sort_scan_some w1 w2 pool e xs y hscan).2.2
          have hxy : x ≠ y := fun h => hc (h ▸ hy)
          simp only [] at hsp
          simp only [ns_list_add_before, if_neg hxy, hsp, List.cons_append]
      · intro z hz
        rcases List.mem_cons.mp hz with rfl | hz
        · simpa using hc
        · exact h1 z hz

/-- Splicing an entry at the place found by the scan keeps a best-first list
best-first. -/
theorem best_first_splice (w1 w2 : Nat) (pool : Nat → parent_info_t) (e : Nat)
    (l1 l2 : List Nat) (hs : best_first w1 w2 pool (l1 ++ l2))
    (h1 : ∀ x ∈ l1, ws_bootstrap_ffn_candidate_parent_compare w1 w2 (pool x) (pool e) = false)
    (h2 : ∀ y, l2.head? = some y →
      ws_bootstrap_ffn_candidate_parent_compare w1 w2 (pool y) (pool e) = true) :
    best_first w1 w2 pool (l1 ++ e :: l2) := by
  unfold best_first at *
  rw [List.pairwise_append] at hs ⊢
  obtain ⟨hl1, hl2, hcross⟩ := hs
  refine ⟨hl1, ?_, ?_⟩
  · rw [List.pairwise_cons]
    refine ⟨?_, hl2⟩
    intro z hz
    cases l2 with
    | nil => simp at hz
    | cons y ys =>
      have hye := h2 y rfl
      rcases List.mem_cons.mp hz with rfl | hz
      · exact compare_asymm w1 w2 _ _ hye
      · rw [List.pairwise_cons] at hl2
        have hyz := hl2.1 z hz
        cases hez : ws_bootstrap_ffn_candidate_parent_compare w1 w2 (pool e) (pool z) with
        | false => rfl
        | true =>
          have := compare_trans w1 w2 _ _ _ hye hez
          rw [this] at hyz
          exact absurd hyz (by simp)
  · intro a ha b hb
    rcases List.mem_cons.mp hb with rfl | hb
    · exact h1 a ha
    · exact hcross a ha b hb

/-- Best-first order only looks at the records of the listed slots. -/
theorem best_first_congr (w1 w2 : Nat) (pool pool2 : Nat → parent_info_t) (l : List Nat)
    (h : ∀ x ∈ l, pool2 x = pool x) (hs : best_first w1 w2 pool l) :
    best_first w1 w2 pool2 l := by
  unfold best_first at *
  induction l with
  | nil => exact List.Pairwise.nil
  | cons a as ih =>
    rw [List.pairwise_cons] at hs ⊢
    refine ⟨?_, ih (fun x hx => h x (List.mem_cons_of_mem _ hx)) hs.2⟩
    intro b hb
    rw [h a (List.mem_cons_self _ _), h b (List.mem_cons_of_mem _ hb)]
    exact hs.1 b hb

theorem best_first_erase (w1 w2 : Nat) (pool : Nat → parent_info_t) (l : List Nat) (e : Nat)
    (hs : best_first w1 w2 pool l) : best_first w1 w2 pool (l.erase e) :=
  List.Pairwise.sublist (List.erase_sublist e l) hs

/-- The resort of an entry whose neighbours are in best-first order yields a
best-first list. -/
theorem sort_best_first (w1 w2 : Nat) (cur : parent_table) (e : Nat)
    (hnd : cur.parent_list_reserved.Nodup)
    (hs : best_first w1 w2 cur.pool (cur.parent_list_reserved.erase e)) :
    best_first w1 w2 (ws_bootstrap_ffn_candidate_parent_sort w1 w2 cur e).pool
      (ws_bootstrap_ffn_candidate_parent_sort w1 w2 cur e).parent_list_reserved := by
  rw [sort_pool_eq, sort_reserved_eq]
  have he : e ∉ cur.parent_list_reserved.erase e := fun h => (List.Nodup.mem_erase_iff hnd).mp h |>.1 rfl
  obtain ⟨l1, l2, hm, hsp, h1, h2⟩ := sort_splice_decomp w1 w2 cur.pool e _ he
  rw [hsp]
  rw [hm] at hs
  exact best_first_splice w1 w2 cur.pool e l1 l2 hs h1 h2

theorem sort_reserved_decomp (w1 w2 : Nat) (cur : parent_table) (e : Nat)
    (hnd : cur.parent_list_reserved.Nodup) :
    ∃ l1 l2, cur.parent_list_reserved.erase e = l1 ++ l2 ∧
      (ws_bootstrap_ffn_candidate_parent_sort w1 w2 cur e).parent_list_reserved = l1 ++ e :: l2 ∧
      (∀ x ∈ l1,
        ws_bootstrap_ffn_candidate_parent_compare w1 w2 (cur.pool x) (cur.pool e) = false) ∧
      (∀ y, l2.head? = some y →
        ws_bootstrap_ffn_candidate_parent_compare w1 w2 (cur.pool y) (cur.pool e) = true) := by
  rw [sort_reserved_eq]
  have he : e ∉ cur.parent_list_reserved.erase e :=
    fun h => (List.Nodup.mem_erase_iff hnd).mp h |>.1 rfl
  exact sort_splice_decomp w1 w2 cur.pool e _ he

theorem sort_reserved_perm (w1 w2 : Nat) (cur : parent_table) (e : Nat)
    (hnd : cur.parent_list_reserved.Nodup) (he : e ∈ cur.parent_list_reserved) :
    (ws_bootstrap_ffn_candidate_parent_sort w1 w2 cur e).parent_list_reserved.Perm
      cur.parent_list_reserved := by
  obtain ⟨l1, l2, hm, hsp, -, -⟩ := sort_reserved_decomp w1 w2 cur e hnd
  rw [hsp]
  refine List.Perm.trans List.perm_middle ?_
  rw [← hm]
  exact (List.perm_cons_erase he).symm

/-! ### The address lookup -/

theorem lookup_some (pool : Nat → parent_info_t) (addr : Nat) :
    ∀ (l : List Nat) (e : Nat), candidate_parent_lookup pool addr l = some e →
      e ∈ l ∧ (pool e).addr = addr := by
  intro l
  induction l with
  | nil => intro e h; simp [candidate_parent_lookup] at h
  | cons x xs ih =>
    intro e h
    unfold candidate_parent_lookup at h
    by_cases hx : (pool x).addr = addr
    · rw [if_pos hx] at h
      have : x = e := Option.some.inj h
      subst this
      exact ⟨List.mem_cons_self _ _, hx⟩
    · rw [if_neg hx] at h
      exact ⟨List.mem_cons_of_mem _ (ih e h).1, (ih e h).2⟩

theorem lookup_none (pool : Nat → parent_info_t) (addr : Nat) :
    ∀ l : List Nat, candidate_parent_lookup pool addr l = none ↔
      ∀ x ∈ l, (pool x).addr ≠ addr := by
  intro l
  induction l with
  | nil => simp [candidate_parent_lookup]
  | cons x xs ih =>
    unfold candidate_parent_lookup
    by_cases hx : (pool x).addr = addr
    · simp [hx]
    · simp [hx, ih]

/-- A resident entry that is the only one carrying its address is the one the
lookup returns. -/
theorem lookup_unique (pool : Nat → parent_info_t) (addr : Nat) (l : List Nat) (e : Nat)
    (he : e ∈ l) (haddr : (pool e).addr = addr)
    (huniq : ∀ x ∈ l, (pool x).addr = addr → x = e) :
    candidate_parent_lookup pool addr l = some e := by
  cases h : candidate_parent_lookup pool addr l with
  | none => exact absurd haddr ((lookup_none pool addr l).mp h e he)
  | some y =>
    obtain ⟨hy1, hy2⟩ := lookup_some pool addr l y h
    rw [huniq y hy1 hy2]

theorem get_lookup (cur : parent_table) (addr : Nat) :
    (ws_bootstrap_ffn_candidate_parent_get cur addr false).2 =
      candidate_parent_lookup cur.pool addr cur.parent_list_reserved := by
  unfold ws_bootstrap_ffn_candidate_parent_get
  cases candidate_parent_lookup cur.pool addr cur.parent_list_reserved <;> simp

/-! ### Lookup with creation -/

theorem get_hit (cur : parent_table) (addr : Nat) (create : Bool) (e : Nat)
    (h : candidate_parent_lookup cur.pool addr cur.parent_list_reserved = some e) :
    ws_bootstrap_ffn_candidate_parent_get cur addr create = (cur, some e) := by
  unfold ws_bootstrap_ffn_candidate_parent_get
  rw [h]

theorem get_create_pop (cur : parent_table) (addr : Nat) (f : Nat) (fs : List Nat)
    (h : candidate_parent_lookup cur.pool addr cur.parent_list_reserved = none)
    (hfree : cur.parent_list_free = f :: fs) :
    ws_bootstrap_ffn_candidate_parent_get cur addr true =
      ({ pool := pool_set cur.pool f
           { cur.pool f with addr := addr, tx_fail := 0, link_acceptable := false },
         parent_list_free := fs,
         parent_list_reserved := cur.parent_list_reserved ++ [f] }, some f) := by
  unfold ws_bootstrap_ffn_candidate_parent_get
  rw [h]
  simp only [if_true, ws_bootstrap_ffn_candidate_parent_allocate, ns_list_get_first, hfree,
    List.head?_cons, ns_list_remove, ns_list_add_to_end, List.erase_cons_head]
  congr 2
  funext i
  simp only [pool_set]
  by_cases hi : i = f <;> simp [hi]

theorem get_create_reclaim (cur : parent_table) (addr : Nat) (e : Nat)
    (h : candidate_parent_lookup cur.pool addr cur.parent_list_reserved = none)
    (hfree : cur.parent_list_free = [])
    (hlast : cur.parent_list_reserved.getLast? = some e) :
    ws_bootstrap_ffn_candidate_parent_get cur addr true =
      ({ cur with
         pool := pool_set cur.pool e
           ({ cur.pool e with tx_fail := 0, link_acceptable := false }) }, some e) := by
  unfold ws_bootstrap_ffn_candidate_parent_get
  rw [h]
  simp only [if_true, ws_bootstrap_ffn_candidate_parent_allocate, ns_list_get_first, hfree,
    List.head?_nil, ns_list_get_last, hlast]

theorem get_create_empty (cur : parent_table) (addr : Nat)
    (h : candidate_parent_lookup cur.pool addr cur.parent_list_reserved = none)
    (hfree : cur.parent_list_free = [])
    (hres : cur.parent_list_reserved = []) :
    ws_bootstrap_ffn_candidate_parent_get cur addr true = (cur, none) := by
  unfold ws_bootstrap_ffn_candidate_parent_get
  rw [h]
  simp only [if_true, ws_bootstrap_ffn_candidate_parent_allocate, ns_list_get_first, hfree,
    List.head?_nil, ns_list_get_last, hres, List.getLast?_nil]

/-- What a `get` with `create` that returns an entry leaves in place: every
other slot, the order of the other reserved entries, and a duplicate-free
reserved list containing the returned entry. -/
theorem get_create_frame (cur : parent_table) (addr : Nat) (cur2 : parent_table) (e : Nat)
    (hnd : cur.parent_list_reserved.Nodup)
    (hdisj : ∀ x ∈ cur.parent_list_free, x ∉ cur.parent_list_reserved)
    (hget : ws_bootstrap_ffn_candidate_parent_get cur addr true = (cur2, some e)) :
    (∀ x, x ≠ e → cur2.pool x = cur.pool x) ∧
    cur2.parent_list_reserved.erase e = cur.parent_list_reserved.erase e ∧
    e ∈ cur2.parent_list_reserved ∧ cur2.parent_list_reserved.Nodup := by
  cases hl : candidate_parent_lookup cur.pool addr cur.parent_list_reserved with
  | some e0 =>
    rw [get_hit cur addr true e0 hl] at hget
    obtain ⟨h1, h2⟩ := Prod.mk.inj hget
    have h3 : e0 = e := Option.some.inj h2
    subst h1; subst h3
    exact ⟨fun _ _ => rfl, rfl, (lookup_some _ _ _ _ hl).1, hnd⟩
  | none =>
    cases hfree : cur.parent_list_free with
    | cons f fs =>
      rw [get_create_pop cur addr f fs hl hfree] at hget
      obtain ⟨h1, h2⟩ := Prod.mk.inj hget
      have h3 : f = e := Option.some.inj h2
      subst h1; subst h3
      have hf : f ∉ cur.parent_list_reserved := hdisj f (by rw [hfree]; exact List.mem_cons_self _ _)
      refine ⟨?_, ?_, by simp, ?_⟩
      · intro x hx
        simp [pool_set, hx]
      · simp only
        rw [List.erase_append_right _ hf, List.erase_of_not_mem hf]
        simp
      · simp only
        rw [List.nodup_append]
        refine ⟨hnd, List.nodup_singleton f, ?_⟩
        intro a ha hb
        simp only [List.mem_singleton] at hb
        exact hf (hb ▸ ha)
    | nil =>
      cases hlast : cur.parent_list_reserved.getLast? with
      | none =>
        have hres : cur.parent_list_reserved = [] := List.getLast?_eq_none_iff.mp hlast
        rw [get_create_empty cur addr hl hfree hres] at hget
        exact absurd (Prod.mk.inj hget).2 (by simp)
      | some e0 =>
        rw [get_create_reclaim cur addr e0 hl hfree hlast] at hget
        obtain ⟨h1, h2⟩ := Prod.mk.inj hget
        have h3 : e0 = e := Option.some.inj h2
        subst h1; subst h3
        refine ⟨?_, rfl, List.mem_of_getLast?_eq_some hlast, hnd⟩
        intro x hx
        simp [pool_set, hx]

theorem lookup_congr (pool pool2 : Nat → parent_info_t) (addr : Nat)
    (h : ∀ x, (pool2 x).addr = (pool x).addr) :
    ∀ l : List Nat, candidate_parent_lookup pool2 addr l = candidate_parent_lookup pool addr l := by
  intro l
  induction l with
  | nil => rfl
  | cons x xs ih => simp only [candidate_parent_lookup, h x, ih]

/-! ### Failure marking -/

theorem mark_failure_evict (w1 w2 : Nat) (cur : parent_table) (addr e : Nat)
    (hl : candidate_parent_lookup cur.pool addr cur.parent_list_reserved = some e)
    (hf : (cur.pool e).tx_fail ≥ 2) :
    ws_bootstrap_ffn_candidate_parent_mark_failure w1 w2 cur addr =
      { cur with
        parent_list_reserved := ns_list_remove cur.parent_list_reserved e,
        parent_list_free := ns_list_add_to_end cur.parent_list_free e } := by
  unfold ws_bootstrap_ffn_candidate_parent_mark_failure
  rw [get_lookup, hl]
  simp only [if_pos hf]

theorem mark_failure_inc (w1 w2 : Nat) (cur : parent_table) (addr e : Nat)
    (hl : candidate_parent_lookup cur.pool addr cur.parent_list_reserved = some e)
    (hf : (cur.pool e).tx_fail < 2) :
    ws_bootstrap_ffn_candidate_parent_mark_failure w1 w2 cur addr =
      ws_bootstrap_ffn_candidate_parent_sort w1 w2
        { cur with pool := pool_set cur.pool e
                     ({ cur.pool e with tx_fail := (cur.pool e).tx_fail + 1 }) } e := by
  unfold ws_bootstrap_ffn_candidate_parent_mark_failure
  rw [get_lookup, hl]
  simp only [if_neg (Nat.not_le.mpr hf)]

theorem mark_failure_miss (w1 w2 : Nat) (cur : parent_table) (addr : Nat)
    (hl : candidate_parent_lookup cur.pool addr cur.parent_list_reserved = none) :
    ws_bootstrap_ffn_candidate_parent_mark_failure w1 w2 cur addr = cur := by
  unfold ws_bootstrap_ffn_candidate_parent_mark_failure
  rw [get_lookup, hl]

/-- One failure mark below the threshold: the count goes up by one, the free
list is untouched, the reserved list is permuted, and the entry is still the
only resident carrying its address. -/
theorem mark_failure_inc_frame (w1 w2 : Nat) (cur : parent_table) (addr e : Nat)
    (hnd : cur.parent_list_reserved.Nodup) (he : e ∈ cur.parent_list_reserved)
    (haddr : (cur.pool e).addr = addr)
    (huniq : ∀ x ∈ cur.parent_list_reserved, (cur.pool x).addr = addr → x = e)
    (hf : (cur.pool e).tx_fail < 2) :
    ((ws_bootstrap_ffn_candidate_parent_mark_failure w1 w2 cur addr).pool e).tx_fail =
        (cur.pool e).tx_fail + 1 ∧
    (ws_bootstrap_ffn_candidate_parent_mark_failure w1 w2 cur addr).parent_list_free =
        cur.parent_list_free ∧
    (ws_bootstrap_ffn_candidate_parent_mark_failure w1 w2 cur addr).parent_list_reserved.Perm
        cur.parent_list_reserved ∧
    ((ws_bootstrap_ffn_candidate_parent_mark_failure w1 w2 cur addr).pool e).addr = addr ∧
    (∀ x ∈ (ws_bootstrap_ffn_candidate_parent_mark_failure w1 w2 cur addr).parent_list_reserved,
      ((ws_bootstrap_ffn_candidate_parent_mark_failure w1 w2 cur addr).pool x).addr = addr →
        x = e) := by
  have hl := lookup_unique cur.pool addr _ e he haddr huniq
  rw [mark_failure_inc w1 w2 cur addr e hl hf]
  have hperm := sort_reserved_perm w1 w2
    { cur with pool := pool_set cur.pool e
                 ({ cur.pool e with tx_fail := (cur.pool e).tx_fail + 1 }) } e hnd he
  rw [sort_pool_eq, sort_free_eq]
  refine ⟨by simp [pool_set], rfl, hperm, by simp [pool_set, haddr], ?_⟩
  intro x hx hxa
  have hx2 : x ∈ cur.parent_list_reserved := hperm.mem_iff.mp hx
  by_cases hxe : x = e
  · exact hxe
  · simp only [pool_set, if_neg hxe] at hxa
    exact huniq x hx2 hxa

/-! ### Claims about the ranking comparator -/

/-- C1: the ranking comparator is a strict weak ordering on candidate records:
irreflexive, asymmetric, transitive, and with transitive incomparability, for
every value of the two weight factors. -/
theorem C1_compare_strict_weak_order (PRC_WEIGHT_FACTOR PS_WEIGHT_FACTOR : Nat) :
    (∀ a, ws_bootstrap_ffn_candidate_parent_compare PRC_WEIGHT_FACTOR PS_WEIGHT_FACTOR a a
        = false) ∧
    (∀ a b, ws_bootstrap_ffn_candidate_parent_compare PRC_WEIGHT_FACTOR PS_WEIGHT_FACTOR a b
        = true →
      ws_bootstrap_ffn_candidate_parent_compare PRC_WEIGHT_FACTOR PS_WEIGHT_FACTOR b a
        = false) ∧
    (∀ a b c, ws_bootstrap_ffn_candidate_parent_compare PRC_WEIGHT_FACTOR PS_WEIGHT_FACTOR a b
        = true →
      ws_bootstrap_ffn_candidate_parent_compare PRC_WEIGHT_FACTOR PS_WEIGHT_FACTOR b c
        = true →
      ws_bootstrap_ffn_candidate_parent_compare PRC_WEIGHT_FACTOR PS_WEIGHT_FACTOR a c
        = true) ∧
    (∀ a b c,
      (ws_bootstrap_ffn_candidate_parent_compare PRC_WEIGHT_FACTOR PS_WEIGHT_FACTOR a b = false ∧
        ws_bootstrap_ffn_candidate_parent_compare PRC_WEIGHT_FACTOR PS_WEIGHT_FACTOR b a
          = false) →
      (ws_bootstrap_ffn_candidate_parent_compare PRC_WEIGHT_FACTOR PS_WEIGHT_FACTOR b c = false ∧
        ws_bootstrap_ffn_candidate_parent_compare PRC_WEIGHT_FACTOR PS_WEIGHT_FACTOR c b
          = false) →
      (ws_bootstrap_ffn_candidate_parent_compare PRC_WEIGHT_FACTOR PS_WEIGHT_FACTOR a c = false ∧
        ws_bootstrap_ffn_candidate_parent_compare PRC_WEIGHT_FACTOR PS_WEIGHT_FACTOR c a
          = false)) :=
  ⟨compare_irrefl _ _, compare_asymm _ _, compare_trans _ _,
    fun a b c h1 h2 => compare_incomp_trans _ _ a b c h1.1 h1.2 h2.1 h2.2⟩

/-- C1, at concrete records: the comparator does relate candidates (a failed
candidate ranks below a weak one, which ranks below a blank one only by
signal), so the ordering laws are not vacuous. -/
theorem C1_compare_strict_weak_order_witness :
    ws_bootstrap_ffn_candidate_parent_compare 256 64 cand_failed cand_weak = true ∧
    ws_bootstrap_ffn_candidate_parent_compare 256 64 cand_weak blank_parent = true ∧
    ws_bootstrap_ffn_candidate_parent_compare 256 64 cand_failed blank_parent = true ∧
    ws_bootstrap_ffn_candidate_parent_compare 256 64 blank_parent cand_failed = false :=
  ⟨by decide, by decide,
    (C1_compare_strict_weak_order 256 64).2.2.1 cand_failed cand_weak blank_parent
      (by decide) (by decide),
    (C1_compare_strict_weak_order 256 64).2.1 cand_failed blank_parent (by decide)⟩

/-- C2 (what the code does): with equal failure counts, when `p2` is
link-acceptable and `p1` is not, the comparator returns false for `(p1, p2)`
and true for `(p2, p1)`: it ranks the candidate that is NOT link-acceptable
above the link-acceptable one, whatever the PAN cost and signal level. -/
theorem C2_compare_link_acceptable_inverted (PRC_WEIGHT_FACTOR PS_WEIGHT_FACTOR : Nat)
    (p1 p2 : parent_info_t) (hf : p1.tx_fail = p2.tx_fail)
    (h1 : p1.link_acceptable = false) (h2 : p2.link_acceptable = true) :
    ws_bootstrap_ffn_candidate_parent_compare PRC_WEIGHT_FACTOR PS_WEIGHT_FACTOR p1 p2 = false ∧
    ws_bootstrap_ffn_candidate_parent_compare PRC_WEIGHT_FACTOR PS_WEIGHT_FACTOR p2 p1 = true := by
  simp [ws_bootstrap_ffn_candidate_parent_compare, hf, h1, h2]

/-- C2 at a concrete pair: `cand_weak` (not acceptable) against `cand_good`
(acceptable), equal in every other rank key. -/
theorem C2_compare_link_acceptable_inverted_witness :
    ws_bootstrap_ffn_candidate_parent_compare 256 64 cand_weak cand_good = false ∧
    ws_bootstrap_ffn_candidate_parent_compare 256 64 cand_good cand_weak = true :=
  C2_compare_link_acceptable_inverted 256 64 cand_weak cand_good (by decide) (by decide)
    (by decide)

/-! ### Claims about the candidate parent table -/

/-- C3 (as stated, refuted): `get` with `create` does not preserve best-first
order.  In `table_one_failed` (pop from the free list) and in
`table_full_failed` (reclaim of the tail) the reserved list is best-first
before the call, and after it the returned entry, reset to failure count 0,
is ranked strictly above an entry that precedes it. -/
theorem C3_get_create_breaks_order :
    (best_first 256 64 table_one_failed.pool table_one_failed.parent_list_reserved ∧
      ¬ best_first 256 64
        (ws_bootstrap_ffn_candidate_parent_get table_one_failed 7 true).1.pool
        (ws_bootstrap_ffn_candidate_parent_get table_one_failed 7 true).1.parent_list_reserved) ∧
    (best_first 256 64 table_full_failed.pool table_full_failed.parent_list_reserved ∧
      ¬ best_first 256 64
        (ws_bootstrap_ffn_candidate_parent_get table_full_failed 7 true).1.pool
        (ws_bootstrap_ffn_candidate_parent_get table_full_failed 7 true).1.parent_list_reserved) := by
  decide

/-- C3 (amended): in a table whose reserved list is duplicate-free, disjoint
from the free list and best-first, the resort of a resident entry,
`mark_failure` and the eviction on bind failure each leave the reserved list
best-first; a `get` with `create` that returns an entry leaves the reserved
entries other than the returned one in best-first order, and once the caller
has written the record of the returned entry (any value) its resort makes the
whole reserved list best-first again. -/
theorem C3_order_preserved (w1 w2 : Nat) (cur : parent_table)
    (hnd : cur.parent_list_reserved.Nodup)
    (hdisj : ∀ x ∈ cur.parent_list_free, x ∉ cur.parent_list_reserved)
    (hs : best_first w1 w2 cur.pool cur.parent_list_reserved) :
    (∀ e ∈ cur.parent_list_reserved,
      best_first w1 w2 (ws_bootstrap_ffn_candidate_parent_sort w1 w2 cur e).pool
        (ws_bootstrap_ffn_candidate_parent_sort w1 w2 cur e).parent_list_reserved) ∧
    (∀ addr,
      best_first w1 w2 (ws_bootstrap_ffn_candidate_parent_mark_failure w1 w2 cur addr).pool
        (ws_bootstrap_ffn_candidate_parent_mark_failure w1 w2 cur addr).parent_list_reserved) ∧
    (∀ parent_ptr,
      best_first w1 w2 (neighbor_set_evict cur parent_ptr).pool
        (neighbor_set_evict cur parent_ptr).parent_list_reserved) ∧
    (∀ addr cur2 e, ws_bootstrap_ffn_candidate_parent_get cur addr true = (cur2, some e) →
      best_first w1 w2 cur2.pool (ns_list_remove cur2.parent_list_reserved e) ∧
      ∀ v : parent_info_t,
        best_first w1 w2
          (ws_bootstrap_ffn_candidate_parent_sort w1 w2
            { cur2 with pool := pool_set cur2.pool e v } e).pool
          (ws_bootstrap_ffn_candidate_parent_sort w1 w2
            { cur2 with pool := pool_set cur2.pool e v } e).parent_list_reserved) := by
  refine ⟨?_, ?_, ?_, ?_⟩
  · intro e _
    exact sort_best_first w1 w2 cur e hnd (best_first_erase w1 w2 _ _ e hs)
  · intro addr
    cases hl : candidate_parent_lookup cur.pool addr cur.parent_list_reserved with
    | none => rw [mark_failure_miss w1 w2 cur addr hl]; exact hs
    | some e =>
      by_cases hf : (cur.pool e).tx_fail ≥ 2
      · rw [mark_failure_evict w1 w2 cur addr e hl hf]
        exact best_first_erase w1 w2 _ _ e hs
      · rw [mark_failure_inc w1 w2 cur addr e hl (Nat.not_le.mp hf)]
        refine sort_best_first w1 w2 _ e ?_ ?_
        · exact hnd
        refine best_first_congr w1 w2 cur.pool _ _ ?_ (best_first_erase w1 w2 _ _ e hs)
        intro x hx
        have hxe : x ≠ e := ((List.Nodup.mem_erase_iff hnd).mp hx).1
        simp [pool_set, hxe]
  · intro parent_ptr
    exact best_first_erase w1 w2 _ _ parent_ptr hs
  · intro addr cur2 e hget
    obtain ⟨hpool, her, _, hnd2⟩ := get_create_frame cur addr cur2 e hnd hdisj hget
    have hrest : best_first w1 w2 cur2.pool (cur2.parent_list_reserved.erase e) := by
      rw [her]
      refine best_first_congr w1 w2 cur.pool _ _ ?_ (best_first_erase w1 w2 _ _ e hs)
      intro x hx
      exact hpool x ((List.Nodup.mem_erase_iff hnd).mp hx).1
    refine ⟨hrest, ?_⟩
    intro v
    refine sort_best_first w1 w2 _ e ?_ ?_
    · exact hnd2
    refine best_first_congr w1 w2 cur2.pool _ _ ?_ hrest
    intro x hx
    have hxe : x ≠ e := ((List.Nodup.mem_erase_iff hnd2).mp hx).1
    simp [pool_set, hxe]

/-- C3 (amended) at `table_full_failed`: the hypotheses hold there, and the
`get` with `create` of address 7 returns slot 1, whose resort restores the
order. -/
theorem C3_order_preserved_witness :
    best_first 256 64 table_full_failed.pool
      (ns_list_remove
        (ws_bootstrap_ffn_candidate_parent_get table_full_failed 7 true).1.parent_list_reserved
        1) ∧
    best_first 256 64
      (ws_bootstrap_ffn_candidate_parent_mark_failure 256 64 table_full_failed 4).pool
      (ws_bootstrap_ffn_candidate_parent_mark_failure 256 64 table_full_failed 4).parent_list_reserved :=
  ⟨by decide,
    (C3_order_preserved 256 64 table_full_failed (by decide) (by decide) (by decide)).2.1 4⟩

/-- C4: the resort is a sorted insertion.  In a table with a duplicate-free
reserved list in which the entries other than the resident entry `e` are
best-first, the resort of `e` changes neither the records nor the free list,
makes the whole reserved list best-first, and places `e` after entries it does
not beat and immediately before the first entry it is strictly better than
(at the tail if there is none), the other entries keeping their order. -/
theorem C4_sort_is_sorted_insertion (w1 w2 : Nat) (cur : parent_table) (e : Nat)
    (hnd : cur.parent_list_reserved.Nodup) (_he : e ∈ cur.parent_list_reserved)
    (hs : best_first w1 w2 cur.pool (ns_list_remove cur.parent_list_reserved e)) :
    (ws_bootstrap_ffn_candidate_parent_sort w1 w2 cur e).pool = cur.pool ∧
    (ws_bootstrap_ffn_candidate_parent_sort w1 w2 cur e).parent_list_free =
      cur.parent_list_free ∧
    best_first w1 w2 cur.pool
      (ws_bootstrap_ffn_candidate_parent_sort w1 w2 cur e).parent_list_reserved ∧
    ∃ l1 l2,
      ns_list_remove cur.parent_list_reserved e = l1 ++ l2 ∧
      (ws_bootstrap_ffn_candidate_parent_sort w1 w2 cur e).parent_list_reserved =
        l1 ++ e :: l2 ∧
      (∀ x ∈ l1,
        ws_bootstrap_ffn_candidate_parent_compare w1 w2 (cur.pool x) (cur.pool e) = false) ∧
      (∀ y, l2.head? = some y →
        ws_bootstrap_ffn_candidate_parent_compare w1 w2 (cur.pool y) (cur.pool e) = true) := by
  refine ⟨sort_pool_eq _ _ _ _, sort_free_eq _ _ _ _, ?_, sort_reserved_decomp w1 w2 cur e hnd⟩
  have h := sort_best_first w1 w2 cur e hnd hs
  rwa [sort_pool_eq] at h

/-- C4 at `table_full_failed` with slot 0 resorted: it stays in front. -/
theorem C4_sort_is_sorted_insertion_witness :
    (ws_bootstrap_ffn_candidate_parent_sort 256 64 table_full_failed 0).parent_list_reserved
        = [0, 1] ∧
    best_first 256 64 table_full_failed.pool
      (ws_bootstrap_ffn_candidate_parent_sort 256 64 table_full_failed 0).parent_list_reserved :=
  ⟨by decide,
    (C4_sort_is_sorted_insertion 256 64 table_full_failed 0 (by decide) (by decide)
      (by decide)).2.2.1⟩

/-- C5: after the resort of a resident entry (the other reserved entries
being best-first), `get_best` returns an entry, the head of the reserved list,
and no reserved entry is ranked strictly above it. -/
theorem C5_head_is_best_after_sort (w1 w2 : Nat) (cur : parent_table) (e : Nat)
    (hnd : cur.parent_list_reserved.Nodup) (_he : e ∈ cur.parent_list_reserved)
    (hs : best_first w1 w2 cur.pool (ns_list_remove cur.parent_list_reserved e)) :
    ∃ h, ws_bootstrap_ffn_candidate_parent_get_best
          (ws_bootstrap_ffn_candidate_parent_sort w1 w2 cur e) = some h ∧
      ∀ x ∈ (ws_bootstrap_ffn_candidate_parent_sort w1 w2 cur e).parent_list_reserved,
        ws_bootstrap_ffn_candidate_parent_compare w1 w2
          ((ws_bootstrap_ffn_candidate_parent_sort w1 w2 cur e).pool h)
          ((ws_bootstrap_ffn_candidate_parent_sort w1 w2 cur e).pool x) = false := by
  have hbf := sort_best_first w1 w2 cur e hnd hs
  obtain ⟨l1, l2, -, hsp, -, -⟩ := sort_reserved_decomp w1 w2 cur e hnd
  unfold ws_bootstrap_ffn_candidate_parent_get_best ns_list_get_first
  unfold best_first at hbf
  cases hres : (ws_bootstrap_ffn_candidate_parent_sort w1 w2 cur e).parent_list_reserved with
  | nil =>
    rw [hres] at hsp
    cases l1 <;> simp at hsp
  | cons h t =>
    rw [hres, List.pairwise_cons] at hbf
    refine ⟨h, rfl, ?_⟩
    intro x hx
    rcases List.mem_cons.mp hx with rfl | hx
    · exact compare_irrefl w1 w2 _
    · exact hbf.1 x hx

/-- C5 at `table_full_failed` with the tail entry resorted: slot 0 is
returned by `get_best`. -/
theorem C5_head_is_best_after_sort_witness :
    ws_bootstrap_ffn_candidate_parent_get_best
        (ws_bootstrap_ffn_candidate_parent_sort 256 64 table_full_failed 1) = some 0 ∧
    ∃ h, ws_bootstrap_ffn_candidate_parent_get_best
          (ws_bootstrap_ffn_candidate_parent_sort 256 64 table_full_failed 1) = some h ∧
      ∀ x ∈ (ws_bootstrap_ffn_candidate_parent_sort 256 64 table_full_failed 1).parent_list_reserved,
        ws_bootstrap_ffn_candidate_parent_compare 256 64
          ((ws_bootstrap_ffn_candidate_parent_sort 256 64 table_full_failed 1).pool h)
          ((ws_bootstrap_ffn_candidate_parent_sort 256 64 table_full_failed 1).pool x) = false :=
  ⟨by decide,
    C5_head_is_best_after_sort 256 64 table_full_failed 1 (by decide) (by decide) (by decide)⟩

/-- C6 (what the code does): with the free list empty and `addr` not
resident, `get` with `create` returns the former tail of the reserved list
with failure count 0 and link-acceptable false and both lists unchanged, but
the entry keeps the address it had: `addr` is still not found by a lookup
afterwards and the old address of the tail is still resident. -/
theorem C6_reclaim_keeps_old_address (cur : parent_table) (addr e : Nat)
    (hfree : cur.parent_list_free = [])
    (hmiss : (ws_bootstrap_ffn_candidate_parent_get cur addr false).2 = none)
    (hlast : ns_list_get_last cur.parent_list_reserved = some e) :
    (ws_bootstrap_ffn_candidate_parent_get cur addr true).2 = some e ∧
    (ws_bootstrap_ffn_candidate_parent_get cur addr true).1.parent_list_reserved =
      cur.parent_list_reserved ∧
    (ws_bootstrap_ffn_candidate_parent_get cur addr true).1.parent_list_free = [] ∧
    ((ws_bootstrap_ffn_candidate_parent_get cur addr true).1.pool e).tx_fail = 0 ∧
    ((ws_bootstrap_ffn_candidate_parent_get cur addr true).1.pool e).link_acceptable = false ∧
    ((ws_bootstrap_ffn_candidate_parent_get cur addr true).1.pool e).addr = (cur.pool e).addr ∧
    (ws_bootstrap_ffn_candidate_parent_get
      (ws_bootstrap_ffn_candidate_parent_get cur addr true).1 addr false).2 = none ∧
    (ws_bootstrap_ffn_candidate_parent_get
      (ws_bootstrap_ffn_candidate_parent_get cur addr true).1 (cur.pool e).addr false).2
        ≠ none := by
  rw [get_lookup] at hmiss
  rw [get_create_reclaim cur addr e hmiss hfree hlast]
  have hcongr : ∀ a l, candidate_parent_lookup
      (pool_set cur.pool e ({ cur.pool e with tx_fail := 0, link_acceptable := false })) a l =
      candidate_parent_lookup cur.pool a l := by
    intro a l
    apply lookup_congr
    intro x
    by_cases hx : x = e <;> simp [pool_set, hx]
  refine ⟨rfl, rfl, hfree, by simp [pool_set], by simp [pool_set], by simp [pool_set], ?_, ?_⟩
  · rw [get_lookup]
    simp only [hcongr]
    exact hmiss
  · rw [get_lookup]
    simp only [hcongr]
    intro hnone
    have he : e ∈ cur.parent_list_reserved := List.mem_of_getLast?_eq_some hlast
    exact (lookup_none cur.pool _ _).mp hnone e he rfl

/-- C6 at the full table `table_full_fresh` (addresses 10 and 11) and the new
address 12: slot 1 is returned, still carrying address 11; address 12 is not
found afterwards and address 11 still is. -/
theorem C6_reclaim_keeps_old_address_witness :
    (ws_bootstrap_ffn_candidate_parent_get table_full_fresh 12 true).2 = some 1 ∧
    ((ws_bootstrap_ffn_candidate_parent_get table_full_fresh 12 true).1.pool 1).addr = 11 ∧
    (ws_bootstrap_ffn_candidate_parent_get
      (ws_bootstrap_ffn_candidate_parent_get table_full_fresh 12 true).1 12 false).2 = none ∧
    (ws_bootstrap_ffn_candidate_parent_get
      (ws_bootstrap_ffn_candidate_parent_get table_full_fresh 12 true).1 11 false).2 = some 1 :=
  have h := C6_reclaim_keeps_old_address table_full_fresh 12 1 (by decide) (by decide)
    (by decide)
  ⟨h.1, h.2.2.2.2.2.1, h.2.2.2.2.2.2.1, by decide⟩

/-- C7: the failure threshold.  For a resident entry `e` that is the only one
carrying `addr`: with failure count at least 2, `mark_failure` moves it from
the reserved list to the tail of the free list, the other entries keeping
their order; with a smaller count it adds one to the count and resorts the
entry, which stays resident.  Hence a candidate with count 0 is still resident
after the first and the second consecutive `mark_failure` and is evicted to
the tail of the free list by the third. -/
theorem C7_mark_failure_threshold (w1 w2 : Nat) (cur : parent_table) (addr e : Nat)
    (hnd : cur.parent_list_reserved.Nodup) (he : e ∈ cur.parent_list_reserved)
    (haddr : (cur.pool e).addr = addr)
    (huniq : ∀ x ∈ cur.parent_list_reserved, (cur.pool x).addr = addr → x = e) :
    ((cur.pool e).tx_fail ≥ 2 →
      ws_bootstrap_ffn_candidate_parent_mark_failure w1 w2 cur addr =
        { cur with
          parent_list_reserved := ns_list_remove cur.parent_list_reserved e,
          parent_list_free := ns_list_add_to_end cur.parent_list_free e }) ∧
    ((cur.pool e).tx_fail < 2 →
      ws_bootstrap_ffn_candidate_parent_mark_failure w1 w2 cur addr =
        ws_bootstrap_ffn_candidate_parent_sort w1 w2
          { cur with pool := pool_set cur.pool e
                       ({ cur.pool e with tx_fail := (cur.pool e).tx_fail + 1 }) } e ∧
      ((ws_bootstrap_ffn_candidate_parent_mark_failure w1 w2 cur addr).pool e).tx_fail =
        (cur.pool e).tx_fail + 1 ∧
      e ∈ (ws_bootstrap_ffn_candidate_parent_mark_failure w1 w2 cur addr).parent_list_reserved ∧
      (ws_bootstrap_ffn_candidate_parent_mark_failure w1 w2 cur addr).parent_list_free =
        cur.parent_list_free) ∧
    ((cur.pool e).tx_fail = 0 →
      e ∈ (ws_bootstrap_ffn_candidate_parent_mark_failure w1 w2 cur addr).parent_list_reserved ∧
      e ∈ (ws_bootstrap_ffn_candidate_parent_mark_failure w1 w2
            (ws_bootstrap_ffn_candidate_parent_mark_failure w1 w2 cur addr)
            addr).parent_list_reserved ∧
      e ∉ (ws_bootstrap_ffn_candidate_parent_mark_failure w1 w2
            (ws_bootstrap_ffn_candidate_parent_mark_failure w1 w2
              (ws_bootstrap_ffn_candidate_parent_mark_failure w1 w2 cur addr) addr)
            addr).parent_list_reserved ∧
      (ws_bootstrap_ffn_candidate_parent_mark_failure w1 w2
            (ws_bootstrap_ffn_candidate_parent_mark_failure w1 w2
              (ws_bootstrap_ffn_candidate_parent_mark_failure w1 w2 cur addr) addr)
            addr).parent_list_free = cur.parent_list_free ++ [e]) := by
  have hl := lookup_unique cur.pool addr _ e he haddr huniq
  refine ⟨fun hf => mark_failure_evict w1 w2 cur addr e hl hf, ?_, ?_⟩
  · intro hf
    obtain ⟨h1, h2, h3, -, -⟩ := mark_failure_inc_frame w1 w2 cur addr e hnd he haddr huniq hf
    exact ⟨mark_failure_inc w1 w2 cur addr e hl hf, h1, h3.mem_iff.mpr he, h2⟩
  · intro h0
    obtain ⟨a1, a2, a3, a4, a5⟩ :=
      mark_failure_inc_frame w1 w2 cur addr e hnd he haddr huniq (by omega)
    generalize ws_bootstrap_ffn_candidate_parent_mark_failure w1 w2 cur addr = t1 at *
    have hnd1 : t1.parent_list_reserved.Nodup := a3.nodup_iff.mpr hnd
    have he1 : e ∈ t1.parent_list_reserved := a3.mem_iff.mpr he
    obtain ⟨b1, b2, b3, b4, b5⟩ :=
      mark_failure_inc_frame w1 w2 t1 addr e hnd1 he1 a4 a5 (by omega)
    generalize ws_bootstrap_ffn_candidate_parent_mark_failure w1 w2 t1 addr = t2 at *
    have hnd2 : t2.parent_list_reserved.Nodup := b3.nodup_iff.mpr hnd1
    have he2 : e ∈ t2.parent_list_reserved := b3.mem_iff.mpr he1
    have hl2 := lookup_unique t2.pool addr _ e he2 b4 b5
    rw [mark_failure_evict w1 w2 t2 addr e hl2 (by omega)]
    refine ⟨he1, he2, ?_, ?_⟩
    · intro hmem
      exact ((List.Nodup.mem_erase_iff hnd2).mp hmem).1 rfl
    · simp only [ns_list_add_to_end, b2, a2]

/-- C7 at `table_full_fresh`, address 11 (slot 1, failure count 0): resident
after one and two marks, on the free list after the third. -/
theorem C7_mark_failure_threshold_witness :
    1 ∈ (ws_bootstrap_ffn_candidate_parent_mark_failure 256 64
          (ws_bootstrap_ffn_candidate_parent_mark_failure 256 64 table_full_fresh 11)
          11).parent_list_reserved ∧
    (ws_bootstrap_ffn_candidate_parent_mark_failure 256 64
      (ws_bootstrap_ffn_candidate_parent_mark_failure 256 64
        (ws_bootstrap_ffn_candidate_parent_mark_failure 256 64 table_full_fresh 11) 11)
      11).parent_list_free = [1] :=
  have h := (C7_mark_failure_threshold 256 64 table_full_fresh 11 1 (by decide) (by decide)
    (by decide) (by decide)).2.2 (by decide)
  ⟨h.2.1, h.2.2.2⟩

/-! ### The scenarios -/

/-- C8 (as stated, refuted): in the scenario table, whose reserved list is
C, B, A (slots 2, 1, 0) with all failure counts 0, two calls of
`mark_failure` on the address of A leave A on the reserved list and off the
free list. -/
theorem C8_two_failures_do_not_evict :
    scenario_table.parent_list_reserved = [2, 1, 0] ∧
    (scenario_table.pool 0).addr = 0xA ∧
    0 ∈ (ws_bootstrap_ffn_candidate_parent_mark_failure 256 64
          (ws_bootstrap_ffn_candidate_parent_mark_failure 256 64 scenario_table 0xA)
          0xA).parent_list_reserved ∧
    0 ∉ (ws_bootstrap_ffn_candidate_parent_mark_failure 256 64
          (ws_bootstrap_ffn_candidate_parent_mark_failure 256 64 scenario_table 0xA)
          0xA).parent_list_free := by
  decide

/-- C8 (amended): in a table whose reserved list holds three distinct entries
C, B, A in that order, all with failure count 0, A being the only one that
carries `addrA`: two calls of `mark_failure` on `addrA` leave the reserved
list C, B, A and the free list unchanged, with the failure count of A at 2;
the third call evicts A to the tail of the free list; `get_best` returns C
after the second and after the third call. -/
theorem C8_three_failures_evict (w1 w2 : Nat) (cur : parent_table) (sC sB sA addrA : Nat)
    (hres : cur.parent_list_reserved = [sC, sB, sA])
    (hCA : sC ≠ sA) (hBA : sB ≠ sA)
    (hA : (cur.pool sA).addr = addrA) (hB : (cur.pool sB).addr ≠ addrA)
    (hC : (cur.pool sC).addr ≠ addrA)
    (hfA : (cur.pool sA).tx_fail = 0) (hfB : (cur.pool sB).tx_fail = 0)
    (hfC : (cur.pool sC).tx_fail = 0) :
    (ws_bootstrap_ffn_candidate_parent_mark_failure w1 w2
      (ws_bootstrap_ffn_candidate_parent_mark_failure w1 w2 cur addrA)
      addrA).parent_list_reserved = [sC, sB, sA] ∧
    (ws_bootstrap_ffn_candidate_parent_mark_failure w1 w2
      (ws_bootstrap_ffn_candidate_parent_mark_failure w1 w2 cur addrA)
      addrA).parent_list_free = cur.parent_list_free ∧
    ((ws_bootstrap_ffn_candidate_parent_mark_failure w1 w2
      (ws_bootstrap_ffn_candidate_parent_mark_failure w1 w2 cur addrA)
      addrA).pool sA).tx_fail = 2 ∧
    ws_bootstrap_ffn_candidate_parent_get_best
      (ws_bootstrap_ffn_candidate_parent_mark_failure w1 w2
        (ws_bootstrap_ffn_candidate_parent_mark_failure w1 w2 cur addrA) addrA) = some sC ∧
    (ws_bootstrap_ffn_candidate_parent_mark_failure w1 w2
      (ws_bootstrap_ffn_candidate_parent_mark_failure w1 w2
        (ws_bootstrap_ffn_candidate_parent_mark_failure w1 w2 cur addrA) addrA)
      addrA).parent_list_reserved = [sC, sB] ∧
    (ws_bootstrap_ffn_candidate_parent_mark_failure w1 w2
      (ws_bootstrap_ffn_candidate_parent_mark_failure w1 w2
        (ws_bootstrap_ffn_candidate_parent_mark_failure w1 w2 cur addrA) addrA)
      addrA).parent_list_free = cur.parent_list_free ++ [sA] ∧
    ws_bootstrap_ffn_candidate_parent_get_best
      (ws_bootstrap_ffn_candidate_parent_mark_failure w1 w2
        (ws_bootstrap_ffn_candidate_parent_mark_failure w1 w2
          (ws_bootstrap_ffn_candidate_parent_mark_failure w1 w2 cur addrA) addrA)
        addrA) = some sC := by
  have hAC : sA ≠ sC := Ne.symm hCA
  have hAB : sA ≠ sB := Ne.symm hBA
  simp [ws_bootstrap_ffn_candidate_parent_mark_failure, ws_bootstrap_ffn_candidate_parent_get,
    candidate_parent_lookup, ws_bootstrap_ffn_candidate_parent_get_best, ns_list_get_first,
    ns_list_remove, ns_list_add_to_end, pool_set,
    ws_bootstrap_ffn_candidate_parent_sort, candidate_parent_sort_scan,
    ws_bootstrap_ffn_candidate_parent_compare, ns_list_add_before,
    hres, hCA, hBA, hAC, hAB, hA, hB, hC, hfA, hfB, hfC]

/-- C8 (amended) at the scenario table, address 0xA. -/
theorem C8_three_failures_evict_witness :
    (ws_bootstrap_ffn_candidate_parent_mark_failure 256 64
      (ws_bootstrap_ffn_candidate_parent_mark_failure 256 64 scenario_table 0xA)
      0xA).parent_list_reserved = [2, 1, 0] ∧
    (ws_bootstrap_ffn_candidate_parent_mark_failure 256 64
      (ws_bootstrap_ffn_candidate_parent_mark_failure 256 64
        (ws_bootstrap_ffn_candidate_parent_mark_failure 256 64 scenario_table 0xA) 0xA)
      0xA).parent_list_free = [3, 0] :=
  have h := C8_three_failures_evict 256 64 scenario_table 2 1 0 0xA (by decide) (by decide)
    (by decide) (by decide) (by decide) (by decide) (by decide) (by decide) (by decide)
  ⟨h.1, h.2.2.2.2.2.1⟩

/-- C9 (as stated, refuted): with the weight factors 256 and 64 and the
routing costs 10, 10 and 5 filled in as they are (PAN size 0), the three
weighted PAN costs are all 0, the signal level alone decides, and the
insertions of A, B, C leave the reserved list as B, A, C (slots 1, 0, 2). -/
theorem C9_raw_costs_rank_by_signal :
    pan_cost 256 64 { blank_parent with routing_cost := 10 } = 0 ∧
    pan_cost 256 64 { blank_parent with routing_cost := 5 } = 0 ∧
    (candidate_insert 256 64
      (candidate_insert 256 64
        (candidate_insert 256 64 (empty_table4 (fun _ => blank_parent)) 0xA 10 0 (-60))
        0xB 10 0 (-50))
      0xC 5 0 (-70)).parent_list_reserved = [1, 0, 2] ∧
    (candidate_insert 256 64
      (candidate_insert 256 64
        (candidate_insert 256 64 (empty_table4 (fun _ => blank_parent)) 0xA 10 0 (-60))
        0xB 10 0 (-50))
      0xC 5 0 (-70)).parent_list_reserved ≠ [2, 1, 0] := by
  decide

/-- C9 (amended): starting from an empty capacity-4 table (whatever the pool
memory holds), inserting A, B, C with distinct addresses, weighted PAN costs
(`routing_cost / PRC_WEIGHT_FACTOR + pan_size / PS_WEIGHT_FACTOR`) 10, 10 and 5
and signal levels -60, -50 and -70 dBm, in that order, gives the reserved list
B, A after the second insertion and C, B, A after the third (slots 2, 1, 0,
carrying the addresses c, b, a), with one slot left free; this holds for every
value of the weight factors. -/
theorem C9_scenario_insert_order (w1 w2 : Nat) (pool0 : Nat → parent_info_t) (a b c : Nat)
    (rcA psA rcB psB rcC psC : Nat)
    (hab : a ≠ b) (hac : a ≠ c) (hbc : b ≠ c)
    (hA : pan_cost w1 w2 { blank_parent with routing_cost := rcA, pan_size := psA } = 10)
    (hB : pan_cost w1 w2 { blank_parent with routing_cost := rcB, pan_size := psB } = 10)
    (hC : pan_cost w1 w2 { blank_parent with routing_cost := rcC, pan_size := psC } = 5) :
    (candidate_insert w1 w2
      (candidate_insert w1 w2 (empty_table4 pool0) a rcA psA (-60))
      b rcB psB (-50)).parent_list_reserved = [1, 0] ∧
    (candidate_insert w1 w2
      (candidate_insert w1 w2
        (candidate_insert w1 w2 (empty_table4 pool0) a rcA psA (-60))
        b rcB psB (-50))
      c rcC psC (-70)).parent_list_reserved = [2, 1, 0] ∧
    (candidate_insert w1 w2
      (candidate_insert w1 w2
        (candidate_insert w1 w2 (empty_table4 pool0) a rcA psA (-60))
        b rcB psB (-50))
      c rcC psC (-70)).parent_list_free = [3] ∧
    ((candidate_insert w1 w2
      (candidate_insert w1 w2
        (candidate_insert w1 w2 (empty_table4 pool0) a rcA psA (-60))
        b rcB psB (-50))
      c rcC psC (-70)).pool 2).addr = c ∧
    ((candidate_insert w1 w2
      (candidate_insert w1 w2
        (candidate_insert w1 w2 (empty_table4 pool0) a rcA psA (-60))
        b rcB psB (-50))
      c rcC psC (-70)).pool 1).addr = b ∧
    ((candidate_insert w1 w2
      (candidate_insert w1 w2
        (candidate_insert w1 w2 (empty_table4 pool0) a rcA psA (-60))
        b rcB psB (-50))
      c rcC psC (-70)).pool 0).addr = a := by
  simp only [pan_cost] at hA hB hC
  have hba : b ≠ a := Ne.symm hab
  have hca : c ≠ a := Ne.symm hac
  have hcb : c ≠ b := Ne.symm hbc
  simp [candidate_insert, empty_table4, ws_bootstrap_ffn_candidate_parent_get,
    candidate_parent_lookup, ws_bootstrap_ffn_candidate_parent_allocate, ns_list_get_first,
    ns_list_remove, ns_list_add_to_end, ns_list_get_last, pool_set,
    ws_bootstrap_ffn_candidate_parent_sort, candidate_parent_sort_scan,
    ws_bootstrap_ffn_candidate_parent_compare, pan_cost, ns_list_add_before,
    hA, hB, hC, hab, hac, hbc, hba, hca, hcb]

/-- C9 (amended) at two concrete instances: the scenario table (weight factors 256 and
64, routing costs 2560, 2560, 1280), and weight factors 1 with routing costs
10, 10, 5 and PAN size 0. -/
theorem C9_scenario_insert_order_witness :
    scenario_table.parent_list_reserved = [2, 1, 0] ∧
    (candidate_insert 1 1
      (candidate_insert 1 1
        (candidate_insert 1 1 (empty_table4 (fun _ => blank_parent)) 0xA 10 0 (-60))
        0xB 10 0 (-50))
      0xC 5 0 (-70)).parent_list_reserved = [2, 1, 0] :=
  ⟨(C9_scenario_insert_order 256 64 (fun _ => blank_parent) 0xA 0xB 0xC 2560 0 2560 0 1280 0
      (by decide) (by decide) (by decide) (by decide) (by decide) (by decide)).2.1,
    (C9_scenario_insert_order 1 1 (fun _ => blank_parent) 0xA 0xB 0xC 10 0 10 0 5 0
      (by decide) (by decide) (by decide) (by decide) (by decide) (by decide)).2.1⟩

end WsFfn

namespace WsTimers

theorem timer_start_valid {E : Type} (G : Int) (s_timers : List (timer_entry E)) (i : Nat)
    (t : timer_entry E) (hget : s_timers.get? i = some t) (hv : t.period_ms.tmod G = 0)
    (w : timer_world E) :
    timer_start G s_timers i w =
      some { w with timeout := fun j => if j = i then t.period_ms.tdiv G else w.timeout j } := by
  unfold timer_start
  rw [hget]
  simp [hv]

/-- A loop iteration for an index other than `k` returns, and changes neither
the countdown of `k` nor the number of recorded invocations of `k`. -/
theorem tick_step_other {E : Type} (G : Int) (s_timers : List (timer_entry E)) (k i : Nat)
    (hik : i ≠ k)
    (hvalid : ∀ j t, s_timers.get? j = some t → t.periodic = true → t.period_ms.tmod G = 0)
    (hcb : ∀ j t, j ≠ k → s_timers.get? j = some t →
      ∀ x w, (t.callback x w).timeout k = w.timeout k)
    (st : timer_world E × List Nat) :
    ∃ st1, timer_tick_step G s_timers i st = some st1 ∧
      st1.1.timeout k = st.1.timeout k ∧ st1.2.count k = st.2.count k := by
  have hki : k ≠ i := Ne.symm hik
  have hcnt : List.count k [i] = 0 := List.count_eq_zero.mpr (by simp [hki])
  unfold timer_tick_step
  cases hget : s_timers.get? i with
  | none => exact ⟨st, rfl, rfl, rfl⟩
  | some t =>
    simp only
    by_cases h0 : st.1.timeout i = 0
    · rw [if_pos h0]; exact ⟨st, rfl, rfl, rfl⟩
    · rw [if_neg h0]
      by_cases h1 : st.1.timeout i - 1 = 0
      · simp only [if_true, h1, ne_eq, not_true_eq_false, if_false]
        by_cases hp : t.periodic = true
        · rw [if_pos hp, timer_start_valid G s_timers i t hget (hvalid i t hget hp)]
          refine ⟨_, rfl, ?_, ?_⟩
          · simp only [if_neg hki]
            rw [hcb i t hik hget]
            simp only [if_neg hki]
          · simp [List.count_append, hcnt]
        · rw [if_neg hp]
          refine ⟨_, rfl, ?_, ?_⟩
          · rw [hcb i t hik hget]
            simp only [if_neg hki]
          · simp [List.count_append, hcnt]
      · simp only [if_true, ne_eq, h1, not_false_eq_true]
        exact ⟨_, rfl, by simp only [if_neg hki], rfl⟩

theorem tick_loop_other {E : Type} (G : Int) (s_timers : List (timer_entry E)) (k : Nat)
    (hvalid : ∀ j t, s_timers.get? j = some t → t.periodic = true → t.period_ms.tmod G = 0)
    (hcb : ∀ j t, j ≠ k → s_timers.get? j = some t →
      ∀ x w, (t.callback x w).timeout k = w.timeout k) :
    ∀ (l : List Nat), k ∉ l → ∀ st : timer_world E × List Nat,
      ∃ st1, timer_tick_loop G s_timers l st = some st1 ∧
        st1.1.timeout k = st.1.timeout k ∧ st1.2.count k = st.2.count k := by
  intro l
  induction l with
  | nil => intro _ st; exact ⟨st, rfl, rfl, rfl⟩
  | cons i rest ih =>
    intro hk st
    have hik : i ≠ k := fun h => hk (by simp [h])
    have hk2 : k ∉ rest := fun h => hk (List.mem_cons_of_mem _ h)
    obtain ⟨st1, h1, h2, h3⟩ := tick_step_other G s_timers k i hik hvalid hcb st
    obtain ⟨st2, g1, g2, g3⟩ := ih hk2 st1
    refine ⟨st2, ?_, by rw [g2, h2], by rw [g3, h3]⟩
    simp only [timer_tick_loop, h1, g1]

theorem tick_loop_append {E : Type} (G : Int) (s_timers : List (timer_entry E)) :
    ∀ (l1 l2 : List Nat) (st : timer_world E × List Nat),
      timer_tick_loop G s_timers (l1 ++ l2) st =
        (timer_tick_loop G s_timers l1 st).bind (timer_tick_loop G s_timers l2) := by
  intro l1
  induction l1 with
  | nil => intro l2 st; rfl
  | cons i rest ih =>
    intro l2 st
    simp only [List.cons_append, timer_tick_loop]
    cases timer_tick_step G s_timers i st with
    | none => rfl
    | some st1 => exact ih l2 st1

/-- The loop iteration for a periodic timer `k` of period `m` base periods
whose countdown is `c ≥ 1`: at `c = 1` the callback is invoked once and the
countdown becomes `m`; otherwise the countdown becomes `c - 1` without an
invocation. -/
theorem tick_step_self {E : Type} (G : Int) (hG : G ≠ 0) (s_timers : List (timer_entry E))
    (k : Nat) (t : timer_entry E) (m : Nat)
    (hk : s_timers.get? k = some t) (hper : t.periodic = true)
    (hperiod : t.period_ms = (m : Int) * G)
    (st : timer_world E × List Nat) (c : Nat) (hc : 1 ≤ c) (hst : st.1.timeout k = (c : Int)) :
    ∃ st1, timer_tick_step G s_timers k st = some st1 ∧
      st1.1.timeout k = (if c = 1 then (m : Int) else (c : Int) - 1) ∧
      st1.2.count k = st.2.count k + (if c = 1 then 1 else 0) := by
  have hv : t.period_ms.tmod G = 0 := by rw [hperiod]; exact Int.mul_tmod_left _ _
  have hd : t.period_ms.tdiv G = (m : Int) := by rw [hperiod]; exact Int.mul_tdiv_cancel _ hG
  unfold timer_tick_step
  rw [hk]
  have h0 : ¬ st.1.timeout k = 0 := by rw [hst]; omega
  simp only [if_neg h0, if_true]
  by_cases hc1 : c = 1
  · have h1 : st.1.timeout k - 1 = 0 := by rw [hst, hc1]; rfl
    simp only [h1, ne_eq, not_true_eq_false, if_false, if_pos hper, if_pos hc1]
    rw [timer_start_valid G s_timers k t hk hv]
    exact ⟨_, rfl, by simp [hd], by simp [List.count_append]⟩
  · have h1 : ¬ st.1.timeout k - 1 = 0 := by rw [hst]; omega
    simp only [ne_eq, h1, not_false_eq_true, if_true, if_neg hc1]
    exact ⟨_, rfl, by simp [hst], by simp⟩

/-- One `timer_global_tick`, seen from the periodic timer `k`. -/
theorem global_tick_self {E : Type} (G : Int) (hG : G ≠ 0) (s_timers : List (timer_entry E))
    (k : Nat) (t : timer_entry E) (m : Nat)
    (hk : s_timers.get? k = some t) (hper : t.periodic = true)
    (hperiod : t.period_ms = (m : Int) * G)
    (hvalid : ∀ j t, s_timers.get? j = some t → t.periodic = true → t.period_ms.tmod G = 0)
    (hcb : ∀ j t, j ≠ k → s_timers.get? j = some t →
      ∀ x w, (t.callback x w).timeout k = w.timeout k)
    (w : timer_world E) (c : Nat) (hc : 1 ≤ c) (hw : w.timeout k = (c : Int)) :
    ∃ w1 fired, timer_global_tick G s_timers w = some (w1, fired) ∧
      w1.timeout k = (if c = 1 then (m : Int) else (c : Int) - 1) ∧
      fired.count k = (if c = 1 then 1 else 0) := by
  have hklt : k < s_timers.length := by
    rcases Nat.lt_or_ge k s_timers.length with h | h
    · exact h
    · rw [List.get?_eq_none.mpr h] at hk; exact absurd hk (by simp)
  have hmem : k ∈ List.range s_timers.length := List.mem_range.mpr hklt
  obtain ⟨l1, l2, hsplit⟩ := List.append_of_mem hmem
  have hnd : (l1 ++ k :: l2).Nodup := hsplit ▸ List.nodup_range _
  have hk1 : k ∉ l1 := by
    intro h
    have := (List.nodup_append.mp hnd).2.2
    exact this h (List.mem_cons_self _ _) 
  have hk2 : k ∉ l2 := by
    have := (List.nodup_append.mp hnd).2.1
    exact (List.nodup_cons.mp this).1
  unfold timer_global_tick
  rw [hsplit, tick_loop_append]
  obtain ⟨sa, a1, a2, a3⟩ := tick_loop_other G s_timers k hvalid hcb l1 hk1 (w, [])
  rw [a1]
  simp only [Option.some_bind, timer_tick_loop]
  obtain ⟨sb, b1, b2, b3⟩ :=
    tick_step_self G hG s_timers k t m hk hper hperiod sa c hc (by rw [a2]; exact hw)
  rw [b1]
  obtain ⟨sc, c1, c2, c3⟩ := tick_loop_other G s_timers k hvalid hcb l2 hk2 sb
  simp only [c1]
  refine ⟨sc.1, sc.2, rfl, by rw [c2, b2], ?_⟩
  rw [c3, b3, a3]
  simp

/-- A run of `N` ticks seen from the periodic timer `k` whose countdown is
`c`, with `1 ≤ c ≤ m`: the run returns, and tick number `n + 1` invokes the
callback once if `m` divides `n + 1 + (m - c)` and not at all otherwise. -/
theorem timer_run_phase {E : Type} (G : Int) (hG : G ≠ 0) (s_timers : List (timer_entry E))
    (k : Nat) (t : timer_entry E) (m : Nat)
    (hk : s_timers.get? k = some t) (hper : t.periodic = true)
    (hperiod : t.period_ms = (m : Int) * G)
    (hvalid : ∀ j t, s_timers.get? j = some t → t.periodic = true → t.period_ms.tmod G = 0)
    (hcb : ∀ j t, j ≠ k → s_timers.get? j = some t →
      ∀ x w, (t.callback x w).timeout k = w.timeout k) :
    ∀ (N c : Nat) (w : timer_world E), 1 ≤ c → c ≤ m → w.timeout k = (c : Int) →
      ∃ w1 log, timer_run G s_timers N w = some (w1, log) ∧ log.length = N ∧
        (∀ n, n < N →
          (log.getD n []).count k = if m ∣ n + 1 + (m - c) then 1 else 0) ∧
        (log.map (List.count k)).sum = (N + (m - c)) / m := by
  intro N
  induction N with
  | zero =>
    intro c w hc1 hc2 _
    refine ⟨w, [], rfl, rfl, by intro n hn; omega, ?_⟩
    simp only [List.map_nil, List.sum_nil, Nat.zero_add]
    exact (Nat.div_eq_of_lt (by omega)).symm
  | succ N ih =>
    intro c w hc1 hc2 hw
    obtain ⟨w1, fired, htick, hto, hcnt⟩ :=
      global_tick_self G hG s_timers k t m hk hper hperiod hvalid hcb w c hc1 hw
    by_cases hc : c = 1
    · rw [if_pos hc] at hto hcnt
      obtain ⟨w2, log, hrun, hlen, hper2, hsum⟩ := ih m w1 (by omega) (Nat.le_refl m) hto
      refine ⟨w2, fired :: log, ?_, by simp [hlen], ?_, ?_⟩
      · simp only [timer_run, htick, hrun]
      · intro n hn
        cases n with
        | zero =>
          have e0 : 0 + 1 + (m - c) = m := by omega
          have hd0 : m ∣ 0 + 1 + (m - c) := by rw [e0]
          rw [if_pos hd0]
          simpa using hcnt
        | succ n =>
          have h1 := hper2 n (by omega)
          have e1 : n + 1 + 1 + (m - c) = n + 1 + (m - m) + m := by omega
          have hiff : m ∣ n + 1 + 1 + (m - c) ↔ m ∣ n + 1 + (m - m) := by
            rw [e1, Nat.dvd_add_self_right]
          simp only [hiff]
          simpa using h1
      · simp only [List.map_cons, List.sum_cons, hcnt, hsum]
        have e2 : N + 1 + (m - c) = N + (m - m) + m := by omega
        rw [e2, Nat.add_div_right _ (by omega : 0 < m)]
        omega
    · rw [if_neg hc] at hto hcnt
      have hto2 : w1.timeout k = ((c - 1 : Nat) : Int) := by rw [hto]; omega
      obtain ⟨w2, log, hrun, hlen, hper2, hsum⟩ := ih (c - 1) w1 (by omega) (by omega) hto2
      refine ⟨w2, fired :: log, ?_, by simp [hlen], ?_, ?_⟩
      · simp only [timer_run, htick, hrun]
      · intro n hn
        cases n with
        | zero =>
          have hnd : ¬ m ∣ 0 + 1 + (m - c) :=
            Nat.not_dvd_of_pos_of_lt (by omega) (by omega)
          rw [if_neg hnd]
          simpa using hcnt
        | succ n =>
          have h1 := hper2 n (by omega)
          have e1 : n + 1 + 1 + (m - c) = n + 1 + (m - (c - 1)) := by omega
          have hiff : m ∣ n + 1 + 1 + (m - c) ↔ m ∣ n + 1 + (m - (c - 1)) := by rw [e1]
          simp only [hiff]
          simpa using h1
      · simp only [List.map_cons, List.sum_cons, hcnt, hsum, Nat.zero_add]
        have e2 : N + 1 + (m - c) = N + (m - (c - 1)) := by omega
        rw [e2]

/-- Counting invocations over a prefix of the log: when call number `n + 1`
invokes the callback once if `m` divides `n + 1` and not at all otherwise, the
first `M` calls invoke it `M / m` times. -/
theorem invocations_in_prefix (m k : Nat) (log : List (List Nat))
    (h : ∀ n, n < log.length → (log.getD n []).count k = if m ∣ n + 1 then 1 else 0) :
    ∀ M, M ≤ log.length → ((log.take M).map (List.count k)).sum = M / m := by
  intro M
  induction M with
  | zero => intro _; simp
  | succ M ih =>
    intro hM
    have hlt : M < log.length := by omega
    have hget : log[M]? = some (log.getD M []) := by
      rw [List.getD_eq_getElem?_getD, List.getElem?_eq_getElem hlt]
      rfl
    rw [List.take_succ, hget]
    simp only [Option.toList_some, List.map_append, List.map_cons, List.map_nil,
      List.sum_append, List.sum_cons, List.sum_nil, Nat.add_zero]
    rw [ih (by omega), h M hlt, Nat.succ_div]

/-- C10: zero drift.  For a periodic timer `k` of period `m ≥ 1` base periods,
in a table whose periodic entries all have a period that is a multiple of the
base period, started by `timer_start` and neither started nor stopped by the
callback of another timer: any `N` consecutive calls of `timer_global_tick`
return, the call number `n + 1` invokes the callback of `k` exactly once if
`m` divides `n + 1` and not at all otherwise, and the first `M` calls, for
every `M ≤ N`, invoke it `M / m` times (so the `j`-th invocation happens in
call number `j * m`, and the total over the `N` calls is `N / m`). -/
theorem C10_periodic_timer_zero_drift {E : Type} (TIMER_GLOBAL_PERIOD_MS : Int)
    (hG : 0 < TIMER_GLOBAL_PERIOD_MS) (s_timers : List (timer_entry E))
    (k : Nat) (t : timer_entry E) (m : Nat) (hm : 1 ≤ m)
    (hk : s_timers.get? k = some t) (hper : t.periodic = true)
    (hperiod : t.period_ms = (m : Int) * TIMER_GLOBAL_PERIOD_MS)
    (hvalid : ∀ j t, s_timers.get? j = some t → t.periodic = true →
      t.period_ms.tmod TIMER_GLOBAL_PERIOD_MS = 0)
    (hcb : ∀ j t, j ≠ k → s_timers.get? j = some t →
      ∀ x w, (t.callback x w).timeout k = w.timeout k)
    (w0 : timer_world E) (N : Nat) :
    ∃ w w1 log, timer_start TIMER_GLOBAL_PERIOD_MS s_timers k w0 = some w ∧
      timer_run TIMER_GLOBAL_PERIOD_MS s_timers N w = some (w1, log) ∧
      log.length = N ∧
      (∀ n, n < N → (log.getD n []).count k = if m ∣ n + 1 then 1 else 0) ∧
      (∀ M, M ≤ N → ((log.take M).map (List.count k)).sum = M / m) ∧
      (log.map (List.count k)).sum = N / m := by
  have hG0 : TIMER_GLOBAL_PERIOD_MS ≠ 0 := by omega
  have hv : t.period_ms.tmod TIMER_GLOBAL_PERIOD_MS = 0 := hvalid k t hk hper
  have hd : t.period_ms.tdiv TIMER_GLOBAL_PERIOD_MS = (m : Int) := by
    rw [hperiod]; exact Int.mul_tdiv_cancel _ hG0
  obtain ⟨w1, log, hrun, hlen, hpat, hsum⟩ :=
    timer_run_phase TIMER_GLOBAL_PERIOD_MS hG0 s_timers k t m hk hper hperiod hvalid hcb N m
      { w0 with timeout := fun j =>
          if j = k then t.period_ms.tdiv TIMER_GLOBAL_PERIOD_MS else w0.timeout j }
      hm (Nat.le_refl m) (by simp [hd])
  have hpat2 : ∀ n, n < log.length →
      (log.getD n []).count k = if m ∣ n + 1 then 1 else 0 := by
    intro n hn
    have := hpat n (hlen ▸ hn)
    simpa using this
  refine ⟨_, w1, log, timer_start_valid _ _ _ t hk hv w0, hrun, hlen, ?_, ?_, ?_⟩
  · intro n hn
    exact hpat2 n (hlen.symm ▸ hn)
  · intro M hM
    exact invocations_in_prefix m k log hpat2 M (hlen.symm ▸ hM)
  · simpa using hsum

/-- C10 at the two-entry table `demo_timers` with base period 100 ms: timer 0
(period 300 ms, m = 3), started from the dormant state, over 7 ticks. -/
theorem C10_periodic_timer_zero_drift_witness :
    ∃ w w1 log, timer_start 100 demo_timers 0 demo_world = some w ∧
      timer_run 100 demo_timers 7 w = some (w1, log) ∧
      log.length = 7 ∧
      (∀ n, n < 7 → (log.getD n []).count 0 = if 3 ∣ n + 1 then 1 else 0) ∧
      (∀ M, M ≤ 7 → ((log.take M).map (List.count 0)).sum = M / 3) ∧
      (log.map (List.count 0)).sum = 7 / 3 :=
  C10_periodic_timer_zero_drift 100 (by decide) demo_timers 0
    { callback := fun _ w => { w with env := w.env + 1 }, period_ms := 300, periodic := true }
    3 (by decide) rfl rfl (by decide)
    (by
      intro j t hj _
      match j, hj with
      | 0, hj => cases hj; decide
      | 1, hj => cases hj; decide
      | n + 2, hj => simp [demo_timers] at hj)
    (by
      intro j t _ hj x w
      match j, hj with
      | 0, hj => cases hj; rfl
      | 1, hj => cases hj; rfl
      | n + 2, hj => simp [demo_timers] at hj)
    demo_world 7

/-! ### One tick, one timer -/

/-- The loop iteration for index `k`, written out for the entry stored there. -/
theorem tick_step_at {E : Type} (G : Int) (s_timers : List (timer_entry E)) (k : Nat)
    (t : timer_entry E) (hk : s_timers.get? k = some t)
    (hv : t.periodic = true → t.period_ms.tmod G = 0) (st : timer_world E × List Nat) :
    ∃ st1, timer_tick_step G s_timers k st = some st1 ∧
      (st.1.timeout k = 0 → st1 = st) ∧
      (st.1.timeout k ≠ 0 → st.1.timeout k ≠ 1 →
        st1.1.timeout k = st.1.timeout k - 1 ∧ st1.2 = st.2) ∧
      (st.1.timeout k = 1 →
        st1.2 = st.2 ++ [k] ∧
        (t.periodic = true → st1.1.timeout k = t.period_ms.tdiv G) ∧
        (t.periodic = false → st1.1 = t.callback 1
          { st.1 with timeout := fun j => if j = k then 0 else st.1.timeout j })) := by
  unfold timer_tick_step
  rw [hk]
  simp only
  by_cases h0 : st.1.timeout k = 0
  · rw [if_pos h0]
    exact ⟨st, rfl, fun _ => rfl, fun h => absurd h0 h, fun h => by rw [h0] at h; exact absurd h (by decide)⟩
  · rw [if_neg h0]
    by_cases h1 : st.1.timeout k = 1
    · have h10 : st.1.timeout k - 1 = 0 := by rw [h1]; rfl
      simp only [if_true, h10, ne_eq, not_true_eq_false, if_false]
      by_cases hp : t.periodic = true
      · rw [if_pos hp, timer_start_valid G s_timers k t hk (hv hp)]
        refine ⟨_, rfl, fun h => absurd h h0, fun _ h => absurd h1 h, fun _ => ⟨rfl, ?_, ?_⟩⟩
        · intro _; simp
        · intro hf; rw [hf] at hp; exact absurd hp (by decide)
      · rw [if_neg hp]
        refine ⟨_, rfl, fun h => absurd h h0, fun _ h => absurd h1 h, fun _ => ⟨rfl, ?_, ?_⟩⟩
        · intro h; exact absurd h hp
        · intro _; rfl
    · have h10 : ¬ st.1.timeout k - 1 = 0 := by omega
      simp only [if_true, ne_eq, h10, not_false_eq_true]
      exact ⟨_, rfl, fun h => absurd h h0, fun _ _ => ⟨by simp, rfl⟩, fun h => absurd h h1⟩

/-- C11 (as stated, refuted): in `selfstart_timers` the only timer is one-shot
and no other timer exists to touch it; from countdown 1 one call of
`timer_global_tick` invokes its callback once and leaves the countdown at 3,
not at 0, because the callback started the timer again. -/
theorem C11_oneshot_restarted_by_own_callback :
    (selfstart_timers.get? 0).map (fun t => t.periodic) = some false ∧
    expiring_world.timeout 0 = 1 ∧
    (timer_global_tick 100 selfstart_timers expiring_world).map
      (fun r => (r.1.timeout 0, r.2)) = some (3, [0]) := by
  decide

/-- C11 (amended): one call of `timer_global_tick`, seen from a timer `k`
whose countdown no other timer's callback writes, in a table whose periodic
entries have a period that is a multiple of the base period.  The call
returns; a countdown of 0 stays 0 without an invocation; a countdown other
than 0 and 1 is decremented by one without an invocation; a countdown of 1
invokes the callback exactly once, with argument 1 on the state in which the
countdown is 0, and afterwards the countdown is `period_ms / base` if the
timer is periodic and, if it is one-shot, what its own callback left: 0 when
the callback does not write it. -/
theorem C11_tick_one_timer {E : Type} (TIMER_GLOBAL_PERIOD_MS : Int)
    (s_timers : List (timer_entry E)) (k : Nat) (t : timer_entry E)
    (hk : s_timers.get? k = some t)
    (hvalid : ∀ j t, s_timers.get? j = some t → t.periodic = true →
      t.period_ms.tmod TIMER_GLOBAL_PERIOD_MS = 0)
    (hcb : ∀ j t, j ≠ k → s_timers.get? j = some t →
      ∀ x w, (t.callback x w).timeout k = w.timeout k)
    (w : timer_world E) :
    ∃ w1 fired, timer_global_tick TIMER_GLOBAL_PERIOD_MS s_timers w = some (w1, fired) ∧
      (w.timeout k = 0 → w1.timeout k = 0 ∧ fired.count k = 0) ∧
      (w.timeout k ≠ 0 → w.timeout k ≠ 1 →
        w1.timeout k = w.timeout k - 1 ∧ fired.count k = 0) ∧
      (w.timeout k = 1 →
        fired.count k = 1 ∧
        (t.periodic = true → w1.timeout k = t.period_ms.tdiv TIMER_GLOBAL_PERIOD_MS) ∧
        (t.periodic = false →
          ∃ wa : timer_world E, wa.timeout k = 0 ∧
            w1.timeout k = (t.callback 1 wa).timeout k) ∧
        (t.periodic = false → (∀ x wa, (t.callback x wa).timeout k = wa.timeout k) →
          w1.timeout k = 0)) := by
  have hklt : k < s_timers.length := by
    rcases Nat.lt_or_ge k s_timers.length with h | h
    · exact h
    · rw [List.get?_eq_none.mpr h] at hk; exact absurd hk (by simp)
  obtain ⟨l1, l2, hsplit⟩ := List.append_of_mem (List.mem_range.mpr hklt)
  have hnd : (l1 ++ k :: l2).Nodup := hsplit ▸ List.nodup_range _
  have hk1 : k ∉ l1 := fun h => (List.nodup_append.mp hnd).2.2 h (List.mem_cons_self _ _)
  have hk2 : k ∉ l2 := (List.nodup_cons.mp (List.nodup_append.mp hnd).2.1).1
  unfold timer_global_tick
  rw [hsplit, tick_loop_append]
  obtain ⟨sa, a1, a2, a3⟩ :=
    tick_loop_other TIMER_GLOBAL_PERIOD_MS s_timers k hvalid hcb l1 hk1 (w, [])
  rw [a1]
  simp only [Option.some_bind, timer_tick_loop]
  obtain ⟨sb, b1, b2, b3, b4⟩ :=
    tick_step_at TIMER_GLOBAL_PERIOD_MS s_timers k t hk (hvalid k t hk) sa
  rw [b1]
  obtain ⟨sc, c1, c2, c3⟩ :=
    tick_loop_other TIMER_GLOBAL_PERIOD_MS s_timers k hvalid hcb l2 hk2 sb
  simp only [c1]
  have a2w : sa.1.timeout k = w.timeout k := a2
  have a3w : sa.2.count k = 0 := by rw [a3]; rfl
  refine ⟨sc.1, sc.2, rfl, ?_, ?_, ?_⟩
  · intro h0
    have := b2 (by rw [a2w]; exact h0)
    rw [c2, c3, this, a2w, a3w]
    exact ⟨h0, rfl⟩
  · intro h0 h1
    obtain ⟨e1, e2⟩ := b3 (by rw [a2w]; exact h0) (by rw [a2w]; exact h1)
    rw [c2, c3, e1, e2, a2w, a3w]
    exact ⟨rfl, rfl⟩
  · intro h1
    obtain ⟨e1, e2, e3⟩ := b4 (by rw [a2w]; exact h1)
    refine ⟨?_, ?_, ?_, ?_⟩
    · rw [c3, e1, List.count_append, a3w]; simp
    · intro hp; rw [c2, e2 hp]
    · intro hp
      refine ⟨{ sa.1 with timeout := fun j => if j = k then 0 else sa.1.timeout j }, by simp, ?_⟩
      rw [c2, e3 hp]
    · intro hp hown
      rw [c2, e3 hp, hown]
      simp

/-- C11 (amended) at `demo_timers`, timer 0 (periodic, 300 ms) about to
expire: one invocation, countdown 3 afterwards. -/
theorem C11_tick_one_timer_witness :
    ∃ w1 fired, timer_global_tick 100 demo_timers expiring_world = some (w1, fired) ∧
      fired.count 0 = 1 ∧ w1.timeout 0 = 3 := by
  obtain ⟨w1, fired, h, -, -, h1⟩ := C11_tick_one_timer 100 demo_timers 0
    { callback := fun _ w => { w with env := w.env + 1 }, period_ms := 300, periodic := true }
    rfl
    (by
      intro j t hj _
      match j, hj with
      | 0, hj => cases hj; decide
      | 1, hj => cases hj; decide
      | n + 2, hj => simp [demo_timers] at hj)
    (by
      intro j t _ hj x w
      match j, hj with
      | 0, hj => cases hj; rfl
      | 1, hj => cases hj; rfl
      | n + 2, hj => simp [demo_timers] at hj)
    expiring_world
  obtain ⟨g1, g2, -, -⟩ := h1 rfl
  exact ⟨w1, fired, h, g1, by rw [g2 rfl]; decide⟩

end WsTimers

namespace WsFfn

/-! ### Conservation of the entries -/

theorem conserved_refl (a : parent_table) (h : table_wf a) : conserved a a := ⟨h, rfl⟩

theorem conserved_trans (a b c : parent_table) (h1 : conserved a b) (h2 : conserved b c) :
    conserved a c := ⟨h2.1, h2.2.trans h1.2⟩

/-- Moving a reserved entry to the end of the free list conserves the
entries. -/
theorem evict_conserved (cur : parent_table) (e : Nat) (hwf : table_wf cur)
    (he : e ∈ cur.parent_list_reserved) : conserved cur (neighbor_set_evict cur e) := by
  obtain ⟨hr, hf, hd⟩ := hwf
  have hef : e ∉ cur.parent_list_free := fun h => hd e h he
  refine ⟨⟨hr.erase e, ?_, ?_⟩, ?_⟩
  · show (cur.parent_list_free ++ [e]).Nodup
    rw [List.nodup_append]
    refine ⟨hf, List.nodup_singleton e, ?_⟩
    intro a ha hb
    simp only [List.mem_singleton] at hb
    exact hef (hb ▸ ha)
  · intro x hx hxr
    have hx2 : x ∈ cur.parent_list_free ++ [e] := hx
    have hxr2 : x ∈ cur.parent_list_reserved.erase e := hxr
    rcases List.mem_append.mp hx2 with h | h
    · exact hd x h (List.mem_of_mem_erase hxr2)
    · simp only [List.mem_singleton] at h
      subst h
      exact ((List.Nodup.mem_erase_iff hr).mp hxr2).1 rfl
  · show (cur.parent_list_reserved.erase e).length + (cur.parent_list_free ++ [e]).length = _
    rw [List.length_erase_of_mem he, List.length_append]
    have := List.length_pos_of_mem he
    simp only [List.length_singleton]
    omega

theorem sort_conserved (w1 w2 : Nat) (cur : parent_table) (e : Nat) (hwf : table_wf cur)
    (he : e ∈ cur.parent_list_reserved) :
    conserved cur (ws_bootstrap_ffn_candidate_parent_sort w1 w2 cur e) := by
  obtain ⟨hr, hf, hd⟩ := hwf
  have hperm := sort_reserved_perm w1 w2 cur e hr he
  refine ⟨⟨hperm.nodup_iff.mpr hr, ?_, ?_⟩, ?_⟩
  · rw [sort_free_eq]; exact hf
  · rw [sort_free_eq]
    intro x hx hxr
    exact hd x hx (hperm.mem_iff.mp hxr)
  · rw [sort_free_eq, hperm.length_eq]

theorem mark_failure_conserved (w1 w2 : Nat) (cur : parent_table) (addr : Nat)
    (hwf : table_wf cur) :
    conserved cur (ws_bootstrap_ffn_candidate_parent_mark_failure w1 w2 cur addr) := by
  cases hl : candidate_parent_lookup cur.pool addr cur.parent_list_reserved with
  | none => rw [mark_failure_miss w1 w2 cur addr hl]; exact conserved_refl cur hwf
  | some e =>
    have he := (lookup_some _ _ _ _ hl).1
    by_cases hf : (cur.pool e).tx_fail ≥ 2
    · rw [mark_failure_evict w1 w2 cur addr e hl hf]
      exact evict_conserved cur e hwf he
    · rw [mark_failure_inc w1 w2 cur addr e hl (Nat.not_le.mp hf)]
      exact sort_conserved w1 w2
        { cur with pool := pool_set cur.pool e
                     ({ cur.pool e with tx_fail := (cur.pool e).tx_fail + 1 }) } e hwf he

theorem get_conserved (cur : parent_table) (addr : Nat) (create : Bool) (hwf : table_wf cur) :
    conserved cur (ws_bootstrap_ffn_candidate_parent_get cur addr create).1 := by
  cases hl : candidate_parent_lookup cur.pool addr cur.parent_list_reserved with
  | some e => rw [get_hit cur addr create e hl]; exact conserved_refl cur hwf
  | none =>
    cases create with
    | false =>
      have : ws_bootstrap_ffn_candidate_parent_get cur addr false = (cur, none) := by
        unfold ws_bootstrap_ffn_candidate_parent_get
        rw [hl]; rfl
      rw [this]; exact conserved_refl cur hwf
    | true =>
      obtain ⟨hr, hf, hd⟩ := hwf
      cases hfree : cur.parent_list_free with
      | cons f fs =>
        rw [get_create_pop cur addr f fs hl hfree]
        rw [hfree] at hf hd
        have hfr : f ∉ cur.parent_list_reserved := hd f (List.mem_cons_self _ _)
        have hffs : f ∉ fs := (List.nodup_cons.mp hf).1
        refine ⟨⟨?_, (List.nodup_cons.mp hf).2, ?_⟩, ?_⟩
        · show (cur.parent_list_reserved ++ [f]).Nodup
          rw [List.nodup_append]
          refine ⟨hr, List.nodup_singleton f, ?_⟩
          intro a ha hb
          simp only [List.mem_singleton] at hb
          exact hfr (hb ▸ ha)
        · intro x hx hxr
          have hxr2 : x ∈ cur.parent_list_reserved ++ [f] := hxr
          have hx2 : x ∈ fs := hx
          rcases List.mem_append.mp hxr2 with h | h
          · exact hd x (List.mem_cons_of_mem _ hx2) h
          · simp only [List.mem_singleton] at h
            exact hffs (h ▸ hx2)
        · show (cur.parent_list_reserved ++ [f]).length + fs.length = _
          simp only [hfree, List.length_append, List.length_cons, List.length_nil]
          omega
      | nil =>
        cases hlast : cur.parent_list_reserved.getLast? with
        | none =>
          have hres : cur.parent_list_reserved = [] := List.getLast?_eq_none_iff.mp hlast
          rw [get_create_empty cur addr hl hfree hres]
          exact conserved_refl cur ⟨hr, hf, hd⟩
        | some e0 =>
          rw [get_create_reclaim cur addr e0 hl hfree hlast]
          exact ⟨⟨hr, hf, hd⟩, rfl⟩

/-- The candidate table after `ws_bootstrap_ffn_neighbor_set`: with the
candidate evicted when both collaborator calls fail, untouched otherwise. -/
theorem neighbor_set_parents (cur : net_if) (p : Nat) (clear_list g a : Bool) :
    (ws_bootstrap_ffn_neighbor_set cur p clear_list g a).1.parents =
      if g = false ∧ a = false then neighbor_set_evict cur.parents p else cur.parents := by
  unfold ws_bootstrap_ffn_neighbor_set
  cases g <;> cases a <;> simp <;> split_ifs <;> rfl

theorem neighbor_set_conserved (cur : net_if) (p : Nat) (clear_list g a : Bool)
    (hwf : table_wf cur.parents) (hp : p ∈ cur.parents.parent_list_reserved) :
    conserved cur.parents (ws_bootstrap_ffn_neighbor_set cur p clear_list g a).1.parents := by
  rw [neighbor_set_parents]
  split_ifs
  · exact evict_conserved cur.parents p hwf hp
  · exact conserved_refl _ hwf

theorem next_target_conserved (w1 w2 : Nat) (cur : net_if) (prev pan_id : Nat) (g a : Bool)
    (hwf : table_wf cur.parents) :
    conserved cur.parents
      (ws_bootstrap_authentication_next_target w1 w2 cur prev pan_id g a).1.parents := by
  have hmf := mark_failure_conserved w1 w2 cur.parents prev hwf
  unfold ws_bootstrap_authentication_next_target
  simp only
  cases hb : ws_bootstrap_ffn_candidate_parent_get_best
      (ws_bootstrap_ffn_candidate_parent_mark_failure w1 w2 cur.parents prev) with
  | none => exact hmf
  | some h =>
    simp only
    refine conserved_trans _ _ _ hmf ?_
    have hh : h ∈ (ws_bootstrap_ffn_candidate_parent_mark_failure w1 w2 cur.parents
        prev).parent_list_reserved := by
      unfold ws_bootstrap_ffn_candidate_parent_get_best ns_list_get_first at hb
      exact List.mem_of_mem_head? hb
    exact neighbor_set_conserved
      { cur with parents := ws_bootstrap_ffn_candidate_parent_mark_failure w1 w2 cur.parents prev }
      h true g a hmf.1 hh

/-- C12: the entries are conserved.  From a table with well-formed lists,
`get` (with or without `create`), the resort of a resident entry,
`mark_failure`, `ws_bootstrap_ffn_neighbor_set` on a resident candidate and
`ws_bootstrap_authentication_next_target` each leave the two lists
duplicate-free and disjoint and the sum of their lengths unchanged; hence
after any of them the reserved list is no longer than that sum, the
capacity. -/
theorem C12_entries_conserved (w1 w2 : Nat) (cur : net_if) (hwf : table_wf cur.parents) :
    (∀ addr create,
      conserved cur.parents (ws_bootstrap_ffn_candidate_parent_get cur.parents addr create).1) ∧
    (∀ e ∈ cur.parents.parent_list_reserved,
      conserved cur.parents (ws_bootstrap_ffn_candidate_parent_sort w1 w2 cur.parents e)) ∧
    (∀ addr,
      conserved cur.parents
        (ws_bootstrap_ffn_candidate_parent_mark_failure w1 w2 cur.parents addr)) ∧
    (∀ p ∈ cur.parents.parent_list_reserved, ∀ clear_list g a,
      conserved cur.parents (ws_bootstrap_ffn_neighbor_set cur p clear_list g a).1.parents) ∧
    (∀ prev pan_id g a,
      conserved cur.parents
        (ws_bootstrap_authentication_next_target w1 w2 cur prev pan_id g a).1.parents) ∧
    (∀ b, conserved cur.parents b →
      b.parent_list_reserved.length ≤
        cur.parents.parent_list_reserved.length + cur.parents.parent_list_free.length) := by
  refine ⟨fun addr create => get_conserved _ addr create hwf,
    fun e he => sort_conserved w1 w2 _ e hwf he,
    fun addr => mark_failure_conserved w1 w2 _ addr hwf,
    fun p hp c g a => neighbor_set_conserved cur p c g a hwf hp,
    fun prev pan_id g a => next_target_conserved w1 w2 cur prev pan_id g a hwf, ?_⟩
  intro b hb
  have := hb.2
  omega

/-! ### Address uniqueness and the failure bound -/

theorem addr_distinct_nodup (pool : Nat → parent_info_t) (l : List Nat)
    (h : addr_distinct pool l) : l.Nodup :=
  List.Nodup.of_map _ h

theorem addr_distinct_perm (pool : Nat → parent_info_t) (l1 l2 : List Nat)
    (hp : l1.Perm l2) (h : addr_distinct pool l2) : addr_distinct pool l1 := by
  unfold addr_distinct at *
  exact (List.Perm.map _ hp).nodup_iff.mpr h

theorem addr_distinct_congr (pool pool2 : Nat → parent_info_t) (l : List Nat)
    (hc : ∀ x ∈ l, (pool2 x).addr = (pool x).addr) (h : addr_distinct pool l) :
    addr_distinct pool2 l := by
  unfold addr_distinct at *
  rw [List.map_congr_left (g := fun e => (pool e).addr) hc]
  exact h

theorem addr_distinct_erase (pool : Nat → parent_info_t) (l : List Nat) (e : Nat)
    (h : addr_distinct pool l) : addr_distinct pool (l.erase e) := by
  unfold addr_distinct at *
  exact List.Nodup.sublist (List.Sublist.map _ (List.erase_sublist e l)) h

/-- What `mark_failure` does, by cases of the lookup and of the threshold. -/
theorem mark_failure_cases (w1 w2 : Nat) (cur : parent_table) (addr : Nat) :
    ws_bootstrap_ffn_candidate_parent_mark_failure w1 w2 cur addr = cur ∨
    (∃ e, e ∈ cur.parent_list_reserved ∧ (cur.pool e).tx_fail ≥ 2 ∧
      ws_bootstrap_ffn_candidate_parent_mark_failure w1 w2 cur addr =
        neighbor_set_evict cur e) ∨
    (∃ e, e ∈ cur.parent_list_reserved ∧ (cur.pool e).tx_fail < 2 ∧
      ws_bootstrap_ffn_candidate_parent_mark_failure w1 w2 cur addr =
        ws_bootstrap_ffn_candidate_parent_sort w1 w2
          { cur with pool := pool_set cur.pool e
                       ({ cur.pool e with tx_fail := (cur.pool e).tx_fail + 1 }) } e) := by
  cases hl : candidate_parent_lookup cur.pool addr cur.parent_list_reserved with
  | none => exact Or.inl (mark_failure_miss w1 w2 cur addr hl)
  | some e =>
    have he := (lookup_some _ _ _ _ hl).1
    by_cases hf : (cur.pool e).tx_fail ≥ 2
    · exact Or.inr (Or.inl ⟨e, he, hf, mark_failure_evict w1 w2 cur addr e hl hf⟩)
    · exact Or.inr (Or.inr ⟨e, he, Nat.not_le.mp hf,
        mark_failure_inc w1 w2 cur addr e hl (Nat.not_le.mp hf)⟩)

/-- What a `get` with `create` does, by cases of the lookup and of the free
list. -/
theorem get_create_cases (cur : parent_table) (addr : Nat) :
    (∃ e, candidate_parent_lookup cur.pool addr cur.parent_list_reserved = some e ∧
      ws_bootstrap_ffn_candidate_parent_get cur addr true = (cur, some e)) ∨
    (candidate_parent_lookup cur.pool addr cur.parent_list_reserved = none ∧
      ((∃ f fs, cur.parent_list_free = f :: fs ∧
        ws_bootstrap_ffn_candidate_parent_get cur addr true =
          ({ pool := pool_set cur.pool f
               { cur.pool f with addr := addr, tx_fail := 0, link_acceptable := false },
             parent_list_free := fs,
             parent_list_reserved := cur.parent_list_reserved ++ [f] }, some f)) ∨
       (∃ e, cur.parent_list_free = [] ∧ cur.parent_list_reserved.getLast? = some e ∧
        ws_bootstrap_ffn_candidate_parent_get cur addr true =
          ({ cur with
             pool := pool_set cur.pool e
               ({ cur.pool e with tx_fail := 0, link_acceptable := false }) }, some e)) ∨
       (cur.parent_list_free = [] ∧ cur.parent_list_reserved = [] ∧
        ws_bootstrap_ffn_candidate_parent_get cur addr true = (cur, none)))) := by
  cases hl : candidate_parent_lookup cur.pool addr cur.parent_list_reserved with
  | some e => exact Or.inl ⟨e, rfl, get_hit cur addr true e hl⟩
  | none =>
    refine Or.inr ⟨rfl, ?_⟩
    by_cases hfree : cur.parent_list_free = []
    · by_cases hres : cur.parent_list_reserved = []
      · exact Or.inr (Or.inr ⟨hfree, hres, get_create_empty cur addr hl hfree hres⟩)
      · obtain ⟨e, hlast⟩ : ∃ e, cur.parent_list_reserved.getLast? = some e := by
          cases hlast : cur.parent_list_reserved.getLast? with
          | none => exact absurd (List.getLast?_eq_none_iff.mp hlast) hres
          | some e => exact ⟨e, rfl⟩
        exact Or.inr (Or.inl ⟨e, hfree, hlast, get_create_reclaim cur addr e hl hfree hlast⟩)
    · obtain ⟨f, fs, hcons⟩ := List.exists_cons_of_ne_nil hfree
      exact Or.inl ⟨f, fs, hcons, get_create_pop cur addr f fs hl hcons⟩

theorem sort_addr_distinct (w1 w2 : Nat) (cur : parent_table) (e : Nat)
    (hd : addr_distinct cur.pool cur.parent_list_reserved)
    (he : e ∈ cur.parent_list_reserved) :
    addr_distinct (ws_bootstrap_ffn_candidate_parent_sort w1 w2 cur e).pool
      (ws_bootstrap_ffn_candidate_parent_sort w1 w2 cur e).parent_list_reserved := by
  rw [sort_pool_eq]
  exact addr_distinct_perm _ _ _
    (sort_reserved_perm w1 w2 cur e (addr_distinct_nodup _ _ hd) he) hd

/-- C13: address uniqueness is kept.  In a table whose reserved entries carry
pairwise distinct addresses and whose free entries are not on the reserved
list, the reserved entries carry pairwise distinct addresses after a `get`
with `create`, after the resort of a resident entry, after `mark_failure`, and
after the eviction on bind failure. -/
theorem C13_addresses_stay_distinct (w1 w2 : Nat) (cur : parent_table)
    (hd : addr_distinct cur.pool cur.parent_list_reserved)
    (hdisj : ∀ x ∈ cur.parent_list_free, x ∉ cur.parent_list_reserved) :
    (∀ addr,
      addr_distinct (ws_bootstrap_ffn_candidate_parent_get cur addr true).1.pool
        (ws_bootstrap_ffn_candidate_parent_get cur addr true).1.parent_list_reserved) ∧
    (∀ e ∈ cur.parent_list_reserved,
      addr_distinct (ws_bootstrap_ffn_candidate_parent_sort w1 w2 cur e).pool
        (ws_bootstrap_ffn_candidate_parent_sort w1 w2 cur e).parent_list_reserved) ∧
    (∀ addr,
      addr_distinct (ws_bootstrap_ffn_candidate_parent_mark_failure w1 w2 cur addr).pool
        (ws_bootstrap_ffn_candidate_parent_mark_failure w1 w2 cur addr).parent_list_reserved) ∧
    (∀ parent_ptr,
      addr_distinct (neighbor_set_evict cur parent_ptr).pool
        (neighbor_set_evict cur parent_ptr).parent_list_reserved) := by
  refine ⟨?_, fun e he => sort_addr_distinct w1 w2 cur e hd he, ?_,
    fun p => addr_distinct_erase _ _ p hd⟩
  · intro addr
    rcases get_create_cases cur addr with ⟨e, -, hget⟩ | ⟨hl, h⟩
    · rw [hget]; exact hd
    · rcases h with ⟨f, fs, hfree, hget⟩ | ⟨e, -, -, hget⟩ | ⟨-, -, hget⟩
      · rw [hget]
        have hf : f ∉ cur.parent_list_reserved :=
          hdisj f (by rw [hfree]; exact List.mem_cons_self _ _)
        have hmap : cur.parent_list_reserved.map (fun e =>
            (pool_set cur.pool f
              { cur.pool f with addr := addr, tx_fail := 0, link_acceptable := false } e).addr) =
            cur.parent_list_reserved.map (fun e => (cur.pool e).addr) := by
          apply List.map_congr_left
          intro x hx
          have hxf : x ≠ f := fun h => hf (h ▸ hx)
          simp [pool_set, hxf]
        unfold addr_distinct at hd ⊢
        simp only [List.map_append, hmap, List.map_cons, List.map_nil]
        rw [List.nodup_append]
        refine ⟨hd, by simp, ?_⟩
        intro a ha hb
        simp only [pool_set, if_true, List.mem_singleton] at hb
        obtain ⟨x, hx, hxa⟩ := List.mem_map.mp ha
        exact (lookup_none cur.pool addr _).mp hl x hx (hxa.trans hb)
      · rw [hget]
        refine addr_distinct_congr cur.pool _ _ ?_ hd
        intro x _
        by_cases hx : x = e <;> simp [pool_set, hx]
      · rw [hget]; exact hd
  · intro addr
    rcases mark_failure_cases w1 w2 cur addr with h | ⟨e, -, -, h⟩ | ⟨e, he, -, h⟩
    · rw [h]; exact hd
    · rw [h]; exact addr_distinct_erase _ _ e hd
    · rw [h]
      refine sort_addr_distinct w1 w2 _ e ?_ he
      refine addr_distinct_congr cur.pool _ _ ?_ hd
      intro x _
      by_cases hx : x = e <;> simp [pool_set, hx]

/-- C13 at `table_one_failed` (address 3 resident, slot 1 free) with the new
address 7 created, and at `table_full_fresh` with address 11 marked. -/
theorem C13_addresses_stay_distinct_witness :
    addr_distinct (ws_bootstrap_ffn_candidate_parent_get table_one_failed 7 true).1.pool
      (ws_bootstrap_ffn_candidate_parent_get table_one_failed 7 true).1.parent_list_reserved ∧
    addr_distinct (ws_bootstrap_ffn_candidate_parent_mark_failure 256 64 table_full_fresh 11).pool
      (ws_bootstrap_ffn_candidate_parent_mark_failure 256 64 table_full_fresh
        11).parent_list_reserved :=
  ⟨(C13_addresses_stay_distinct 256 64 table_one_failed (by decide) (by decide)).1 7,
    (C13_addresses_stay_distinct 256 64 table_full_fresh (by decide) (by decide)).2.2.1 11⟩

/-- C14: the failure bound is kept.  In a table with a duplicate-free reserved
list in which every reserved entry has a failure count of at most 2, the same
holds after a `get` with `create`, after the resort of a resident entry and
after `mark_failure`; and `mark_failure` leaves the failure count of every
slot as it was or adds one to it with a result of at most 2. -/
theorem C14_failure_count_bounded (w1 w2 : Nat) (cur : parent_table)
    (hnd : cur.parent_list_reserved.Nodup)
    (hb : fail_bounded cur.pool cur.parent_list_reserved) :
    (∀ addr,
      fail_bounded (ws_bootstrap_ffn_candidate_parent_get cur addr true).1.pool
        (ws_bootstrap_ffn_candidate_parent_get cur addr true).1.parent_list_reserved) ∧
    (∀ e ∈ cur.parent_list_reserved,
      fail_bounded (ws_bootstrap_ffn_candidate_parent_sort w1 w2 cur e).pool
        (ws_bootstrap_ffn_candidate_parent_sort w1 w2 cur e).parent_list_reserved) ∧
    (∀ addr,
      fail_bounded (ws_bootstrap_ffn_candidate_parent_mark_failure w1 w2 cur addr).pool
        (ws_bootstrap_ffn_candidate_parent_mark_failure w1 w2 cur addr).parent_list_reserved) ∧
    (∀ addr x,
      ((ws_bootstrap_ffn_candidate_parent_mark_failure w1 w2 cur addr).pool x).tx_fail =
          (cur.pool x).tx_fail ∨
      (((ws_bootstrap_ffn_candidate_parent_mark_failure w1 w2 cur addr).pool x).tx_fail =
          (cur.pool x).tx_fail + 1 ∧
        ((ws_bootstrap_ffn_candidate_parent_mark_failure w1 w2 cur addr).pool x).tx_fail
          ≤ 2)) := by
  have hsort : ∀ (t : parent_table) (e : Nat), t.parent_list_reserved.Nodup →
      e ∈ t.parent_list_reserved → fail_bounded t.pool t.parent_list_reserved →
      fail_bounded (ws_bootstrap_ffn_candidate_parent_sort w1 w2 t e).pool
        (ws_bootstrap_ffn_candidate_parent_sort w1 w2 t e).parent_list_reserved := by
    intro t e htn he htb x hx
    rw [sort_pool_eq]
    exact htb x ((sort_reserved_perm w1 w2 t e htn he).mem_iff.mp hx)
  refine ⟨?_, fun e he => hsort cur e hnd he hb, ?_, ?_⟩
  · intro addr
    rcases get_create_cases cur addr with ⟨e, -, hget⟩ | ⟨-, h⟩
    · rw [hget]; exact hb
    · rcases h with ⟨f, fs, -, hget⟩ | ⟨e, -, -, hget⟩ | ⟨-, -, hget⟩
      · rw [hget]
        intro x hx
        by_cases hxf : x = f
        · simp [pool_set, hxf]
        · have hx2 : x ∈ cur.parent_list_reserved ++ [f] := hx
          have hxr : x ∈ cur.parent_list_reserved := by
            rcases List.mem_append.mp hx2 with h | h
            · exact h
            · exact absurd (List.mem_singleton.mp h) hxf
          simpa [pool_set, hxf] using hb x hxr
      · rw [hget]
        intro x hx
        by_cases hxe : x = e
        · simp [pool_set, hxe]
        · simpa [pool_set, hxe] using hb x hx
      · rw [hget]; exact hb
  · intro addr
    rcases mark_failure_cases w1 w2 cur addr with h | ⟨e, -, -, h⟩ | ⟨e, he, hlt, h⟩
    · rw [h]; exact hb
    · rw [h]
      intro x hx
      exact hb x (List.mem_of_mem_erase hx)
    · rw [h]
      refine hsort _ e hnd he ?_
      intro x hx
      by_cases hxe : x = e
      · simp only [pool_set, hxe, if_true]; omega
      · simpa [pool_set, hxe] using hb x hx
  · intro addr x
    rcases mark_failure_cases w1 w2 cur addr with h | ⟨e, -, -, h⟩ | ⟨e, -, hlt, h⟩
    · rw [h]; exact Or.inl rfl
    · rw [h]; exact Or.inl rfl
    · rw [h, sort_pool_eq]
      by_cases hxe : x = e
      · right
        subst hxe
        refine ⟨by simp [pool_set], ?_⟩
        simp only [pool_set, if_true]
        omega
      · left
        simp [pool_set, hxe]

/-- C14 at `table_full_failed` (both residents at failure count 1), address 4
marked: the count of slot 1 becomes 2 and the bound holds. -/
theorem C14_failure_count_bounded_witness :
    fail_bounded (ws_bootstrap_ffn_candidate_parent_mark_failure 256 64 table_full_failed 4).pool
      (ws_bootstrap_ffn_candidate_parent_mark_failure 256 64 table_full_failed
        4).parent_list_reserved ∧
    ((ws_bootstrap_ffn_candidate_parent_mark_failure 256 64 table_full_failed 4).pool 1).tx_fail
      = 2 :=
  ⟨(C14_failure_count_bounded 256 64 table_full_failed (by decide) (by decide)).2.2.1 4,
    by decide⟩

/-- C12 at `bind_net_if`: the bind of slot 0 with both collaborator calls
failing, and the authentication retry for address 11. -/
theorem C12_entries_conserved_witness :
    conserved bind_net_if.parents
      (ws_bootstrap_ffn_neighbor_set bind_net_if 0 true false false).1.parents ∧
    conserved bind_net_if.parents
      (ws_bootstrap_authentication_next_target 256 64 bind_net_if 11 0 false false).1.parents :=
  ⟨(C12_entries_conserved 256 64 bind_net_if (by decide)).2.2.2.1 0 (by decide) true false false,
    (C12_entries_conserved 256 64 bind_net_if (by decide)).2.2.2.2.1 11 0 false false⟩

/-! ### Neighbor binding and the authentication retry -/

/-- The collaborator calls of one `ws_bootstrap_ffn_neighbor_set`, in order. -/
theorem neighbor_set_calls (cur : net_if) (p : Nat) (clear_list g a : Bool) :
    (ws_bootstrap_ffn_neighbor_set cur p clear_list g a).1.calls =
      cur.calls ++
      (if cur.network_pan_id ≠ (cur.parents.pool p).pan_id then
        (if clear_list then [ffn_call.neighbor_list_clean] else []) ++ [ffn_call.fhss_activate]
       else []) ++
      [ffn_call.neighbor_get (cur.parents.pool p).addr] ++
      (if g then
        [ffn_call.neighbor_set_stable (cur.parents.pool p).addr,
         ffn_call.neighbor_class_ut_update (cur.parents.pool p).addr,
         ffn_call.neighbor_class_us_update (cur.parents.pool p).addr]
       else
        ffn_call.neighbor_add (cur.parents.pool p).addr ::
          (if a then
            [ffn_call.neighbor_set_stable (cur.parents.pool p).addr,
             ffn_call.neighbor_class_ut_update (cur.parents.pool p).addr,
             ffn_call.neighbor_class_us_update (cur.parents.pool p).addr]
           else [])) := by
  unfold ws_bootstrap_ffn_neighbor_set
  cases g <;> cases a <;> cases clear_list <;>
    by_cases hp : cur.network_pan_id = (cur.parents.pool p).pan_id <;> simp [hp]

theorem neighbor_set_pool (cur : net_if) (p : Nat) (clear_list g a : Bool) :
    (ws_bootstrap_ffn_neighbor_set cur p clear_list g a).1.parents.pool = cur.parents.pool := by
  rw [neighbor_set_parents]
  split_ifs <;> rfl

theorem neighbor_set_result (cur : net_if) (p : Nat) (clear_list g a : Bool) :
    (ws_bootstrap_ffn_neighbor_set cur p clear_list g a).2 =
      if g = false ∧ a = false then -1 else 0 := by
  unfold ws_bootstrap_ffn_neighbor_set
  cases g <;> cases a <;> simp

theorem next_target_some (w1 w2 : Nat) (cur : net_if) (prev pan_id : Nat) (g a : Bool) (h : Nat)
    (hbest : ws_bootstrap_ffn_candidate_parent_get_best
      (ws_bootstrap_ffn_candidate_parent_mark_failure w1 w2 cur.parents prev) = some h) :
    ws_bootstrap_authentication_next_target w1 w2 cur prev pan_id g a =
      ((ws_bootstrap_ffn_neighbor_set
          { cur with parents :=
              ws_bootstrap_ffn_candidate_parent_mark_failure w1 w2 cur.parents prev }
          h true g a).1,
        auth_target.parent_addr h,
        ((ws_bootstrap_ffn_candidate_parent_mark_failure w1 w2 cur.parents prev).pool h).pan_id)
      := by
  unfold ws_bootstrap_authentication_next_target
  simp only [hbest, neighbor_set_pool]

theorem next_target_none (w1 w2 : Nat) (cur : net_if) (prev pan_id : Nat) (g a : Bool)
    (hbest : ws_bootstrap_ffn_candidate_parent_get_best
      (ws_bootstrap_ffn_candidate_parent_mark_failure w1 w2 cur.parents prev) = none) :
    ws_bootstrap_authentication_next_target w1 w2 cur prev pan_id g a =
      ({ cur with parents :=
          ws_bootstrap_ffn_candidate_parent_mark_failure w1 w2 cur.parents prev },
        auth_target.previous_eui_64, pan_id) := by
  unfold ws_bootstrap_authentication_next_target
  simp only [hbest]

/-- C15: the fallback.  Whenever the reserved list is empty after the failure
has been marked against `previous_eui_64`, the retry returns the caller's
`previous_eui_64` pointer, leaves `*pan_id` as it was and makes no collaborator
call; the state is the one left by `mark_failure`.  This is the case for an
empty reserved list (nothing changes at all) and when the only candidate
carries `previous_eui_64` with a failure count of at least 2 (it is evicted to
the free list by this call). -/
theorem C15_next_target_fallback (w1 w2 : Nat) (cur : net_if) (prev pan_id : Nat)
    (g a : Bool) :
    ((ws_bootstrap_ffn_candidate_parent_mark_failure w1 w2 cur.parents
        prev).parent_list_reserved = [] →
      ws_bootstrap_authentication_next_target w1 w2 cur prev pan_id g a =
        ({ cur with parents :=
            ws_bootstrap_ffn_candidate_parent_mark_failure w1 w2 cur.parents prev },
          auth_target.previous_eui_64, pan_id) ∧
      (ws_bootstrap_authentication_next_target w1 w2 cur prev pan_id g a).1.calls = cur.calls ∧
      auth_target_bytes (ws_bootstrap_authentication_next_target w1 w2 cur prev pan_id g a).1
        prev (ws_bootstrap_authentication_next_target w1 w2 cur prev pan_id g a).2.1 = prev) ∧
    (cur.parents.parent_list_reserved = [] →
      ws_bootstrap_authentication_next_target w1 w2 cur prev pan_id g a =
        (cur, auth_target.previous_eui_64, pan_id)) ∧
    (∀ e, cur.parents.parent_list_reserved = [e] → (cur.parents.pool e).addr = prev →
      (cur.parents.pool e).tx_fail ≥ 2 →
      ws_bootstrap_authentication_next_target w1 w2 cur prev pan_id g a =
        ({ cur with parents :=
            { cur.parents with
              parent_list_reserved := [],
              parent_list_free := cur.parents.parent_list_free ++ [e] } },
          auth_target.previous_eui_64, pan_id)) := by
  refine ⟨?_, ?_, ?_⟩
  · intro hempty
    have hbest : ws_bootstrap_ffn_candidate_parent_get_best
        (ws_bootstrap_ffn_candidate_parent_mark_failure w1 w2 cur.parents prev) = none := by
      unfold ws_bootstrap_ffn_candidate_parent_get_best ns_list_get_first
      rw [hempty]; rfl
    rw [next_target_none w1 w2 cur prev pan_id g a hbest]
    exact ⟨rfl, rfl, rfl⟩
  · intro hres
    have hl : candidate_parent_lookup cur.parents.pool prev cur.parents.parent_list_reserved
        = none := by rw [hres]; rfl
    have hmf := mark_failure_miss w1 w2 cur.parents prev hl
    have hbest : ws_bootstrap_ffn_candidate_parent_get_best
        (ws_bootstrap_ffn_candidate_parent_mark_failure w1 w2 cur.parents prev) = none := by
      rw [hmf]
      unfold ws_bootstrap_ffn_candidate_parent_get_best ns_list_get_first
      rw [hres]; rfl
    rw [next_target_none w1 w2 cur prev pan_id g a hbest, hmf]
  · intro e hres haddr hf
    have hl : candidate_parent_lookup cur.parents.pool prev cur.parents.parent_list_reserved
        = some e := by
      rw [hres]; simp [candidate_parent_lookup, haddr]
    have hmf := mark_failure_evict w1 w2 cur.parents prev e hl hf
    have hmf2 : ws_bootstrap_ffn_candidate_parent_mark_failure w1 w2 cur.parents prev =
        { cur.parents with
          parent_list_reserved := [],
          parent_list_free := cur.parents.parent_list_free ++ [e] } := by
      rw [hmf, hres]
      simp [ns_list_remove, ns_list_add_to_end]
    have hbest : ws_bootstrap_ffn_candidate_parent_get_best
        (ws_bootstrap_ffn_candidate_parent_mark_failure w1 w2 cur.parents prev) = none := by
      rw [hmf2]; rfl
    rw [next_target_none w1 w2 cur prev pan_id g a hbest, hmf2]

/-- C15 at `empty_net_if` and at `lone_net_if`: the retry for address 10 with
`*pan_id` holding 77 returns the caller's pointer and leaves 77; in
`lone_net_if` the only candidate goes to the free list. -/
theorem C15_next_target_fallback_witness :
    ws_bootstrap_authentication_next_target 256 64 empty_net_if 10 77 false false =
      (empty_net_if, auth_target.previous_eui_64, 77) ∧
    (ws_bootstrap_authentication_next_target 256 64 lone_net_if 10 77 false false).2 =
      (auth_target.previous_eui_64, 77) ∧
    (ws_bootstrap_authentication_next_target 256 64 lone_net_if 10 77 false
      false).1.parents.parent_list_free = [1, 2, 3, 0] :=
  ⟨(C15_next_target_fallback 256 64 empty_net_if 10 77 false false).2.1 rfl,
    by
      have h := (C15_next_target_fallback 256 64 lone_net_if 10 77 false false).2.2 0 rfl
        (by decide) (by decide)
      rw [h],
    by
      have h := (C15_next_target_fallback 256 64 lone_net_if 10 77 false false).2.2 0 rfl
        (by decide) (by decide)
      rw [h]; rfl⟩

/-- C16: when a candidate remains.  If `get_best` on the table left by
`mark_failure (previous_eui_64)` returns `h`, then `h` is the head of the
reserved list of that table, the retry is `ws_bootstrap_ffn_neighbor_set` for
`h` on the state left by `mark_failure`, it returns the pointer to the address
field of `h` and writes the PAN id of `h` to `*pan_id`; the collaborator calls
it adds are the PAN change calls (when the PAN id changes), then the neighbor
lookup for the address of `h`, then, if the lookup fails, the neighbor add for
the same address, then the updates of the bound neighbor if one of the two
succeeded. -/
theorem C16_next_target_binds_head (w1 w2 : Nat) (cur : net_if) (prev pan_id : Nat)
    (g a : Bool) (h : Nat)
    (hbest : ws_bootstrap_ffn_candidate_parent_get_best
      (ws_bootstrap_ffn_candidate_parent_mark_failure w1 w2 cur.parents prev) = some h) :
    (ws_bootstrap_ffn_candidate_parent_mark_failure w1 w2 cur.parents
      prev).parent_list_reserved.head? = some h ∧
    ws_bootstrap_authentication_next_target w1 w2 cur prev pan_id g a =
      ((ws_bootstrap_ffn_neighbor_set
          { cur with parents :=
              ws_bootstrap_ffn_candidate_parent_mark_failure w1 w2 cur.parents prev }
          h true g a).1,
        auth_target.parent_addr h,
        ((ws_bootstrap_ffn_candidate_parent_mark_failure w1 w2 cur.parents prev).pool h).pan_id)
      ∧
    auth_target_bytes (ws_bootstrap_authentication_next_target w1 w2 cur prev pan_id g a).1
      prev (ws_bootstrap_authentication_next_target w1 w2 cur prev pan_id g a).2.1 =
      ((ws_bootstrap_ffn_candidate_parent_mark_failure w1 w2 cur.parents prev).pool h).addr ∧
    (ws_bootstrap_authentication_next_target w1 w2 cur prev pan_id g a).1.calls =
      cur.calls ++
      (if cur.network_pan_id ≠
          ((ws_bootstrap_ffn_candidate_parent_mark_failure w1 w2 cur.parents prev).pool h).pan_id
        then [ffn_call.neighbor_list_clean, ffn_call.fhss_activate] else []) ++
      [ffn_call.neighbor_get
        ((ws_bootstrap_ffn_candidate_parent_mark_failure w1 w2 cur.parents prev).pool h).addr] ++
      (if g then
        [ffn_call.neighbor_set_stable
          ((ws_bootstrap_ffn_candidate_parent_mark_failure w1 w2 cur.parents prev).pool h).addr,
         ffn_call.neighbor_class_ut_update
          ((ws_bootstrap_ffn_candidate_parent_mark_failure w1 w2 cur.parents prev).pool h).addr,
         ffn_call.neighbor_class_us_update
          ((ws_bootstrap_ffn_candidate_parent_mark_failure w1 w2 cur.parents prev).pool h).addr]
       else
        ffn_call.neighbor_add
          ((ws_bootstrap_ffn_candidate_parent_mark_failure w1 w2 cur.parents prev).pool h).addr ::
          (if a then
            [ffn_call.neighbor_set_stable
              ((ws_bootstrap_ffn_candidate_parent_mark_failure w1 w2 cur.parents prev).pool
                h).addr,
             ffn_call.neighbor_class_ut_update
              ((ws_bootstrap_ffn_candidate_parent_mark_failure w1 w2 cur.parents prev).pool
                h).addr,
             ffn_call.neighbor_class_us_update
              ((ws_bootstrap_ffn_candidate_parent_mark_failure w1 w2 cur.parents prev).pool
                h).addr]
           else [])) := by
  have hres := next_target_some w1 w2 cur prev pan_id g a h hbest
  refine ⟨hbest, hres, ?_, ?_⟩
  · rw [hres]
    simp only [auth_target_bytes, neighbor_set_pool]
  · rw [hres]
    simp only [neighbor_set_calls]
    rfl

/-- C16 at `bind_net_if`, retry for address 11 with the lookup failing and the
add succeeding: address 11 gets its first failure and stays behind slot 0,
which is selected; its address 10 and PAN id 100 are returned. -/
theorem C16_next_target_binds_head_witness :
    ws_bootstrap_authentication_next_target 256 64 bind_net_if 11 77 false true =
      ((ws_bootstrap_ffn_neighbor_set
          { bind_net_if with parents :=
              ws_bootstrap_ffn_candidate_parent_mark_failure 256 64 bind_net_if.parents 11 }
          0 true false true).1,
        auth_target.parent_addr 0, 100) ∧
    (ws_bootstrap_authentication_next_target 256 64 bind_net_if 11 77 false true).1.calls =
      [ffn_call.neighbor_list_clean, ffn_call.fhss_activate, ffn_call.neighbor_get 10,
       ffn_call.neighbor_add 10, ffn_call.neighbor_set_stable 10,
       ffn_call.neighbor_class_ut_update 10, ffn_call.neighbor_class_us_update 10] :=
  ⟨(C16_next_target_binds_head 256 64 bind_net_if 11 77 false true 0 (by decide)).2.1,
    by decide⟩

/-- C17: bind failure evicts.  `ws_bootstrap_ffn_neighbor_set` returns -1
exactly when the neighbor lookup and the neighbor add both fail; then the
candidate is removed from the reserved list (it is no longer on it when the
list was duplicate-free) and appended to the free list; in every other case
the result is 0 and both lists are unchanged.  The records are never changed. -/
theorem C17_neighbor_set_bind_failure (cur : net_if) (parent_ptr : Nat)
    (clear_list neighbor_get_ok neighbor_add_ok : Bool) :
    ((ws_bootstrap_ffn_neighbor_set cur parent_ptr clear_list neighbor_get_ok
        neighbor_add_ok).2 = -1 ↔ (neighbor_get_ok = false ∧ neighbor_add_ok = false)) ∧
    ((neighbor_get_ok = false ∧ neighbor_add_ok = false) →
      (ws_bootstrap_ffn_neighbor_set cur parent_ptr clear_list neighbor_get_ok
        neighbor_add_ok).1.parents.parent_list_reserved =
          ns_list_remove cur.parents.parent_list_reserved parent_ptr ∧
      (ws_bootstrap_ffn_neighbor_set cur parent_ptr clear_list neighbor_get_ok
        neighbor_add_ok).1.parents.parent_list_free =
          ns_list_add_to_end cur.parents.parent_list_free parent_ptr ∧
      (cur.parents.parent_list_reserved.Nodup →
        parent_ptr ∉ (ws_bootstrap_ffn_neighbor_set cur parent_ptr clear_list neighbor_get_ok
          neighbor_add_ok).1.parents.parent_list_reserved)) ∧
    (¬ (neighbor_get_ok = false ∧ neighbor_add_ok = false) →
      (ws_bootstrap_ffn_neighbor_set cur parent_ptr clear_list neighbor_get_ok
        neighbor_add_ok).2 = 0 ∧
      (ws_bootstrap_ffn_neighbor_set cur parent_ptr clear_list neighbor_get_ok
        neighbor_add_ok).1.parents.parent_list_reserved = cur.parents.parent_list_reserved ∧
      (ws_bootstrap_ffn_neighbor_set cur parent_ptr clear_list neighbor_get_ok
        neighbor_add_ok).1.parents.parent_list_free = cur.parents.parent_list_free) ∧
    (ws_bootstrap_ffn_neighbor_set cur parent_ptr clear_list neighbor_get_ok
      neighbor_add_ok).1.parents.pool = cur.parents.pool := by
  refine ⟨?_, ?_, ?_, neighbor_set_pool _ _ _ _ _⟩
  · rw [neighbor_set_result]
    split_ifs with h
    · exact ⟨fun _ => h, fun _ => rfl⟩
    · exact ⟨fun h0 => absurd h0 (by decide), fun h1 => absurd h1 h⟩
  · intro h
    rw [neighbor_set_parents, if_pos h]
    refine ⟨rfl, rfl, ?_⟩
    intro hnd hmem
    exact ((List.Nodup.mem_erase_iff hnd).mp hmem).1 rfl
  · intro h
    rw [neighbor_set_result, neighbor_set_parents, if_neg h, if_neg h]
    exact ⟨rfl, rfl, rfl⟩

end WsFfn

namespace WsFfn

/-- C17 at `bind_net_if`, slot 0: with both collaborator calls failing the
result is -1 and slot 0 goes to the end of the free list; with the add
succeeding the result is 0 and the lists are as before. -/
theorem C17_neighbor_set_bind_failure_witness :
    (ws_bootstrap_ffn_neighbor_set bind_net_if 0 true false false).2 = -1 ∧
    (ws_bootstrap_ffn_neighbor_set bind_net_if 0 true false false).1.parents.parent_list_reserved
      = [1] ∧
    (ws_bootstrap_ffn_neighbor_set bind_net_if 0 true false false).1.parents.parent_list_free
      = [2, 3, 0] ∧
    (ws_bootstrap_ffn_neighbor_set bind_net_if 0 true false true).2 = 0 :=
  ⟨(C17_neighbor_set_bind_failure bind_net_if 0 true false false).1.mpr ⟨rfl, rfl⟩,
    by decide, by decide,
    ((C17_neighbor_set_bind_failure bind_net_if 0 true false true).2.2.1 (by decide)).1⟩

/-! ### The PAN configuration solicit trickle -/

theorem calls_since_append (l new : List ffn_call) : calls_since l (l ++ new) = new := by
  simp [calls_since]

/-- One call with the PCS trickle running, written out. -/
theorem pcs_trickle_running {T : Type} (PCS_MAX : Nat) (ops : trickle_ops T) (cur : mngt_if T)
    (ticks : Int) (hrun : cur.mngt.trickle_pcs_running = true) :
    ws_ffn_pcs_trickle PCS_MAX ops cur ticks =
      { mngt :=
          { trickle_pas :=
              if pcs_count_after ops cur ticks > PCS_MAX ∨ pcs_timeout_after cur ticks = 0 then
                ops.trickle_inconsistent_heard cur.mngt.trickle_pas
              else cur.mngt.trickle_pas,
            trickle_pcs := (ops.trickle_timer cur.mngt.trickle_pcs ticks).1,
            trickle_pas_running := cur.mngt.trickle_pas_running,
            trickle_pcs_running := true,
            pcs_count := pcs_count_after ops cur ticks,
            pcs_max_timeout := pcs_timeout_after cur ticks },
        calls := cur.calls ++
          ([ffn_call.trickle_timer_pcs (pcs_fired ops cur ticks)] ++
            (if pcs_fired ops cur ticks = true ∧ cur.mngt.pcs_count < PCS_MAX then
              [ffn_call.stats_update_tx_pcs, ffn_call.llc_asynch_request_pcs] else []) ++
            (if pcs_count_after ops cur ticks > PCS_MAX ∨ pcs_timeout_after cur ticks = 0 then
              [ffn_call.trickle_inconsistent_heard_pas, ffn_call.event_discovery_start]
             else [])) } := by
  unfold ws_ffn_pcs_trickle pcs_count_after pcs_timeout_after pcs_fired
    ws_bootstrap_pan_config_solicit
  rw [if_pos hrun]
  cases hf : (ops.trickle_timer cur.mngt.trickle_pcs ticks).2 <;>
    by_cases hc : cur.mngt.pcs_count < PCS_MAX <;>
    simp only [hf, hc, hrun, if_true, if_false, Bool.false_eq_true, and_true, and_false,
      true_and, false_and, List.append_nil, List.append_assoc] <;>
    split_ifs <;> simp_all

/-- C18 (as stated, refuted): with `PCS_MAX = 3`, `pcs_count = 0` and
`pcs_max_timeout = 1`, a call with `ticks = 1` in which the PCS trickle fires
brings `pcs_max_timeout` to zero and still hands a PAN Configuration Solicit
to the LLC. -/
theorem C18_solicit_sent_when_timeout_expires :
    (ws_ffn_pcs_trickle 3 always_fire (pcs_start 1) 1).mngt.pcs_max_timeout = 0 ∧
    ffn_call.llc_asynch_request_pcs ∈ (ws_ffn_pcs_trickle 3 always_fire (pcs_start 1) 1).calls := by
  decide

/-- C18 (amended): the transmission gate.  In a call of `ws_ffn_pcs_trickle`
with the PCS trickle running, a PAN Configuration Solicit is handed to the LLC
(and counted in the statistics) if and only if the PCS trickle timer fires and
`pcs_count`, before the increment of this call, is below `PCS_MAX`; at most one
is sent per call; `pcs_max_timeout` plays no part in the gate. -/
theorem C18_pcs_transmission_gate {T : Type} (PCS_MAX : Nat) (ops : trickle_ops T)
    (cur : mngt_if T) (ticks : Int) (hrun : cur.mngt.trickle_pcs_running = true) :
    (ffn_call.llc_asynch_request_pcs ∈
        calls_since cur.calls (ws_ffn_pcs_trickle PCS_MAX ops cur ticks).calls ↔
      (pcs_fired ops cur ticks = true ∧ cur.mngt.pcs_count < PCS_MAX)) ∧
    (ffn_call.stats_update_tx_pcs ∈
        calls_since cur.calls (ws_ffn_pcs_trickle PCS_MAX ops cur ticks).calls ↔
      (pcs_fired ops cur ticks = true ∧ cur.mngt.pcs_count < PCS_MAX)) ∧
    (calls_since cur.calls (ws_ffn_pcs_trickle PCS_MAX ops cur ticks).calls).count
      ffn_call.llc_asynch_request_pcs ≤ 1 := by
  rw [pcs_trickle_running PCS_MAX ops cur ticks hrun]
  simp only [calls_since_append]
  by_cases hg : pcs_fired ops cur ticks = true ∧ cur.mngt.pcs_count < PCS_MAX <;>
    by_cases hr : pcs_count_after ops cur ticks > PCS_MAX ∨ pcs_timeout_after cur ticks = 0 <;>
    simp only [hg, hr, if_true, if_false] <;> simp [List.count_cons]

/-- C18 (amended) at the start of a phase with `PCS_MAX = 3` and a trickle
that fires: the solicit is sent although `pcs_max_timeout` expires in the
call. -/
theorem C18_pcs_transmission_gate_witness :
    ffn_call.llc_asynch_request_pcs ∈
      calls_since (pcs_start 1).calls (ws_ffn_pcs_trickle 3 always_fire (pcs_start 1) 1).calls :=
  (C18_pcs_transmission_gate 3 always_fire (pcs_start 1) 1 rfl).1.mpr (by decide)

/-- C19: the restart condition.  With the PCS trickle running, a call of
`ws_ffn_pcs_trickle` signals inconsistency on the PAS trickle and starts
discovery again if and only if, with the values left by this call,
`pcs_count > PCS_MAX` or `pcs_max_timeout = 0`; the PAS trickle state is then
the one returned by `trickle_inconsistent_heard`, and is untouched otherwise.
With the PCS trickle not running the call changes nothing and calls nothing. -/
theorem C19_pcs_restart_condition {T : Type} (PCS_MAX : Nat) (ops : trickle_ops T)
    (cur : mngt_if T) (ticks : Int) :
    (cur.mngt.trickle_pcs_running = true →
      (ffn_call.event_discovery_start ∈
          calls_since cur.calls (ws_ffn_pcs_trickle PCS_MAX ops cur ticks).calls ↔
        ((ws_ffn_pcs_trickle PCS_MAX ops cur ticks).mngt.pcs_count > PCS_MAX ∨
          (ws_ffn_pcs_trickle PCS_MAX ops cur ticks).mngt.pcs_max_timeout = 0)) ∧
      (ffn_call.trickle_inconsistent_heard_pas ∈
          calls_since cur.calls (ws_ffn_pcs_trickle PCS_MAX ops cur ticks).calls ↔
        ((ws_ffn_pcs_trickle PCS_MAX ops cur ticks).mngt.pcs_count > PCS_MAX ∨
          (ws_ffn_pcs_trickle PCS_MAX ops cur ticks).mngt.pcs_max_timeout = 0)) ∧
      (((ws_ffn_pcs_trickle PCS_MAX ops cur ticks).mngt.pcs_count > PCS_MAX ∨
          (ws_ffn_pcs_trickle PCS_MAX ops cur ticks).mngt.pcs_max_timeout = 0) →
        (ws_ffn_pcs_trickle PCS_MAX ops cur ticks).mngt.trickle_pas =
          ops.trickle_inconsistent_heard cur.mngt.trickle_pas) ∧
      (¬ ((ws_ffn_pcs_trickle PCS_MAX ops cur ticks).mngt.pcs_count > PCS_MAX ∨
          (ws_ffn_pcs_trickle PCS_MAX ops cur ticks).mngt.pcs_max_timeout = 0) →
        (ws_ffn_pcs_trickle PCS_MAX ops cur ticks).mngt.trickle_pas =
          cur.mngt.trickle_pas)) ∧
    (cur.mngt.trickle_pcs_running = false →
      ws_ffn_pcs_trickle PCS_MAX ops cur ticks = cur) := by
  refine ⟨?_, ?_⟩
  · intro hrun
    rw [pcs_trickle_running PCS_MAX ops cur ticks hrun]
    simp only [calls_since_append]
    by_cases hg : pcs_fired ops cur ticks = true ∧ cur.mngt.pcs_count < PCS_MAX <;>
      by_cases hr : pcs_count_after ops cur ticks > PCS_MAX ∨ pcs_timeout_after cur ticks = 0 <;>
      simp only [hg, hr, if_true, if_false] <;> simp
  · intro hrun
    unfold ws_ffn_pcs_trickle
    simp [hrun]

/-- C19 at two calls with `PCS_MAX = 3` and a trickle that fires: from the
start of a phase with a long `pcs_max_timeout` there is no restart; with
`pcs_max_timeout = 1` and `ticks = 1` there is one. -/
theorem C19_pcs_restart_condition_witness :
    ffn_call.event_discovery_start ∉
      calls_since (pcs_start 100).calls
        (ws_ffn_pcs_trickle 3 always_fire (pcs_start 100) 1).calls ∧
    ffn_call.event_discovery_start ∈
      calls_since (pcs_start 1).calls (ws_ffn_pcs_trickle 3 always_fire (pcs_start 1) 1).calls :=
  ⟨fun h => absurd (((C19_pcs_restart_condition 3 always_fire (pcs_start 100) 1).1 rfl).1.mp h)
      (by decide),
    ((C19_pcs_restart_condition 3 always_fire (pcs_start 1) 1).1 rfl).1.mpr (by decide)⟩

/-- A configuration solicit phase in which `pcs_max_timeout` does not expire:
what a run of calls from `pcs_count = 0` leaves, in terms of the number of
fires of the PCS trickle timer. -/
theorem pcs_run_invariant {T : Type} (PCS_MAX : Nat) (ops : trickle_ops T) (cur : mngt_if T)
    (hrun : cur.mngt.trickle_pcs_running = true) (hc0 : cur.mngt.pcs_count = 0) :
    ∀ ts : List Int, (∀ t ∈ ts, 0 ≤ t) → ts.sum < cur.mngt.pcs_max_timeout →
      ∃ new, (pcs_trickle_run PCS_MAX ops cur ts).calls = cur.calls ++ new ∧
        (pcs_trickle_run PCS_MAX ops cur ts).mngt.trickle_pcs_running = true ∧
        (pcs_trickle_run PCS_MAX ops cur ts).mngt.pcs_max_timeout =
          cur.mngt.pcs_max_timeout - ts.sum ∧
        (pcs_trickle_run PCS_MAX ops cur ts).mngt.pcs_count =
          new.count (ffn_call.trickle_timer_pcs true) ∧
        new.count ffn_call.llc_asynch_request_pcs =
          min (new.count (ffn_call.trickle_timer_pcs true)) PCS_MAX ∧
        new.count ffn_call.stats_update_tx_pcs =
          min (new.count (ffn_call.trickle_timer_pcs true)) PCS_MAX ∧
        (ffn_call.event_discovery_start ∈ new ↔
          new.count (ffn_call.trickle_timer_pcs true) > PCS_MAX) ∧
        (ffn_call.trickle_inconsistent_heard_pas ∈ new ↔
          new.count (ffn_call.trickle_timer_pcs true) > PCS_MAX) := by
  intro ts
  induction ts using List.reverseRecOn with
  | nil =>
    intro _ _
    refine ⟨[], by simp [pcs_trickle_run], by simpa [pcs_trickle_run] using hrun,
      by simp [pcs_trickle_run], by simpa [pcs_trickle_run] using hc0, by simp, by simp,
      by simp, by simp⟩
  | append_singleton ts t ih =>
    intro hpos hsum
    have hsum2 : ts.sum + t < cur.mngt.pcs_max_timeout := by
      simpa [List.sum_append] using hsum
    have ht : 0 ≤ t := hpos t (by simp)
    obtain ⟨new, hcalls, hr, hto, hcnt, hllc, hstat, hdisc, hinc⟩ :=
      ih (fun x hx => hpos x (by simp [hx])) (by omega)
    have hstep : pcs_trickle_run PCS_MAX ops cur (ts ++ [t]) =
        ws_ffn_pcs_trickle PCS_MAX ops (pcs_trickle_run PCS_MAX ops cur ts) t := by
      simp [pcs_trickle_run, List.foldl_append]
    rw [hstep, pcs_trickle_running PCS_MAX ops _ t hr]
    generalize pcs_trickle_run PCS_MAX ops cur ts = r at *
    have hta : pcs_timeout_after r t = cur.mngt.pcs_max_timeout - (ts.sum + t) := by
      unfold pcs_timeout_after
      rw [hto, if_pos (by omega)]
      omega
    have hta0 : ¬ pcs_timeout_after r t = 0 := by rw [hta]; omega
    have hsumeq : (ts ++ [t]).sum = ts.sum + t := by simp [List.sum_append]
    refine ⟨new ++ ([ffn_call.trickle_timer_pcs (pcs_fired ops r t)] ++
        (if pcs_fired ops r t = true ∧ r.mngt.pcs_count < PCS_MAX then
          [ffn_call.stats_update_tx_pcs, ffn_call.llc_asynch_request_pcs] else []) ++
        (if pcs_count_after ops r t > PCS_MAX ∨ pcs_timeout_after r t = 0 then
          [ffn_call.trickle_inconsistent_heard_pas, ffn_call.event_discovery_start]
         else [])), ?_, rfl, ?_, ?_, ?_, ?_, ?_, ?_⟩
    · simp only [hcalls, List.append_assoc]
    · simp only [hta, hsumeq]
    all_goals
      unfold pcs_count_after
      cases hf : pcs_fired ops r t <;>
        by_cases hc : r.mngt.pcs_count < PCS_MAX <;>
        by_cases hc2 : r.mngt.pcs_count + 1 > PCS_MAX <;>
        by_cases hc3 : r.mngt.pcs_count > PCS_MAX <;>
        simp only [hf, hc, hc2, hc3, hta0, if_true, if_false, Bool.false_eq_true, and_true,
          and_false, true_and, false_and, or_false, gt_iff_lt, List.count_append,
          List.count_cons, List.count_nil, List.mem_append, List.mem_cons, List.append_nil,
          List.not_mem_nil, hdisc, hinc, beq_iff_eq, reduceCtorEq, ffn_call.trickle_timer_pcs.injEq] <;>
        simp <;> omega

/-- C20: the exhaustion scenario, for every `PCS_MAX`.  A fire of the PCS
trickle timer in a call that leaves `pcs_max_timeout` positive adds exactly
one to `pcs_count`, sends a solicit if and only if `pcs_count` was below
`PCS_MAX`, and restarts discovery (with the inconsistency signal to the PAS
trickle) if and only if `pcs_count` was at least `PCS_MAX`.  Over any run of
calls with non-negative ticks from `pcs_count = 0` in which `pcs_max_timeout`
does not expire, with `fires` the number of fires so far: `pcs_count = fires`,
the number of solicits handed to the LLC is `min fires PCS_MAX`, hence at most
`PCS_MAX`, and discovery has been restarted if and only if
`fires > PCS_MAX`: the first `PCS_MAX` fires send one solicit each without a
restart, and fire number `PCS_MAX + 1` sends nothing and restarts. -/
theorem C20_pcs_exhaustion {T : Type} (PCS_MAX : Nat) (ops : trickle_ops T) (cur : mngt_if T)
    (hrun : cur.mngt.trickle_pcs_running = true) (hc0 : cur.mngt.pcs_count = 0)
    (ts : List Int) (hpos : ∀ t ∈ ts, 0 ≤ t) (hsum : ts.sum < cur.mngt.pcs_max_timeout) :
    (∀ (c : mngt_if T) (t : Int), c.mngt.trickle_pcs_running = true →
      c.mngt.pcs_max_timeout > t → 0 ≤ t → pcs_fired ops c t = true →
      (ws_ffn_pcs_trickle PCS_MAX ops c t).mngt.pcs_count = c.mngt.pcs_count + 1 ∧
      (ffn_call.llc_asynch_request_pcs ∈
          calls_since c.calls (ws_ffn_pcs_trickle PCS_MAX ops c t).calls ↔
        c.mngt.pcs_count < PCS_MAX) ∧
      (ffn_call.event_discovery_start ∈
          calls_since c.calls (ws_ffn_pcs_trickle PCS_MAX ops c t).calls ↔
        PCS_MAX ≤ c.mngt.pcs_count) ∧
      (ffn_call.trickle_inconsistent_heard_pas ∈
          calls_since c.calls (ws_ffn_pcs_trickle PCS_MAX ops c t).calls ↔
        PCS_MAX ≤ c.mngt.pcs_count)) ∧
    (pcs_trickle_run PCS_MAX ops cur ts).mngt.pcs_count =
      (calls_since cur.calls (pcs_trickle_run PCS_MAX ops cur ts).calls).count
        (ffn_call.trickle_timer_pcs true) ∧
    (calls_since cur.calls (pcs_trickle_run PCS_MAX ops cur ts).calls).count
        ffn_call.llc_asynch_request_pcs =
      min ((calls_since cur.calls (pcs_trickle_run PCS_MAX ops cur ts).calls).count
        (ffn_call.trickle_timer_pcs true)) PCS_MAX ∧
    (calls_since cur.calls (pcs_trickle_run PCS_MAX ops cur ts).calls).count
        ffn_call.llc_asynch_request_pcs ≤ PCS_MAX ∧
    (ffn_call.event_discovery_start ∈
        calls_since cur.calls (pcs_trickle_run PCS_MAX ops cur ts).calls ↔
      (calls_since cur.calls (pcs_trickle_run PCS_MAX ops cur ts).calls).count
        (ffn_call.trickle_timer_pcs true) > PCS_MAX) ∧
    (ffn_call.trickle_inconsistent_heard_pas ∈
        calls_since cur.calls (pcs_trickle_run PCS_MAX ops cur ts).calls ↔
      (calls_since cur.calls (pcs_trickle_run PCS_MAX ops cur ts).calls).count
        (ffn_call.trickle_timer_pcs true) > PCS_MAX) := by
  refine ⟨?_, ?_⟩
  · intro c t hr hto ht hf
    rw [pcs_trickle_running PCS_MAX ops c t hr]
    simp only [calls_since_append]
    have hta0 : ¬ pcs_timeout_after c t = 0 := by
      unfold pcs_timeout_after
      rw [if_pos hto]
      omega
    have hca : pcs_count_after ops c t = c.mngt.pcs_count + 1 := by
      unfold pcs_count_after
      rw [if_pos hf]
    by_cases hc : c.mngt.pcs_count < PCS_MAX <;>
      by_cases hc2 : c.mngt.pcs_count + 1 > PCS_MAX <;>
      simp only [hf, hc, hc2, hca, hta0, if_true, if_false, and_true, true_and, or_false,
        and_false] <;>
      simp <;> omega
  · obtain ⟨new, hcalls, -, -, hcnt, hllc, -, hdisc, hinc⟩ :=
      pcs_run_invariant PCS_MAX ops cur hrun hc0 ts hpos hsum
    rw [hcalls, calls_since_append]
    exact ⟨hcnt, hllc, by rw [hllc]; exact Nat.min_le_right _ _, hdisc, hinc⟩

/-- C20 with `PCS_MAX = 3`, a trickle that fires on every call and a
`pcs_max_timeout` of 100 ticks: after three calls three solicits have been
sent and discovery has not been restarted; the fourth call sends nothing more
and restarts discovery. -/
theorem C20_pcs_exhaustion_witness :
    (calls_since (pcs_start 100).calls
        (pcs_trickle_run 3 always_fire (pcs_start 100) [1, 1, 1]).calls).count
      ffn_call.llc_asynch_request_pcs = 3 ∧
    ffn_call.event_discovery_start ∉
      calls_since (pcs_start 100).calls
        (pcs_trickle_run 3 always_fire (pcs_start 100) [1, 1, 1]).calls ∧
    (calls_since (pcs_start 100).calls
        (pcs_trickle_run 3 always_fire (pcs_start 100) [1, 1, 1, 1]).calls).count
      ffn_call.llc_asynch_request_pcs = 3 ∧
    ffn_call.event_discovery_start ∈
      calls_since (pcs_start 100).calls
        (pcs_trickle_run 3 always_fire (pcs_start 100) [1, 1, 1, 1]).calls :=
  have h3 := C20_pcs_exhaustion 3 always_fire (pcs_start 100) rfl rfl [1, 1, 1]
    (by decide) (by decide)
  have h4 := C20_pcs_exhaustion 3 always_fire (pcs_start 100) rfl rfl [1, 1, 1, 1]
    (by decide) (by decide)
  ⟨h3.2.2.1.trans (by decide), fun h => absurd (h3.2.2.2.2.1.mp h) (by decide),
    h4.2.2.1.trans (by decide), h4.2.2.2.2.1.mpr (by decide)⟩

end WsFfn

namespace WsFfn

/-! ### The ranking keys one by one -/

/-- C24: the failure count dominates.  If `p2` has strictly fewer failures
than `p1` the comparator returns true, if it has strictly more it returns
false, whatever the other fields and the weight factors are. -/
theorem C24_failure_count_dominates (PRC_WEIGHT_FACTOR PS_WEIGHT_FACTOR : Nat)
    (p1 p2 : parent_info_t) :
    (p2.tx_fail < p1.tx_fail →
      ws_bootstrap_ffn_candidate_parent_compare PRC_WEIGHT_FACTOR PS_WEIGHT_FACTOR p1 p2
        = true) ∧
    (p2.tx_fail > p1.tx_fail →
      ws_bootstrap_ffn_candidate_parent_compare PRC_WEIGHT_FACTOR PS_WEIGHT_FACTOR p1 p2
        = false) := by
  refine ⟨?_, ?_⟩
  · intro h
    have h2 : ¬ p2.tx_fail > p1.tx_fail := by omega
    simp only [ws_bootstrap_ffn_candidate_parent_compare, if_neg h2, if_pos h]
  · intro h
    simp only [ws_bootstrap_ffn_candidate_parent_compare, if_pos h]

/-- C24 at concrete records: `cand_good` (no failure, link-acceptable) against
`cand_failed` (one failure), in both directions. -/
theorem C24_failure_count_dominates_witness :
    ws_bootstrap_ffn_candidate_parent_compare 256 64 cand_failed cand_good = true ∧
    ws_bootstrap_ffn_candidate_parent_compare 256 64 cand_good cand_failed = false :=
  ⟨(C24_failure_count_dominates 256 64 cand_failed cand_good).1 (by decide),
    (C24_failure_count_dominates 256 64 cand_good cand_failed).2 (by decide)⟩

/-- The comparator when the failure counts and the link-acceptable flags are
equal: the cost and signal stages only. -/
theorem compare_equal_flags (w1 w2 : Nat) (p1 p2 : parent_info_t)
    (hf : p1.tx_fail = p2.tx_fail) (hla : p1.link_acceptable = p2.link_acceptable) :
    ws_bootstrap_ffn_candidate_parent_compare w1 w2 p1 p2 =
      if pan_cost w1 w2 p1 > pan_cost w1 w2 p2 then true
      else if pan_cost w1 w2 p1 < pan_cost w1 w2 p2 then false
      else if p1.signal_dbm < p2.signal_dbm then true else false := by
  unfold ws_bootstrap_ffn_candidate_parent_compare
  rw [hf, hla]
  cases p2.link_acceptable <;> simp

/-- C25: the weighted PAN cost.  The cost held by the comparator is
`routing_cost / PRC_WEIGHT_FACTOR + pan_size / PS_WEIGHT_FACTOR` reduced to 16
bits; for candidates with equal failure counts and equal link-acceptable
flags the comparator returns true when the cost of `p2` is lower and false
when it is higher, and in both cases the result does not change when the
signal levels are replaced by any other values. -/
theorem C25_weighted_pan_cost (PRC_WEIGHT_FACTOR PS_WEIGHT_FACTOR : Nat) (p1 p2 : parent_info_t)
    (hf : p1.tx_fail = p2.tx_fail) (hla : p1.link_acceptable = p2.link_acceptable) :
    (∀ p : parent_info_t, pan_cost PRC_WEIGHT_FACTOR PS_WEIGHT_FACTOR p =
      (p.routing_cost / PRC_WEIGHT_FACTOR + p.pan_size / PS_WEIGHT_FACTOR) % 65536) ∧
    (pan_cost PRC_WEIGHT_FACTOR PS_WEIGHT_FACTOR p2 <
        pan_cost PRC_WEIGHT_FACTOR PS_WEIGHT_FACTOR p1 →
      ws_bootstrap_ffn_candidate_parent_compare PRC_WEIGHT_FACTOR PS_WEIGHT_FACTOR p1 p2
        = true) ∧
    (pan_cost PRC_WEIGHT_FACTOR PS_WEIGHT_FACTOR p2 >
        pan_cost PRC_WEIGHT_FACTOR PS_WEIGHT_FACTOR p1 →
      ws_bootstrap_ffn_candidate_parent_compare PRC_WEIGHT_FACTOR PS_WEIGHT_FACTOR p1 p2
        = false) ∧
    (pan_cost PRC_WEIGHT_FACTOR PS_WEIGHT_FACTOR p2 ≠
        pan_cost PRC_WEIGHT_FACTOR PS_WEIGHT_FACTOR p1 →
      ∀ s1 s2 : Int,
        ws_bootstrap_ffn_candidate_parent_compare PRC_WEIGHT_FACTOR PS_WEIGHT_FACTOR
            { p1 with signal_dbm := s1 } { p2 with signal_dbm := s2 } =
          ws_bootstrap_ffn_candidate_parent_compare PRC_WEIGHT_FACTOR PS_WEIGHT_FACTOR p1 p2)
    := by
  refine ⟨fun _ => rfl, ?_, ?_, ?_⟩
  · intro h
    rw [compare_equal_flags _ _ p1 p2 hf hla, if_pos h]
  · intro h
    have h2 : ¬ pan_cost PRC_WEIGHT_FACTOR PS_WEIGHT_FACTOR p1 >
        pan_cost PRC_WEIGHT_FACTOR PS_WEIGHT_FACTOR p2 := by omega
    rw [compare_equal_flags _ _ p1 p2 hf hla, if_neg h2, if_pos h]
  · intro h s1 s2
    rw [compare_equal_flags _ _ p1 p2 hf hla,
      compare_equal_flags _ _ { p1 with signal_dbm := s1 } { p2 with signal_dbm := s2 } hf hla]
    have e1 : pan_cost PRC_WEIGHT_FACTOR PS_WEIGHT_FACTOR { p1 with signal_dbm := s1 } =
        pan_cost PRC_WEIGHT_FACTOR PS_WEIGHT_FACTOR p1 := rfl
    have e2 : pan_cost PRC_WEIGHT_FACTOR PS_WEIGHT_FACTOR { p2 with signal_dbm := s2 } =
        pan_cost PRC_WEIGHT_FACTOR PS_WEIGHT_FACTOR p2 := rfl
    rw [e1, e2]
    by_cases hgt : pan_cost PRC_WEIGHT_FACTOR PS_WEIGHT_FACTOR p1 >
        pan_cost PRC_WEIGHT_FACTOR PS_WEIGHT_FACTOR p2
    · simp only [if_pos hgt]
    · have hlt : pan_cost PRC_WEIGHT_FACTOR PS_WEIGHT_FACTOR p1 <
          pan_cost PRC_WEIGHT_FACTOR PS_WEIGHT_FACTOR p2 := by omega
      simp only [if_neg hgt, if_pos hlt]

end WsFfn

namespace WsFfn

/-- C25 at `cand_far` (cost 4, -40 dBm) and `cand_near` (cost 2, -80 dBm): the
cheaper candidate wins although it is heard weaker. -/
theorem C25_weighted_pan_cost_witness :
    ws_bootstrap_ffn_candidate_parent_compare 256 64 cand_far cand_near = true ∧
    ws_bootstrap_ffn_candidate_parent_compare 256 64 cand_near cand_far = false :=
  ⟨(C25_weighted_pan_cost 256 64 cand_far cand_near rfl rfl).2.1 (by decide),
    (C25_weighted_pan_cost 256 64 cand_near cand_far rfl rfl).2.2.1 (by decide)⟩

/-- C26: the signal tie-break.  For candidates equal in failure count,
link-acceptable flag and weighted PAN cost, the comparator returns true
exactly when the signal level of `p2` is strictly higher than that of `p1`;
with equal signal levels it returns false in both directions. -/
theorem C26_signal_tie_break (PRC_WEIGHT_FACTOR PS_WEIGHT_FACTOR : Nat) (p1 p2 : parent_info_t)
    (hf : p1.tx_fail = p2.tx_fail) (hla : p1.link_acceptable = p2.link_acceptable)
    (hc : pan_cost PRC_WEIGHT_FACTOR PS_WEIGHT_FACTOR p1 =
      pan_cost PRC_WEIGHT_FACTOR PS_WEIGHT_FACTOR p2) :
    (ws_bootstrap_ffn_candidate_parent_compare PRC_WEIGHT_FACTOR PS_WEIGHT_FACTOR p1 p2 = true ↔
      p1.signal_dbm < p2.signal_dbm) ∧
    (p1.signal_dbm = p2.signal_dbm →
      ws_bootstrap_ffn_candidate_parent_compare PRC_WEIGHT_FACTOR PS_WEIGHT_FACTOR p1 p2
        = false ∧
      ws_bootstrap_ffn_candidate_parent_compare PRC_WEIGHT_FACTOR PS_WEIGHT_FACTOR p2 p1
        = false) := by
  have h12 := compare_equal_flags PRC_WEIGHT_FACTOR PS_WEIGHT_FACTOR p1 p2 hf hla
  have h21 := compare_equal_flags PRC_WEIGHT_FACTOR PS_WEIGHT_FACTOR p2 p1 hf.symm hla.symm
  rw [hc] at h12 h21
  simp only [gt_iff_lt, lt_irrefl, if_false] at h12 h21
  refine ⟨?_, ?_⟩
  · rw [h12]
    by_cases h : p1.signal_dbm < p2.signal_dbm <;> simp [h]
  · intro hs
    rw [h12, h21, hs]
    simp

/-- C26 at `cand_weak` (-90 dBm) and `blank_parent` (0 dBm), equal in the
other keys: the stronger one wins, and `blank_parent` ties with itself. -/
theorem C26_signal_tie_break_witness :
    ws_bootstrap_ffn_candidate_parent_compare 256 64 cand_weak blank_parent = true ∧
    ws_bootstrap_ffn_candidate_parent_compare 256 64 blank_parent blank_parent = false :=
  ⟨(C26_signal_tie_break 256 64 cand_weak blank_parent rfl rfl rfl).1.mpr (by decide),
    ((C26_signal_tie_break 256 64 blank_parent blank_parent rfl rfl rfl).2 rfl).1⟩

/-! ### Lookup and creation -/

/-- The entry returned by the scan is the first one carrying the address. -/
theorem lookup_first (pool : Nat → parent_info_t) (addr : Nat) :
    ∀ (l : List Nat) (e : Nat), candidate_parent_lookup pool addr l = some e →
      ∃ l1 l2, l = l1 ++ e :: l2 ∧ (pool e).addr = addr ∧
        ∀ x ∈ l1, (pool x).addr ≠ addr := by
  intro l
  induction l with
  | nil => intro e h; simp [candidate_parent_lookup] at h
  | cons x xs ih =>
    intro e h
    unfold candidate_parent_lookup at h
    by_cases hx : (pool x).addr = addr
    · rw [if_pos hx] at h
      have hxe : x = e := Option.some.inj h
      subst hxe
      exact ⟨[], xs, rfl, hx, by simp⟩
    · rw [if_neg hx] at h
      obtain ⟨l1, l2, h1, h2, h3⟩ := ih e h
      refine ⟨x :: l1, l2, by simp [h1], h2, ?_⟩
      intro y hy
      rcases List.mem_cons.mp hy with rfl | hy
      · exact hx
      · exact h3 y hy

/-- C27: the lookup is read-only.  If a reserved entry carries the address,
`get` returns the first such entry, whatever the `create` flag, and the table
(free list, reserved list, every record) is returned as it was; if none does
and `create` is false it returns not-found, again with the table as it was. -/
theorem C27_lookup_read_only (cur : parent_table) (addr : Nat) :
    ((∃ x ∈ cur.parent_list_reserved, (cur.pool x).addr = addr) →
      ∃ e l1 l2, cur.parent_list_reserved = l1 ++ e :: l2 ∧ (cur.pool e).addr = addr ∧
        (∀ x ∈ l1, (cur.pool x).addr ≠ addr) ∧
        ∀ create, ws_bootstrap_ffn_candidate_parent_get cur addr create = (cur, some e)) ∧
    ((∀ x ∈ cur.parent_list_reserved, (cur.pool x).addr ≠ addr) →
      ws_bootstrap_ffn_candidate_parent_get cur addr false = (cur, none)) := by
  refine ⟨?_, ?_⟩
  · rintro ⟨x, hx, hxa⟩
    cases hl : candidate_parent_lookup cur.pool addr cur.parent_list_reserved with
    | none => exact absurd hxa ((lookup_none cur.pool addr _).mp hl x hx)
    | some e =>
      obtain ⟨l1, l2, h1, h2, h3⟩ := lookup_first cur.pool addr _ e hl
      exact ⟨e, l1, l2, h1, h2, h3, fun create => get_hit cur addr create e hl⟩
  · intro hmiss
    have hl := (lookup_none cur.pool addr _).mpr hmiss
    unfold ws_bootstrap_ffn_candidate_parent_get
    rw [hl]
    rfl

/-- C27 at `bind_table` (addresses 10 and 11 resident): address 11 is found
in slot 1 with either flag, address 12 is not found without `create`. -/
theorem C27_lookup_read_only_witness :
    (ws_bootstrap_ffn_candidate_parent_get bind_table 11 true).2 = some 1 ∧
    (ws_bootstrap_ffn_candidate_parent_get bind_table 11 false).2 = some 1 ∧
    ws_bootstrap_ffn_candidate_parent_get bind_table 12 false = (bind_table, none) :=
  ⟨by decide, by decide, (C27_lookup_read_only bind_table 12).2 (by decide)⟩

/-- C28: creation from the free list.  With `f` at the head of the free list
and no reserved entry carrying `addr`, `get` with `create` returns `f`, removes
it from the free list, appends it to the reserved list behind the previous
entries, and writes into its record the address `addr`, failure count 0 and
link-acceptable false, the other fields of the record and every other record
being left as they were; when `f` was not on the reserved list (a slot is on
one list only), the records of all previous reserved entries are unchanged. -/
theorem C28_create_from_free (cur : parent_table) (addr f : Nat) (fs : List Nat)
    (hfree : cur.parent_list_free = f :: fs)
    (hmiss : ∀ x ∈ cur.parent_list_reserved, (cur.pool x).addr ≠ addr) :
    (ws_bootstrap_ffn_candidate_parent_get cur addr true).2 = some f ∧
    (ws_bootstrap_ffn_candidate_parent_get cur addr true).1.parent_list_free = fs ∧
    (ws_bootstrap_ffn_candidate_parent_get cur addr true).1.parent_list_free =
      ns_list_remove cur.parent_list_free f ∧
    (ws_bootstrap_ffn_candidate_parent_get cur addr true).1.parent_list_reserved =
      cur.parent_list_reserved ++ [f] ∧
    (ws_bootstrap_ffn_candidate_parent_get cur addr true).1.pool f =
      { cur.pool f with addr := addr, tx_fail := 0, link_acceptable := false } ∧
    (∀ x, x ≠ f →
      (ws_bootstrap_ffn_candidate_parent_get cur addr true).1.pool x = cur.pool x) ∧
    (f ∉ cur.parent_list_reserved → ∀ x ∈ cur.parent_list_reserved,
      (ws_bootstrap_ffn_candidate_parent_get cur addr true).1.pool x = cur.pool x) := by
  have hl := (lookup_none cur.pool addr _).mpr hmiss
  rw [get_create_pop cur addr f fs hl hfree]
  refine ⟨rfl, rfl, ?_, rfl, by simp [pool_set], ?_, ?_⟩
  · simp [ns_list_remove, hfree]
  · intro x hx
    simp [pool_set, hx]
  · intro hf x hx
    have hxf : x ≠ f := fun h => hf (h ▸ hx)
    simp [pool_set, hxf]

/-- C28 at `bind_table` (free slots 2 and 3) with the new address 12: slot 2
is returned and appended, carrying address 12. -/
theorem C28_create_from_free_witness :
    (ws_bootstrap_ffn_candidate_parent_get bind_table 12 true).2 = some 2 ∧
    (ws_bootstrap_ffn_candidate_parent_get bind_table 12 true).1.parent_list_reserved
      = [0, 1, 2] ∧
    ((ws_bootstrap_ffn_candidate_parent_get bind_table 12 true).1.pool 2).addr = 12 :=
  have h := C28_create_from_free bind_table 12 2 [3] rfl (by decide)
  ⟨h.1, h.2.2.2.1, by rw [h.2.2.2.2.1]⟩

end WsFfn

namespace WsFfn

/-! ### The housekeeping countdowns -/

theorem seconds_timer_pan_spec {E : Type} (ops : seconds_ops E) (cur : seconds_if E)
    (seconds : Nat) (h1 : keeps_counters ops.rpl_control_dao_timeout)
    (h2 : keeps_counters ops.ws_bootstrap_event_disconnect) :
    (seconds_timer_pan ops cur seconds).info.pan_timeout_timer =
      countdown32 cur.info.pan_timeout_timer seconds ∧
    (seconds_timer_pan ops cur seconds).info.aro_registration_timer =
      cur.info.aro_registration_timer ∧
    (seconds_timer_pan ops cur seconds).info.ws_bsi_block = cur.info.ws_bsi_block ∧
    (seconds_timer_pan ops cur seconds).calls =
      cur.calls ++ pan_block_calls cur.info.pan_timeout_timer cur.info.pan_timeout seconds := by
  unfold seconds_timer_pan countdown32 pan_block_calls
  by_cases h0 : cur.info.pan_timeout_timer ≠ 0
  · rw [if_pos h0, if_pos h0, if_pos h0]
    by_cases hgt : cur.info.pan_timeout_timer > seconds
    · rw [if_pos hgt, if_pos hgt, if_pos hgt]
      simp only
      by_cases hp : (cur.info.pan_timeout_timer - seconds) % 4294967296 <
          cur.info.pan_timeout / 10
      · rw [if_pos hp, if_pos hp]
        refine ⟨?_, ?_, ?_, rfl⟩
        · rw [(h1 _).1]
        · rw [(h1 _).2.1]
        · rw [(h1 _).2.2]
      · rw [if_neg hp, if_neg hp]
        exact ⟨rfl, rfl, rfl, by simp⟩
    · rw [if_neg hgt, if_neg hgt, if_neg hgt]
      refine ⟨?_, ?_, ?_, rfl⟩
      · rw [(h2 _).1]
      · rw [(h2 _).2.1]
      · rw [(h2 _).2.2]
  · rw [if_neg h0, if_neg h0, if_neg h0]
    exact ⟨rfl, rfl, rfl, by simp⟩

theorem seconds_timer_aro_spec {E : Type} (ops : seconds_ops E) (cur : seconds_if E)
    (seconds : Nat) (h3 : keeps_counters ops.ws_address_registration_update) :
    (seconds_timer_aro ops cur seconds).info.pan_timeout_timer = cur.info.pan_timeout_timer ∧
    (seconds_timer_aro ops cur seconds).info.aro_registration_timer =
      countdown16 cur.info.aro_registration_timer seconds ∧
    (seconds_timer_aro ops cur seconds).info.ws_bsi_block = cur.info.ws_bsi_block ∧
    (seconds_timer_aro ops cur seconds).calls =
      cur.calls ++ aro_block_calls cur.info.aro_registration_timer seconds := by
  unfold seconds_timer_aro countdown16 aro_block_calls
  by_cases h0 : cur.info.aro_registration_timer ≠ 0
  · rw [if_pos h0, if_pos h0]
    by_cases hgt : cur.info.aro_registration_timer > seconds
    · rw [if_pos hgt, if_pos hgt, if_neg (by simp [hgt])]
      exact ⟨rfl, rfl, rfl, by simp⟩
    · rw [if_neg hgt, if_neg hgt, if_pos ⟨h0, hgt⟩]
      refine ⟨?_, ?_, ?_, rfl⟩
      · rw [(h3 _).1]
      · rw [(h3 _).2.1]
      · rw [(h3 _).2.2]
  · rw [if_neg h0, if_neg h0, if_neg (fun h => h0 h.1)]
    exact ⟨rfl, rfl, rfl, by simp⟩

theorem seconds_timer_bsi_spec {E : Type} (cur : seconds_if E) (seconds : Nat) :
    (seconds_timer_bsi cur seconds).info.pan_timeout_timer = cur.info.pan_timeout_timer ∧
    (seconds_timer_bsi cur seconds).info.aro_registration_timer =
      cur.info.aro_registration_timer ∧
    (seconds_timer_bsi cur seconds).info.ws_bsi_block.block_time =
      countdown32 cur.info.ws_bsi_block.block_time seconds ∧
    (seconds_timer_bsi cur seconds).info.ws_bsi_block.old_bsi =
      (if cur.info.ws_bsi_block.block_time ≠ 0 ∧ ¬ cur.info.ws_bsi_block.block_time > seconds
        then 0 else cur.info.ws_bsi_block.old_bsi) ∧
    (seconds_timer_bsi cur seconds).calls = cur.calls := by
  unfold seconds_timer_bsi countdown32
  by_cases h0 : cur.info.ws_bsi_block.block_time ≠ 0
  · rw [if_pos h0, if_pos h0]
    by_cases hgt : cur.info.ws_bsi_block.block_time > seconds
    · rw [if_pos hgt, if_pos hgt, if_neg (by simp [hgt])]
      exact ⟨rfl, rfl, rfl, rfl, rfl⟩
    · rw [if_neg hgt, if_neg hgt, if_pos ⟨h0, hgt⟩]
      exact ⟨rfl, rfl, rfl, rfl, rfl⟩
  · rw [if_neg h0, if_neg h0, if_neg (fun h => h0 h.1)]
    exact ⟨rfl, rfl, rfl, rfl, rfl⟩

/-- One call of `ws_bootstrap_ffn_seconds_timer` with collaborators that do
not write the counters: each counter as a function of its own value, and the
collaborator calls in order. -/
theorem seconds_timer_spec {E : Type} (ops : seconds_ops E) (cur : seconds_if E)
    (seconds : Nat) (h1 : keeps_counters ops.rpl_control_dao_timeout)
    (h2 : keeps_counters ops.ws_bootstrap_event_disconnect)
    (h3 : keeps_counters ops.ws_address_registration_update) :
    (ws_bootstrap_ffn_seconds_timer ops cur seconds).info.pan_timeout_timer =
      countdown32 cur.info.pan_timeout_timer seconds ∧
    (ws_bootstrap_ffn_seconds_timer ops cur seconds).info.aro_registration_timer =
      countdown16 cur.info.aro_registration_timer seconds ∧
    (ws_bootstrap_ffn_seconds_timer ops cur seconds).info.ws_bsi_block.block_time =
      countdown32 cur.info.ws_bsi_block.block_time seconds ∧
    (ws_bootstrap_ffn_seconds_timer ops cur seconds).info.ws_bsi_block.old_bsi =
      (if cur.info.ws_bsi_block.block_time ≠ 0 ∧ ¬ cur.info.ws_bsi_block.block_time > seconds
        then 0 else cur.info.ws_bsi_block.old_bsi) ∧
    calls_since cur.calls (ws_bootstrap_ffn_seconds_timer ops cur seconds).calls =
      pan_block_calls cur.info.pan_timeout_timer cur.info.pan_timeout seconds ++
        aro_block_calls cur.info.aro_registration_timer seconds := by
  unfold ws_bootstrap_ffn_seconds_timer
  obtain ⟨a1, a2, a3, a4⟩ := seconds_timer_pan_spec ops cur seconds h1 h2
  obtain ⟨b1, b2, b3, b4⟩ :=
    seconds_timer_aro_spec ops (seconds_timer_pan ops cur seconds) seconds h3
  obtain ⟨c1, c2, c3, c4, c5⟩ :=
    seconds_timer_bsi_spec (seconds_timer_aro ops (seconds_timer_pan ops cur seconds) seconds)
      seconds
  refine ⟨by rw [c1, b1, a1], by rw [c2, b2, a2], by rw [c3, b3, a3], by rw [c4, b3, a3], ?_⟩
  rw [c5, b4, a4, a2, List.append_assoc, calls_since_append]

theorem idle_keeps_counters :
    keeps_counters idle_seconds_ops.rpl_control_dao_timeout ∧
    keeps_counters idle_seconds_ops.ws_bootstrap_event_disconnect ∧
    keeps_counters idle_seconds_ops.ws_address_registration_update :=
  ⟨fun _ => ⟨rfl, rfl, rfl⟩, fun _ => ⟨rfl, rfl, rfl⟩, fun _ => ⟨rfl, rfl, rfl⟩⟩

/-- The PAN timeout block when its two collaborators do not write
`pan_timeout_timer`. -/
theorem seconds_timer_pan_own {E : Type} (ops : seconds_ops E) (cur : seconds_if E)
    (seconds : Nat) (h1 : keeps_pan_timeout ops.rpl_control_dao_timeout)
    (h2 : keeps_pan_timeout ops.ws_bootstrap_event_disconnect) :
    (seconds_timer_pan ops cur seconds).info.pan_timeout_timer =
      countdown32 cur.info.pan_timeout_timer seconds ∧
    (seconds_timer_pan ops cur seconds).calls =
      cur.calls ++ pan_block_calls cur.info.pan_timeout_timer cur.info.pan_timeout seconds := by
  unfold seconds_timer_pan countdown32 pan_block_calls
  by_cases h0 : cur.info.pan_timeout_timer ≠ 0
  · rw [if_pos h0, if_pos h0, if_pos h0]
    by_cases hgt : cur.info.pan_timeout_timer > seconds
    · rw [if_pos hgt, if_pos hgt, if_pos hgt]
      simp only
      by_cases hp : (cur.info.pan_timeout_timer - seconds) % 4294967296 <
          cur.info.pan_timeout / 10
      · rw [if_pos hp, if_pos hp]
        exact ⟨by rw [h1 _], rfl⟩
      · rw [if_neg hp, if_neg hp]
        exact ⟨rfl, by simp⟩
    · rw [if_neg hgt, if_neg hgt, if_neg hgt]
      exact ⟨by rw [h2 _], rfl⟩
  · rw [if_neg h0, if_neg h0, if_neg h0]
    exact ⟨rfl, by simp⟩

/-- The address registration block: its only collaborator call is the
address registration update, and `pan_timeout_timer` is kept when that
collaborator does not write it. -/
theorem seconds_timer_aro_calls {E : Type} (ops : seconds_ops E) (cur : seconds_if E)
    (seconds : Nat) :
    (∃ L, (seconds_timer_aro ops cur seconds).calls = cur.calls ++ L ∧
      ∀ c ∈ L, c = ffn_call.address_registration_update) ∧
    (keeps_pan_timeout ops.ws_address_registration_update →
      (seconds_timer_aro ops cur seconds).info.pan_timeout_timer =
        cur.info.pan_timeout_timer) ∧
    (keeps_bsi_block ops.ws_address_registration_update →
      (seconds_timer_aro ops cur seconds).info.ws_bsi_block = cur.info.ws_bsi_block) := by
  unfold seconds_timer_aro
  split_ifs
  · exact ⟨⟨[], by simp, by simp⟩, fun _ => rfl, fun _ => rfl⟩
  · exact ⟨⟨[ffn_call.address_registration_update], rfl, by simp⟩,
      fun h => by rw [h _], fun h => by rw [h _]⟩
  · exact ⟨⟨[], by simp, by simp⟩, fun _ => rfl, fun _ => rfl⟩

/-- The PAN timeout block keeps `ws_bsi_block` when its two collaborators do
not write it. -/
theorem seconds_timer_pan_bsi {E : Type} (ops : seconds_ops E) (cur : seconds_if E)
    (seconds : Nat) (h1 : keeps_bsi_block ops.rpl_control_dao_timeout)
    (h2 : keeps_bsi_block ops.ws_bootstrap_event_disconnect) :
    (seconds_timer_pan ops cur seconds).info.ws_bsi_block = cur.info.ws_bsi_block := by
  unfold seconds_timer_pan
  dsimp only
  split_ifs
  · rw [h1 _]
  · rfl
  · rw [h2 _]
  · rfl

/-- C22: the PAN timeout countdown.  With collaborators that do not write
`pan_timeout_timer` (the address registration update may re-arm its own
timer) and a running `pan_timeout_timer` holding `T` (a 32-bit value,
`T > 0`): if `T > seconds` the timer becomes `T - seconds`, no disconnect is
raised, and `rpl_control_dao_timeout` is called, once, exactly when
`T - seconds < pan_timeout / 10`; otherwise the timer becomes 0, exactly one
fast disconnect is raised and `rpl_control_dao_timeout` is not called. -/
theorem C22_pan_timeout_countdown {E : Type} (ops : seconds_ops E) (cur : seconds_if E)
    (seconds : Nat) (h1 : keeps_pan_timeout ops.rpl_control_dao_timeout)
    (h2 : keeps_pan_timeout ops.ws_bootstrap_event_disconnect)
    (h3 : keeps_pan_timeout ops.ws_address_registration_update)
    (hT : 0 < cur.info.pan_timeout_timer) (hrange : cur.info.pan_timeout_timer < 4294967296) :
    (cur.info.pan_timeout_timer > seconds →
      (ws_bootstrap_ffn_seconds_timer ops cur seconds).info.pan_timeout_timer =
        cur.info.pan_timeout_timer - seconds ∧
      ffn_call.event_disconnect_fast ∉
        calls_since cur.calls (ws_bootstrap_ffn_seconds_timer ops cur seconds).calls ∧
      (ffn_call.rpl_control_dao_timeout ∈
          calls_since cur.calls (ws_bootstrap_ffn_seconds_timer ops cur seconds).calls ↔
        cur.info.pan_timeout_timer - seconds < cur.info.pan_timeout / 10) ∧
      (calls_since cur.calls (ws_bootstrap_ffn_seconds_timer ops cur seconds).calls).count
        ffn_call.rpl_control_dao_timeout ≤ 1) ∧
    (cur.info.pan_timeout_timer ≤ seconds →
      (ws_bootstrap_ffn_seconds_timer ops cur seconds).info.pan_timeout_timer = 0 ∧
      (calls_since cur.calls (ws_bootstrap_ffn_seconds_timer ops cur seconds).calls).count
        ffn_call.event_disconnect_fast = 1 ∧
      ffn_call.rpl_control_dao_timeout ∉
        calls_since cur.calls (ws_bootstrap_ffn_seconds_timer ops cur seconds).calls) := by
  obtain ⟨a1, a2⟩ := seconds_timer_pan_own ops cur seconds h1 h2
  obtain ⟨⟨L, b1, b2⟩, b3, -⟩ :=
    seconds_timer_aro_calls ops (seconds_timer_pan ops cur seconds) seconds
  obtain ⟨c1, -, -, -, c5⟩ :=
    seconds_timer_bsi_spec (seconds_timer_aro ops (seconds_timer_pan ops cur seconds) seconds)
      seconds
  have e1 : (ws_bootstrap_ffn_seconds_timer ops cur seconds).info.pan_timeout_timer =
      countdown32 cur.info.pan_timeout_timer seconds := by
    unfold ws_bootstrap_ffn_seconds_timer
    rw [c1, b3 h3, a1]
  have e5 : calls_since cur.calls (ws_bootstrap_ffn_seconds_timer ops cur seconds).calls =
      pan_block_calls cur.info.pan_timeout_timer cur.info.pan_timeout seconds ++ L := by
    unfold ws_bootstrap_ffn_seconds_timer
    rw [c5, b1, a2, List.append_assoc, calls_since_append]
  have hLd : ffn_call.event_disconnect_fast ∉ L := fun h => by cases b2 _ h
  have hLp : ffn_call.rpl_control_dao_timeout ∉ L := fun h => by cases b2 _ h
  rw [e1, e5]
  have h0 : cur.info.pan_timeout_timer ≠ 0 := by omega
  unfold countdown32 pan_block_calls
  refine ⟨?_, ?_⟩
  · intro hgt
    have hmod : (cur.info.pan_timeout_timer - seconds) % 4294967296 =
        cur.info.pan_timeout_timer - seconds := Nat.mod_eq_of_lt (by omega)
    simp only [if_pos h0, if_pos hgt, hmod]
    by_cases hp : cur.info.pan_timeout_timer - seconds < cur.info.pan_timeout / 10 <;>
      simp [hp, hLd, hLp, List.count_cons, List.count_eq_zero_of_not_mem hLp]
  · intro hle
    have hgt : ¬ cur.info.pan_timeout_timer > seconds := by omega
    simp only [if_pos h0, if_neg hgt]
    simp [hLd, hLp, List.count_cons, List.count_eq_zero_of_not_mem hLd]

/-- C22 with a configured PAN timeout of 3600 s and a
`ws_address_registration_update` that re-arms its timer to 120 s, the address
registration timer (30 s) expiring in the same call: from 400 s a call with
60 s leaves 340 s and requests the probe (340 < 360), while the address
registration timer is re-armed; from 50 s it clears the timer and raises the
disconnect. -/
theorem C22_pan_timeout_countdown_witness :
    (ws_bootstrap_ffn_seconds_timer rearming_seconds_ops (seconds_start 400 30 0)
      60).info.pan_timeout_timer = 400 - 60 ∧
    ffn_call.rpl_control_dao_timeout ∈
      calls_since (seconds_start 400 30 0).calls
        (ws_bootstrap_ffn_seconds_timer rearming_seconds_ops (seconds_start 400 30 0) 60).calls ∧
    (ws_bootstrap_ffn_seconds_timer rearming_seconds_ops (seconds_start 400 30 0)
      60).info.aro_registration_timer = 120 ∧
    (ws_bootstrap_ffn_seconds_timer rearming_seconds_ops (seconds_start 50 30 0)
      60).info.pan_timeout_timer = 0 :=
  have ha := C22_pan_timeout_countdown rearming_seconds_ops (seconds_start 400 30 0) 60
    (fun _ => rfl) (fun _ => rfl) (fun _ => rfl) (by decide) (by decide)
  have hb := C22_pan_timeout_countdown rearming_seconds_ops (seconds_start 50 30 0) 60
    (fun _ => rfl) (fun _ => rfl) (fun _ => rfl) (by decide) (by decide)
  ⟨(ha.1 (by decide)).1, (ha.1 (by decide)).2.2.1.mpr (by decide), by decide,
    (hb.2 (by decide)).1⟩

/-- C23: the three countdowns are independent.  With collaborators that do
not write the counters, one call of `ws_bootstrap_ffn_seconds_timer` gives each
of `pan_timeout_timer`, `aro_registration_timer` and `ws_bsi_block.block_time`
a value computed from its own previous value and `seconds`, and its expiry
action (the fast disconnect, the address registration update, the clearing of
`old_bsi`) happens exactly when its own previous value is non-zero and at most
`seconds`.  Hence a second run, on any interface and with any such
collaborators, that starts from the same value of one counter ends with the
same value of that counter and the same expiry action. -/
theorem C23_countdowns_independent {E : Type} (ops : seconds_ops E) (cur : seconds_if E)
    (seconds : Nat) (h1 : keeps_counters ops.rpl_control_dao_timeout)
    (h2 : keeps_counters ops.ws_bootstrap_event_disconnect)
    (h3 : keeps_counters ops.ws_address_registration_update) :
    ((ws_bootstrap_ffn_seconds_timer ops cur seconds).info.pan_timeout_timer =
        countdown32 cur.info.pan_timeout_timer seconds ∧
      (ffn_call.event_disconnect_fast ∈
          calls_since cur.calls (ws_bootstrap_ffn_seconds_timer ops cur seconds).calls ↔
        (cur.info.pan_timeout_timer ≠ 0 ∧ cur.info.pan_timeout_timer ≤ seconds))) ∧
    ((ws_bootstrap_ffn_seconds_timer ops cur seconds).info.aro_registration_timer =
        countdown16 cur.info.aro_registration_timer seconds ∧
      (ffn_call.address_registration_update ∈
          calls_since cur.calls (ws_bootstrap_ffn_seconds_timer ops cur seconds).calls ↔
        (cur.info.aro_registration_timer ≠ 0 ∧ cur.info.aro_registration_timer ≤ seconds))) ∧
    ((ws_bootstrap_ffn_seconds_timer ops cur seconds).info.ws_bsi_block.block_time =
        countdown32 cur.info.ws_bsi_block.block_time seconds ∧
      (ws_bootstrap_ffn_seconds_timer ops cur seconds).info.ws_bsi_block.old_bsi =
        (if cur.info.ws_bsi_block.block_time ≠ 0 ∧ cur.info.ws_bsi_block.block_time ≤ seconds
          then 0 else cur.info.ws_bsi_block.old_bsi)) ∧
    (∀ (ops2 : seconds_ops E) (cur2 : seconds_if E),
      keeps_counters ops2.rpl_control_dao_timeout →
      keeps_counters ops2.ws_bootstrap_event_disconnect →
      keeps_counters ops2.ws_address_registration_update →
      (cur2.info.pan_timeout_timer = cur.info.pan_timeout_timer →
        (ws_bootstrap_ffn_seconds_timer ops2 cur2 seconds).info.pan_timeout_timer =
          (ws_bootstrap_ffn_seconds_timer ops cur seconds).info.pan_timeout_timer ∧
        (ffn_call.event_disconnect_fast ∈
            calls_since cur2.calls (ws_bootstrap_ffn_seconds_timer ops2 cur2 seconds).calls ↔
          ffn_call.event_disconnect_fast ∈
            calls_since cur.calls (ws_bootstrap_ffn_seconds_timer ops cur seconds).calls)) ∧
      (cur2.info.aro_registration_timer = cur.info.aro_registration_timer →
        (ws_bootstrap_ffn_seconds_timer ops2 cur2 seconds).info.aro_registration_timer =
          (ws_bootstrap_ffn_seconds_timer ops cur seconds).info.aro_registration_timer ∧
        (ffn_call.address_registration_update ∈
            calls_since cur2.calls (ws_bootstrap_ffn_seconds_timer ops2 cur2 seconds).calls ↔
          ffn_call.address_registration_update ∈
            calls_since cur.calls (ws_bootstrap_ffn_seconds_timer ops cur seconds).calls)) ∧
      (cur2.info.ws_bsi_block = cur.info.ws_bsi_block →
        (ws_bootstrap_ffn_seconds_timer ops2 cur2 seconds).info.ws_bsi_block =
          (ws_bootstrap_ffn_seconds_timer ops cur seconds).info.ws_bsi_block)) := by
  have key : ∀ (o : seconds_ops E) (c : seconds_if E),
      keeps_counters o.rpl_control_dao_timeout →
      keeps_counters o.ws_bootstrap_event_disconnect →
      keeps_counters o.ws_address_registration_update →
      ((ws_bootstrap_ffn_seconds_timer o c seconds).info.pan_timeout_timer =
          countdown32 c.info.pan_timeout_timer seconds ∧
        (ffn_call.event_disconnect_fast ∈
            calls_since c.calls (ws_bootstrap_ffn_seconds_timer o c seconds).calls ↔
          (c.info.pan_timeout_timer ≠ 0 ∧ c.info.pan_timeout_timer ≤ seconds))) ∧
      ((ws_bootstrap_ffn_seconds_timer o c seconds).info.aro_registration_timer =
          countdown16 c.info.aro_registration_timer seconds ∧
        (ffn_call.address_registration_update ∈
            calls_since c.calls (ws_bootstrap_ffn_seconds_timer o c seconds).calls ↔
          (c.info.aro_registration_timer ≠ 0 ∧ c.info.aro_registration_timer ≤ seconds))) ∧
      ((ws_bootstrap_ffn_seconds_timer o c seconds).info.ws_bsi_block.block_time =
          countdown32 c.info.ws_bsi_block.block_time seconds ∧
        (ws_bootstrap_ffn_seconds_timer o c seconds).info.ws_bsi_block.old_bsi =
          (if c.info.ws_bsi_block.block_time ≠ 0 ∧ c.info.ws_bsi_block.block_time ≤ seconds
            then 0 else c.info.ws_bsi_block.old_bsi)) := by
    intro o c k1 k2 k3
    obtain ⟨e1, e2, e3, e4, e5⟩ := seconds_timer_spec o c seconds k1 k2 k3
    refine ⟨⟨e1, ?_⟩, ⟨e2, ?_⟩, e3, ?_⟩
    · rw [e5]
      unfold pan_block_calls aro_block_calls
      by_cases h0 : c.info.pan_timeout_timer ≠ 0 <;>
        by_cases hgt : c.info.pan_timeout_timer > seconds <;>
        by_cases hp : (c.info.pan_timeout_timer - seconds) % 4294967296 <
            c.info.pan_timeout / 10 <;>
        by_cases ha : c.info.aro_registration_timer ≠ 0 ∧
            ¬ c.info.aro_registration_timer > seconds <;>
        simp [h0, hgt, hp, ha] <;> omega
    · rw [e5]
      unfold pan_block_calls aro_block_calls
      by_cases h0 : c.info.pan_timeout_timer ≠ 0 <;>
        by_cases hgt : c.info.pan_timeout_timer > seconds <;>
        by_cases hp : (c.info.pan_timeout_timer - seconds) % 4294967296 <
            c.info.pan_timeout / 10 <;>
        by_cases ha0 : c.info.aro_registration_timer ≠ 0 <;>
        by_cases ha1 : c.info.aro_registration_timer > seconds <;>
        simp [h0, hgt, hp, ha0, ha1] <;> omega
    · rw [e4]
      simp only [gt_iff_lt, not_lt]
  obtain ⟨p1, p2, p3⟩ := key ops cur h1 h2 h3
  refine ⟨p1, p2, p3, ?_⟩
  intro ops2 cur2 k1 k2 k3
  obtain ⟨q1, q2, q3⟩ := key ops2 cur2 k1 k2 k3
  refine ⟨?_, ?_, ?_⟩
  · intro h
    rw [q1.1, p1.1, q1.2, p1.2, h]
    exact ⟨rfl, Iff.rfl⟩
  · intro h
    rw [q2.1, p2.1, q2.2, p2.2, h]
    exact ⟨rfl, Iff.rfl⟩
  · intro h
    have hb : (ws_bootstrap_ffn_seconds_timer ops2 cur2 seconds).info.ws_bsi_block.block_time =
        (ws_bootstrap_ffn_seconds_timer ops cur seconds).info.ws_bsi_block.block_time := by
      rw [q3.1, p3.1, h]
    have ho : (ws_bootstrap_ffn_seconds_timer ops2 cur2 seconds).info.ws_bsi_block.old_bsi =
        (ws_bootstrap_ffn_seconds_timer ops cur seconds).info.ws_bsi_block.old_bsi := by
      rw [q3.2, p3.2, h]
    cases hx : (ws_bootstrap_ffn_seconds_timer ops2 cur2 seconds).info.ws_bsi_block
    cases hy : (ws_bootstrap_ffn_seconds_timer ops cur seconds).info.ws_bsi_block
    rw [hx, hy] at hb ho
    simp only at hb ho
    rw [hb, ho]

/-- C23 with idle collaborators and 4 s elapsed: the PAN timer at 5 s ends at
1 s without a disconnect both when the other two counters expire in the call
(3 s, 3 s) and when they are dormant, and in the first run the other two
expire. -/
theorem C23_countdowns_independent_witness :
    (ws_bootstrap_ffn_seconds_timer idle_seconds_ops (seconds_start 5 0 0)
        4).info.pan_timeout_timer =
      (ws_bootstrap_ffn_seconds_timer idle_seconds_ops (seconds_start 5 3 3)
        4).info.pan_timeout_timer ∧
    (ws_bootstrap_ffn_seconds_timer idle_seconds_ops (seconds_start 5 3 3)
        4).info.pan_timeout_timer = 1 ∧
    (ws_bootstrap_ffn_seconds_timer idle_seconds_ops (seconds_start 5 3 3)
        4).info.ws_bsi_block = { block_time := 0, old_bsi := 0 } :=
  ⟨(((C23_countdowns_independent idle_seconds_ops (seconds_start 5 3 3) 4
      idle_keeps_counters.1 idle_keeps_counters.2.1 idle_keeps_counters.2.2).2.2.2
      idle_seconds_ops (seconds_start 5 0 0)
      idle_keeps_counters.1 idle_keeps_counters.2.1 idle_keeps_counters.2.2).1 rfl).1,
    by decide, by decide⟩

end WsFfn

namespace WsFfn

/-! ### Where solicits are handed to the LLC -/

theorem calls_since_self (l : List ffn_call) : calls_since l l = [] := by
  simp [calls_since]

/-- The collaborator calls of one `ws_ffn_pas_trickle`. -/
theorem pas_trickle_calls {T : Type} (ops : trickle_ops T) (cur : mngt_if T) (ticks : Int) :
    calls_since cur.calls (ws_ffn_pas_trickle ops cur ticks).calls =
      if cur.mngt.trickle_pas_running = true then
        ffn_call.trickle_timer_pas (ops.trickle_timer cur.mngt.trickle_pas ticks).2 ::
          (if (ops.trickle_timer cur.mngt.trickle_pas ticks).2 = true then
            [ffn_call.stats_update_tx_pas, ffn_call.llc_asynch_request_pas] else [])
      else [] := by
  unfold ws_ffn_pas_trickle ws_bootstrap_pan_advert_solicit
  dsimp only
  split_ifs <;> simp [calls_since]

/-- The collaborator calls of one `ws_ffn_pas_test_exec`. -/
theorem pas_test_exec_calls {T : Type} (INCON : Int) (ops : trickle_ops T) (cur : mngt_if T)
    (procedure : Int) :
    calls_since cur.calls (ws_ffn_pas_test_exec INCON ops cur procedure).calls =
      (if procedure ≠ INCON then
        [ffn_call.stats_update_tx_pas, ffn_call.llc_asynch_request_pas] else []) ++
      (if cur.mngt.trickle_pas_running = true then
        [ffn_call.trickle_inconsistent_heard_pas] else []) := by
  unfold ws_ffn_pas_test_exec ws_bootstrap_pan_advert_solicit
  by_cases hp : procedure = INCON <;> by_cases hr : cur.mngt.trickle_pas_running = true <;>
    simp [calls_since, hp, hr]

/-- The collaborator calls of one `ws_ffn_pcs_test_exec`. -/
theorem pcs_test_exec_calls {T : Type} (INCON : Int) (ops : trickle_ops T) (cur : mngt_if T)
    (procedure : Int) (state_active : Bool) :
    calls_since cur.calls (ws_ffn_pcs_test_exec INCON ops cur procedure state_active).calls =
      if cur.mngt.trickle_pcs_running = true ∨ state_active = true then
        (if procedure ≠ INCON then
          [ffn_call.stats_update_tx_pcs, ffn_call.llc_asynch_request_pcs] else []) ++
        (if cur.mngt.trickle_pcs_running = true then
          [ffn_call.trickle_inconsistent_heard_pcs] else [])
      else [] := by
  unfold ws_ffn_pcs_test_exec ws_bootstrap_pan_config_solicit
  by_cases hp : procedure = INCON <;> by_cases hr : cur.mngt.trickle_pcs_running = true <;>
    cases state_active <;> simp [calls_since, hp, hr]

/-- The test triggers only call `ws_bootstrap_test_procedure_trigger_exec`. -/
theorem pas_test_trigger_calls (P : test_procedures) (cur : test_if) (seconds : Int) :
    ∀ c ∈ calls_since cur.calls (ws_ffn_pas_test_trigger P cur seconds).calls,
      ∃ p, c = ffn_call.test_procedure_trigger_exec p := by
  unfold ws_ffn_pas_test_trigger
  dsimp only
  split_ifs <;> simp [calls_since]

theorem pcs_test_trigger_calls (P : test_procedures) (cur : test_if) (seconds : Int) :
    ∀ c ∈ calls_since cur.calls (ws_ffn_pcs_test_trigger P cur seconds).calls,
      ∃ p, c = ffn_call.test_procedure_trigger_exec p := by
  unfold ws_ffn_pcs_test_trigger
  dsimp only
  split_ifs <;> simp [calls_since]

/-- The collaborator calls of `ws_bootstrap_ffn_seconds_timer` are among its
three collaborators, whatever these do. -/
theorem seconds_timer_calls {E : Type} (ops : seconds_ops E) (cur : seconds_if E)
    (seconds : Nat) :
    ∀ c ∈ calls_since cur.calls (ws_bootstrap_ffn_seconds_timer ops cur seconds).calls,
      c = ffn_call.rpl_control_dao_timeout ∨ c = ffn_call.event_disconnect_fast ∨
        c = ffn_call.address_registration_update := by
  have hp : ∀ x : seconds_if E, ∃ L, (seconds_timer_pan ops x seconds).calls = x.calls ++ L ∧
      ∀ c ∈ L, c = ffn_call.rpl_control_dao_timeout ∨ c = ffn_call.event_disconnect_fast := by
    intro x
    unfold seconds_timer_pan
    dsimp only
    split_ifs
    · exact ⟨[ffn_call.rpl_control_dao_timeout], rfl, by simp⟩
    · exact ⟨[], by simp, by simp⟩
    · exact ⟨[ffn_call.event_disconnect_fast], rfl, by simp⟩
    · exact ⟨[], by simp, by simp⟩
  have ha : ∀ x : seconds_if E, ∃ L, (seconds_timer_aro ops x seconds).calls = x.calls ++ L ∧
      ∀ c ∈ L, c = ffn_call.address_registration_update := by
    intro x
    unfold seconds_timer_aro
    split_ifs
    · exact ⟨[], by simp, by simp⟩
    · exact ⟨[ffn_call.address_registration_update], rfl, by simp⟩
    · exact ⟨[], by simp, by simp⟩
  have hb : ∀ x : seconds_if E, (seconds_timer_bsi x seconds).calls = x.calls := by
    intro x
    unfold seconds_timer_bsi
    split_ifs <;> rfl
  obtain ⟨L1, e1, m1⟩ := hp cur
  obtain ⟨L2, e2, m2⟩ := ha (seconds_timer_pan ops cur seconds)
  unfold ws_bootstrap_ffn_seconds_timer
  rw [hb, e2, e1, List.append_assoc, calls_since_append]
  intro c hc
  rcases List.mem_append.1 hc with h | h
  · rcases m1 c h with h | h
    · exact Or.inl h
    · exact Or.inr (Or.inl h)
  · exact Or.inr (Or.inr (m2 c h))

/-- The collaborator calls of the authentication retry are the neighbor
binding calls. -/
theorem next_target_calls (w1 w2 : Nat) (cur : net_if) (prev pan_id : Nat) (g a : Bool) :
    ∀ c ∈ calls_since cur.calls
        (ws_bootstrap_authentication_next_target w1 w2 cur prev pan_id g a).1.calls,
      c ≠ ffn_call.llc_asynch_request_pas ∧ c ≠ ffn_call.llc_asynch_request_pcs := by
  cases hb : ws_bootstrap_ffn_candidate_parent_get_best
      (ws_bootstrap_ffn_candidate_parent_mark_failure w1 w2 cur.parents prev) with
  | none =>
    rw [next_target_none w1 w2 cur prev pan_id g a hb]
    simp [calls_since]
  | some h =>
    rw [next_target_some w1 w2 cur prev pan_id g a h hb]
    simp only [neighbor_set_calls, List.append_assoc, calls_since_append]
    cases g <;> cases a <;>
      by_cases hp : cur.network_pan_id =
        ((ws_bootstrap_ffn_candidate_parent_mark_failure w1 w2 cur.parents prev).pool h).pan_id <;>
      simp [hp]

/-- The collaborator calls of one `ws_ffn_pcs_trickle`: a configuration
solicit is handed to the LLC only after `trickle_timer` reported a fire in
this call. -/
theorem pcs_trickle_calls {T : Type} (PCS_MAX : Nat) (ops : trickle_ops T) (cur : mngt_if T)
    (ticks : Int)
    (h : ffn_call.llc_asynch_request_pcs ∈
      calls_since cur.calls (ws_ffn_pcs_trickle PCS_MAX ops cur ticks).calls) :
    ffn_call.trickle_timer_pcs true ∈
      calls_since cur.calls (ws_ffn_pcs_trickle PCS_MAX ops cur ticks).calls ∧
    ffn_call.llc_asynch_request_pas ∉
      calls_since cur.calls (ws_ffn_pcs_trickle PCS_MAX ops cur ticks).calls := by
  by_cases hrun : cur.mngt.trickle_pcs_running = true
  · rw [pcs_trickle_running PCS_MAX ops cur ticks hrun] at h ⊢
    simp only [calls_since_append] at h ⊢
    by_cases hf : pcs_fired ops cur ticks = true
    · constructor
      · simp [hf]
      · split_ifs <;> simp
    · exfalso
      split_ifs at h <;> simp_all
  · exfalso
    unfold ws_ffn_pcs_trickle at h
    simp [hrun, calls_since] at h

/-- C21 (as stated, refuted): with neither trickle timer consulted,
`ws_ffn_pas_test_exec` called with a procedure other than
`PROCEDURE_PAS_TRICKLE_INCON` (here 0 against 1) hands a PAN Advertisement
Solicit to the LLC, and `ws_ffn_pcs_test_exec` likewise hands over a PAN
Configuration Solicit. -/
theorem C21_solicit_sent_by_test_exec :
    ffn_call.llc_asynch_request_pas ∈
      (ws_ffn_pas_test_exec 1 always_fire (pcs_start 100) 0).calls ∧
    (∀ fired, ffn_call.trickle_timer_pas fired ∉
      (ws_ffn_pas_test_exec 1 always_fire (pcs_start 100) 0).calls) ∧
    ffn_call.llc_asynch_request_pcs ∈
      (ws_ffn_pcs_test_exec 1 always_fire (pcs_start 100) 0 false).calls ∧
    (∀ fired, ffn_call.trickle_timer_pcs fired ∉
      (ws_ffn_pcs_test_exec 1 always_fire (pcs_start 100) 0 false).calls) := by
  refine ⟨by decide, ?_, by decide, ?_⟩ <;> intro fired <;> cases fired <;> decide

/-- C21 (amended): where solicits are handed to the LLC.  In
`ws_ffn_pas_trickle` a PAN Advertisement Solicit is handed over exactly when
the PAS trickle is running and `trickle_timer` reported a fire in this call,
and no Configuration Solicit is; in `ws_ffn_pcs_trickle` a PAN Configuration
Solicit is handed over only after `trickle_timer` reported a fire in this
call, and no Advertisement Solicit is.  The authentication retry, the
housekeeping countdowns and the two test triggers hand over none (the
triggers only call `ws_bootstrap_test_procedure_trigger_exec`).  The two test
procedures do send without a fire: `ws_ffn_pas_test_exec` hands over an
Advertisement Solicit exactly when the procedure is not
`PROCEDURE_PAS_TRICKLE_INCON`, and `ws_ffn_pcs_test_exec` a Configuration
Solicit exactly when the PCS trickle is running or the bootstrap state is
active and the procedure is not `PROCEDURE_PCS_TRICKLE_INCON`; neither
consults a trickle timer. -/
theorem C21_solicit_on_fire_or_test_procedure {T E : Type} (PCS_MAX : Nat)
    (PROCEDURE_PAS_TRICKLE_INCON PROCEDURE_PCS_TRICKLE_INCON : Int) (P : test_procedures)
    (ops : trickle_ops T) (sops : seconds_ops E) (cur : mngt_if T) (ncur : net_if)
    (scur : seconds_if E) (tcur : test_if) (ticks procedure tseconds : Int)
    (seconds w1 w2 previous_eui_64 pan_id : Nat) (g a state_active : Bool) :
    ((ffn_call.llc_asynch_request_pas ∈
        calls_since cur.calls (ws_ffn_pas_trickle ops cur ticks).calls ↔
      cur.mngt.trickle_pas_running = true ∧
        ffn_call.trickle_timer_pas true ∈
          calls_since cur.calls (ws_ffn_pas_trickle ops cur ticks).calls) ∧
     ffn_call.llc_asynch_request_pcs ∉
        calls_since cur.calls (ws_ffn_pas_trickle ops cur ticks).calls) ∧
    ((ffn_call.llc_asynch_request_pcs ∈
        calls_since cur.calls (ws_ffn_pcs_trickle PCS_MAX ops cur ticks).calls →
      cur.mngt.trickle_pcs_running = true ∧
        ffn_call.trickle_timer_pcs true ∈
          calls_since cur.calls (ws_ffn_pcs_trickle PCS_MAX ops cur ticks).calls) ∧
     ffn_call.llc_asynch_request_pas ∉
        calls_since cur.calls (ws_ffn_pcs_trickle PCS_MAX ops cur ticks).calls) ∧
    (∀ c ∈ calls_since ncur.calls
        (ws_bootstrap_authentication_next_target w1 w2 ncur previous_eui_64 pan_id g a).1.calls,
      ¬ solicit_request c) ∧
    (∀ c ∈ calls_since scur.calls (ws_bootstrap_ffn_seconds_timer sops scur seconds).calls,
      ¬ solicit_request c) ∧
    (∀ c ∈ calls_since tcur.calls (ws_ffn_pas_test_trigger P tcur tseconds).calls,
      ¬ solicit_request c) ∧
    (∀ c ∈ calls_since tcur.calls (ws_ffn_pcs_test_trigger P tcur tseconds).calls,
      ¬ solicit_request c) ∧
    ((ffn_call.llc_asynch_request_pas ∈ calls_since cur.calls
        (ws_ffn_pas_test_exec PROCEDURE_PAS_TRICKLE_INCON ops cur procedure).calls ↔
      procedure ≠ PROCEDURE_PAS_TRICKLE_INCON) ∧
     ∀ fired, ffn_call.trickle_timer_pas fired ∉ calls_since cur.calls
        (ws_ffn_pas_test_exec PROCEDURE_PAS_TRICKLE_INCON ops cur procedure).calls) ∧
    ((ffn_call.llc_asynch_request_pcs ∈ calls_since cur.calls
        (ws_ffn_pcs_test_exec PROCEDURE_PCS_TRICKLE_INCON ops cur procedure state_active).calls ↔
      (cur.mngt.trickle_pcs_running = true ∨ state_active = true) ∧
        procedure ≠ PROCEDURE_PCS_TRICKLE_INCON) ∧
     ∀ fired, ffn_call.trickle_timer_pcs fired ∉ calls_since cur.calls
        (ws_ffn_pcs_test_exec PROCEDURE_PCS_TRICKLE_INCON ops cur procedure state_active).calls)
    := by
  refine ⟨⟨?_, ?_⟩, ⟨?_, ?_⟩, ?_, ?_, ?_, ?_, ⟨?_, ?_⟩, ⟨?_, ?_⟩⟩
  · rw [pas_trickle_calls]
    by_cases hr : cur.mngt.trickle_pas_running = true <;>
      by_cases hf : (ops.trickle_timer cur.mngt.trickle_pas ticks).2 = true <;> simp [hr, hf]
  · rw [pas_trickle_calls]
    split_ifs <;> simp
  · intro h
    refine ⟨?_, (pcs_trickle_calls PCS_MAX ops cur ticks h).1⟩
    by_contra hrun
    unfold ws_ffn_pcs_trickle at h
    simp [hrun, calls_since] at h
  · intro h
    by_cases hrun : cur.mngt.trickle_pcs_running = true
    · rw [pcs_trickle_running PCS_MAX ops cur ticks hrun] at h
      simp only [calls_since_append] at h
      split_ifs at h <;> simp at h
    · unfold ws_ffn_pcs_trickle at h
      simp [hrun, calls_since] at h
  · intro c hc hs
    have := next_target_calls w1 w2 ncur previous_eui_64 pan_id g a c hc
    rcases hs with hs | hs
    · exact this.1 hs
    · exact this.2 hs
  · intro c hc hs
    rcases seconds_timer_calls sops scur seconds c hc with h | h | h <;>
      rcases hs with hs | hs <;> rw [h] at hs <;> cases hs
  · intro c hc hs
    obtain ⟨p, hp⟩ := pas_test_trigger_calls P tcur tseconds c hc
    rcases hs with hs | hs <;> rw [hp] at hs <;> cases hs
  · intro c hc hs
    obtain ⟨p, hp⟩ := pcs_test_trigger_calls P tcur tseconds c hc
    rcases hs with hs | hs <;> rw [hp] at hs <;> cases hs
  · rw [pas_test_exec_calls]
    by_cases hp : procedure = PROCEDURE_PAS_TRICKLE_INCON <;>
      by_cases hr : cur.mngt.trickle_pas_running = true <;> simp [hp, hr]
  · intro fired
    rw [pas_test_exec_calls]
    by_cases hp : procedure = PROCEDURE_PAS_TRICKLE_INCON <;>
      by_cases hr : cur.mngt.trickle_pas_running = true <;> simp [hp, hr]
  · rw [pcs_test_exec_calls]
    by_cases hp : procedure = PROCEDURE_PCS_TRICKLE_INCON <;>
      by_cases hr : cur.mngt.trickle_pcs_running = true <;> cases state_active <;>
      simp [hp, hr]
  · intro fired
    rw [pcs_test_exec_calls]
    by_cases hp : procedure = PROCEDURE_PCS_TRICKLE_INCON <;>
      by_cases hr : cur.mngt.trickle_pcs_running = true <;> cases state_active <;>
      simp [hp, hr]

end WsFfn

namespace WsTimers

/-! ### Schedule validation and same-tick visibility -/

/-- One loop iteration with a valid period returns; it records at most the
index itself, and a countdown that the callback of this index does not write
is not changed. -/
theorem tick_step_result {E : Type} (G : Int) (s_timers : List (timer_entry E)) (i : Nat)
    (hv : ∀ t, s_timers.get? i = some t → t.periodic = true → t.period_ms.tmod G = 0)
    (st : timer_world E × List Nat) :
    ∃ st1, timer_tick_step G s_timers i st = some st1 ∧
      (st1.2 = st.2 ∨ st1.2 = st.2 ++ [i]) ∧
      ∀ k, k ≠ i →
        (∀ t, s_timers.get? i = some t → ∀ x w, (t.callback x w).timeout k = w.timeout k) →
        st1.1.timeout k = st.1.timeout k := by
  unfold timer_tick_step
  cases hget : s_timers.get? i with
  | none => exact ⟨st, rfl, Or.inl rfl, fun _ _ _ => rfl⟩
  | some t =>
    simp only
    by_cases h0 : st.1.timeout i = 0
    · rw [if_pos h0]; exact ⟨st, rfl, Or.inl rfl, fun _ _ _ => rfl⟩
    · rw [if_neg h0]
      by_cases h1 : st.1.timeout i - 1 = 0
      · simp only [if_true, h1, ne_eq, not_true_eq_false, if_false]
        by_cases hp : t.periodic = true
        · rw [if_pos hp, timer_start_valid G s_timers i t hget (hv t hget hp)]
          refine ⟨_, rfl, Or.inr rfl, ?_⟩
          intro k hki hcb
          simp only [if_neg hki]
          rw [hcb t rfl]
          simp only [if_neg hki]
        · rw [if_neg hp]
          refine ⟨_, rfl, Or.inr rfl, ?_⟩
          intro k hki hcb
          rw [hcb t rfl]
          simp only [if_neg hki]
      · simp only [if_true, ne_eq, h1, not_false_eq_true]
        exact ⟨_, rfl, Or.inl rfl, fun k hki _ => by simp only [if_neg hki]⟩

/-- The loop over a list of indices with valid periods returns; the indices it
records form a sublist of the list, and a countdown that is not in the list
and that no callback of the list writes is not changed. -/
theorem tick_loop_result {E : Type} (G : Int) (s_timers : List (timer_entry E))
    (hvalid : ∀ j t, s_timers.get? j = some t → t.periodic = true → t.period_ms.tmod G = 0) :
    ∀ (l : List Nat) (st : timer_world E × List Nat),
      ∃ st1, timer_tick_loop G s_timers l st = some st1 ∧
        (∃ f, st1.2 = st.2 ++ f ∧ f.Sublist l) ∧
        ∀ k, k ∉ l →
          (∀ j ∈ l, ∀ t, s_timers.get? j = some t →
            ∀ x w, (t.callback x w).timeout k = w.timeout k) →
          st1.1.timeout k = st.1.timeout k := by
  intro l
  induction l with
  | nil => intro st; exact ⟨st, rfl, ⟨[], by simp, List.Sublist.refl _⟩, fun _ _ _ => rfl⟩
  | cons i rest ih =>
    intro st
    obtain ⟨st1, h1, h2, h3⟩ := tick_step_result G s_timers i (fun t ht => hvalid i t ht) st
    obtain ⟨st2, g1, ⟨f, g2, g3⟩, g4⟩ := ih st1
    refine ⟨st2, by simp only [timer_tick_loop, h1, g1], ?_, ?_⟩
    · rcases h2 with h2 | h2
      · exact ⟨f, by rw [g2, h2], g3.cons i⟩
      · exact ⟨i :: f, by rw [g2, h2]; simp, g3.cons₂ i⟩
    · intro k hk hcb
      have hki : k ≠ i := fun h => hk (by simp [h])
      have hk2 : k ∉ rest := fun h => hk (List.mem_cons_of_mem _ h)
      rw [g4 k hk2 (fun j hj => hcb j (List.mem_cons_of_mem _ hj)),
        h3 k hki (hcb i (List.mem_cons_self _ _))]

/-- The loop iteration of a timer whose countdown is 1: its callback is
invoked, and every other countdown is afterwards what the callback left. -/
theorem tick_step_fire {E : Type} (G : Int) (s_timers : List (timer_entry E)) (i : Nat)
    (t : timer_entry E) (hi : s_timers.get? i = some t)
    (hv : t.periodic = true → t.period_ms.tmod G = 0) (st : timer_world E × List Nat)
    (h1 : st.1.timeout i = 1) :
    ∃ st1 wa, timer_tick_step G s_timers i st = some st1 ∧ st1.2 = st.2 ++ [i] ∧
      ∀ k, k ≠ i → st1.1.timeout k = (t.callback 1 wa).timeout k := by
  unfold timer_tick_step
  rw [hi]
  simp only
  have h0 : ¬ st.1.timeout i = 0 := by rw [h1]; decide
  have h10 : st.1.timeout i - 1 = 0 := by rw [h1]; rfl
  rw [if_neg h0]
  simp only [if_true, h10, ne_eq, not_true_eq_false, if_false]
  by_cases hp : t.periodic = true
  · rw [if_pos hp, timer_start_valid G s_timers i t hi (hv hp)]
    refine ⟨_, { timeout := fun j => if j = i then 0 else st.1.timeout j, env := st.1.env },
      rfl, rfl, fun k hki => ?_⟩
    simp only [if_neg hki]
  · rw [if_neg hp]
    exact ⟨_, { timeout := fun j => if j = i then 0 else st.1.timeout j, env := st.1.env },
      rfl, rfl, fun k _ => rfl⟩

/-- The indices below the table length, split at two of them. -/
theorem range_split (i k n : Nat) (h1 : i < k) (h2 : k < n) :
    List.range n = List.range' 0 i ++
      i :: (List.range' (i + 1) (k - i - 1) ++ k :: List.range' (k + 1) (n - k - 1)) := by
  have e1 : k :: List.range' (k + 1) (n - k - 1) = List.range' k (n - k) := by
    rw [← List.range'_succ]; congr 1; omega
  have e2 : List.range' (i + 1) (k - i - 1) ++ List.range' k (n - k) =
      List.range' (i + 1) (n - i - 1) := by
    have := List.range'_append_1 (i + 1) (k - i - 1) (n - k)
    rw [show i + 1 + (k - i - 1) = k by omega] at this
    rw [this]; congr 1; omega
  have e3 : i :: List.range' (i + 1) (n - i - 1) = List.range' i (n - i) := by
    rw [← List.range'_succ]; congr 1; omega
  rw [e1, e2, e3, List.range_eq_range']
  have := List.range'_append_1 0 i (n - i)
  rw [show 0 + i = i by omega] at this
  rw [this]; congr 1; omega

/-- C29: schedule validation happens in `timer_start`.  For a timer of the
table, `timer_start` aborts if and only if `period_ms` is not a multiple of
`TIMER_GLOBAL_PERIOD_MS`; otherwise it returns, that timer's countdown is
`period_ms / TIMER_GLOBAL_PERIOD_MS` (the exact quotient), and every other
countdown and the rest of the state are unchanged. -/
theorem C29_start_validates_period {E : Type} (TIMER_GLOBAL_PERIOD_MS : Int)
    (s_timers : List (timer_entry E)) (id : Nat) (t : timer_entry E)
    (hid : s_timers.get? id = some t) (w : timer_world E) :
    (timer_start TIMER_GLOBAL_PERIOD_MS s_timers id w = none ↔
      ¬ TIMER_GLOBAL_PERIOD_MS ∣ t.period_ms) ∧
    (TIMER_GLOBAL_PERIOD_MS ∣ t.period_ms →
      ∃ w1, timer_start TIMER_GLOBAL_PERIOD_MS s_timers id w = some w1 ∧
        w1.timeout id = t.period_ms.tdiv TIMER_GLOBAL_PERIOD_MS ∧
        TIMER_GLOBAL_PERIOD_MS * w1.timeout id = t.period_ms ∧
        (∀ j, j ≠ id → w1.timeout j = w.timeout j) ∧
        w1.env = w.env) := by
  constructor
  · unfold timer_start
    rw [hid]
    simp only
    by_cases hm : t.period_ms.tmod TIMER_GLOBAL_PERIOD_MS = 0
    · simp [hm, Int.dvd_of_tmod_eq_zero hm]
    · have : ¬ TIMER_GLOBAL_PERIOD_MS ∣ t.period_ms :=
        fun hd => hm (Int.tmod_eq_zero_of_dvd hd)
      simp [hm, this]
  · intro hd
    rw [timer_start_valid TIMER_GLOBAL_PERIOD_MS s_timers id t hid (Int.tmod_eq_zero_of_dvd hd)]
    refine ⟨_, rfl, by simp, ?_, fun j hj => by simp [hj], rfl⟩
    simp only [if_true]
    exact Int.mul_tdiv_cancel' hd

/-- C29 at concrete inputs with base period 100 ms: starting timer 0 of
`demo_timers` (period 300 ms) does not abort and sets the countdown to 3;
starting the timer of `misfit_timers` (period 250 ms) aborts. -/
theorem C29_start_validates_period_witness :
    (∃ w1, timer_start 100 demo_timers 0 demo_world = some w1 ∧ w1.timeout 0 = 3 ∧
      w1.timeout 1 = 0) ∧
    timer_start 100 misfit_timers 0 demo_world = none := by
  constructor
  · obtain ⟨w1, h1, h2, -, h4, -⟩ :=
      (C29_start_validates_period 100 demo_timers 0
        { callback := fun _ w => { w with env := w.env + 1 }, period_ms := 300, periodic := true }
        rfl demo_world).2 (by decide)
    exact ⟨w1, h1, by rw [h2]; decide, by rw [h4 1 (by decide)]; rfl⟩
  · exact (C29_start_validates_period 100 misfit_timers 0
      { callback := fun _ w => w, period_ms := 250, periodic := true }
      rfl demo_world).1.2 (by decide)

/-- C30: same-tick visibility in table order.  Let timer `i` stand before
timer `k` in the table, with countdown 1 at the start of a call of
`timer_global_tick` and not written by the callbacks before it, and let no
callback after `i` other than that of `k` itself write the countdown of `k`.
Then the call returns, the callbacks are invoked in increasing table index,
that of `i` among them, and timer `k` sees what the callback of `i` did to its
countdown: set to 0 (`timer_stop`), `k` is not invoked in this call and stays
at 0, whatever its countdown was before; set to `m` other than 0 and 1
(`timer_start`), `k` is not invoked and ends the call at `m - 1`, counted down
once; set to 1, `k` is invoked once in this same call. -/
theorem C30_same_tick_visibility {E : Type} (TIMER_GLOBAL_PERIOD_MS : Int)
    (s_timers : List (timer_entry E)) (i k : Nat) (ti tk : timer_entry E)
    (hi : s_timers.get? i = some ti) (hk : s_timers.get? k = some tk) (hik : i < k)
    (hvalid : ∀ j t, s_timers.get? j = some t → t.periodic = true →
      t.period_ms.tmod TIMER_GLOBAL_PERIOD_MS = 0)
    (hbefore : ∀ j t, j < i → s_timers.get? j = some t →
      ∀ x w, (t.callback x w).timeout i = w.timeout i)
    (hothers : ∀ j t, i < j → j ≠ k → s_timers.get? j = some t →
      ∀ x w, (t.callback x w).timeout k = w.timeout k)
    (w : timer_world E) (hw : w.timeout i = 1) :
    ∃ w1 fired, timer_global_tick TIMER_GLOBAL_PERIOD_MS s_timers w = some (w1, fired) ∧
      fired.Pairwise (fun a b => a < b) ∧ i ∈ fired ∧
      ∀ m : Int, (∀ x wa, (ti.callback x wa).timeout k = m) →
        (m = 0 → k ∉ fired ∧ w1.timeout k = 0) ∧
        (m ≠ 0 → m ≠ 1 → k ∉ fired ∧ w1.timeout k = m - 1) ∧
        (m = 1 → fired.count k = 1) := by
  have hkn : k < s_timers.length := by
    by_contra hge
    have := List.get?_eq_none.mpr (Nat.le_of_not_lt hge)
    rw [this] at hk
    cases hk
  have hki : k ≠ i := by omega
  have m1 : ∀ j ∈ List.range' 0 i, j < i := fun j hj => by
    have := List.mem_range'_1.mp hj; omega
  have m2 : ∀ j ∈ List.range' (i + 1) (k - i - 1), i < j ∧ j < k := fun j hj => by
    have := List.mem_range'_1.mp hj; omega
  have m3 : ∀ j ∈ List.range' (k + 1) (s_timers.length - k - 1), k < j := fun j hj => by
    have := List.mem_range'_1.mp hj; omega
  obtain ⟨sa, a1, ⟨fa, a2, a3⟩, a4⟩ :=
    tick_loop_result TIMER_GLOBAL_PERIOD_MS s_timers hvalid (List.range' 0 i) (w, [])
  have hsa : sa.1.timeout i = 1 := by
    rw [a4 i (fun h => absurd (m1 i h) (by omega)) (fun j hj t ht => hbefore j t (m1 j hj) ht)]
    exact hw
  obtain ⟨sb, wa, b1, b2, b3⟩ :=
    tick_step_fire TIMER_GLOBAL_PERIOD_MS s_timers i ti hi (hvalid i ti hi) sa hsa
  obtain ⟨sc, c1, ⟨fc, c2, c3⟩, c4⟩ :=
    tick_loop_result TIMER_GLOBAL_PERIOD_MS s_timers hvalid (List.range' (i + 1) (k - i - 1)) sb
  have hsc : sc.1.timeout k = (ti.callback 1 wa).timeout k := by
    rw [c4 k (fun h => absurd (m2 k h).2 (by omega))
      (fun j hj t ht => hothers j t (m2 j hj).1 (by have := (m2 j hj).2; omega) ht), b3 k hki]
  obtain ⟨sd, d1, d2, d3, d4⟩ :=
    tick_step_at TIMER_GLOBAL_PERIOD_MS s_timers k tk hk (hvalid k tk hk) sc
  obtain ⟨se, e1, ⟨fe, e2, e3⟩, e4⟩ :=
    tick_loop_result TIMER_GLOBAL_PERIOD_MS s_timers hvalid
      (List.range' (k + 1) (s_timers.length - k - 1)) sd
  have hse : se.1.timeout k = sd.1.timeout k :=
    e4 k (fun h => absurd (m3 k h) (by omega))
      (fun j hj t ht => hothers j t (by have := m3 j hj; omega) (by have := m3 j hj; omega) ht)
  have htick : timer_global_tick TIMER_GLOBAL_PERIOD_MS s_timers w = some se := by
    unfold timer_global_tick
    rw [range_split i k s_timers.length hik hkn, tick_loop_append, a1]
    simp only [Option.bind, timer_tick_loop, b1]
    rw [tick_loop_append, c1]
    simp only [Option.bind, timer_tick_loop, d1, e1]
  obtain ⟨sw, w1, ⟨fw, w2, w3⟩, -⟩ :=
    tick_loop_result TIMER_GLOBAL_PERIOD_MS s_timers hvalid (List.range s_timers.length) (w, [])
  have hsw : sw = se := by
    unfold timer_global_tick at htick
    rw [w1] at htick
    exact Option.some.inj htick
  have ka : k ∉ fa := fun h => absurd (m1 k (a3.subset h)) (by omega)
  have kc : k ∉ fc := fun h => absurd (m2 k (c3.subset h)).2 (by omega)
  have ke : k ∉ fe := fun h => absurd (m3 k (e3.subset h)) (by omega)
  have hsb2 : sc.2 = fa ++ [i] ++ fc := by rw [c2, b2, a2]; simp
  refine ⟨se.1, se.2, htick, ?_, ?_, ?_⟩
  · rw [← hsw, w2]
    simpa using List.Pairwise.sublist w3 (List.pairwise_lt_range _)
  · obtain ⟨sd2, x1, x2, -⟩ :=
      tick_step_result TIMER_GLOBAL_PERIOD_MS s_timers k (fun t ht => hvalid k t ht) sc
    have hsd : sd2 = sd := Option.some.inj (x1.symm.trans d1)
    rw [hsd] at x2
    rw [e2]
    rcases x2 with x2 | x2 <;> rw [x2, hsb2] <;> simp
  · intro m hm
    have hscm : sc.1.timeout k = m := by rw [hsc]; exact hm 1 wa
    refine ⟨?_, ?_, ?_⟩
    · intro h0
      have := d2 (by rw [hscm]; exact h0)
      rw [e2, hse, this, hsb2]
      exact ⟨by simp [ka, kc, ke, hki], by rw [hscm]; exact h0⟩
    · intro h0 h1
      obtain ⟨g1, g2⟩ := d3 (by rw [hscm]; exact h0) (by rw [hscm]; exact h1)
      rw [e2, hse, g1, g2, hsb2, hscm]
      exact ⟨by simp [ka, kc, ke, hki], rfl⟩
    · intro h1
      obtain ⟨g1, -, -⟩ := d4 (by rw [hscm]; exact h1)
      rw [e2, g1, hsb2]
      simp [List.count_append, List.count_eq_zero_of_not_mem ka,
        List.count_eq_zero_of_not_mem kc, List.count_eq_zero_of_not_mem ke, List.count_cons, hki]

/-- C30 at `relay_timers` with base period 100 ms, timers 0 and 1 about to
expire and timer 2 dormant: in one call the callback of timer 0 is invoked;
timer 1, which it stops, is not invoked and stays at 0; timer 2, which it
starts with countdown 3, is not invoked and ends the call at 2. -/
theorem C30_same_tick_visibility_witness :
    (∃ w1 fired, timer_global_tick 100 relay_timers relay_world = some (w1, fired) ∧
      0 ∈ fired ∧ 1 ∉ fired ∧ w1.timeout 1 = 0) ∧
    (∃ w1 fired, timer_global_tick 100 relay_timers relay_world = some (w1, fired) ∧
      2 ∉ fired ∧ w1.timeout 2 = 3 - 1) := by
  have hvalid : ∀ j t, relay_timers.get? j = some t → t.periodic = true →
      t.period_ms.tmod 100 = 0 := by
    intro j t hj _
    match j, hj with
    | 0, hj => cases hj; decide
    | 1, hj => cases hj; decide
    | 2, hj => cases hj; decide
    | n + 3, hj => simp [relay_timers] at hj
  constructor
  · obtain ⟨w1, fired, h, -, h0, h1⟩ := C30_same_tick_visibility 100 relay_timers 0 1
      { callback := fun _ w =>
          { w with timeout := fun j => if j = 2 then 3 else (timer_stop 1 w).timeout j },
        period_ms := 100, periodic := false }
      { callback := fun _ w => w, period_ms := 100, periodic := true }
      rfl rfl (by decide) hvalid
      (by intro j t hj; omega)
      (by
        intro j t hlt hne hj x w
        match j, hlt, hne, hj with
        | 0, hlt, _, _ => exact absurd hlt (by decide)
        | 1, _, hne, _ => exact absurd rfl hne
        | 2, _, _, hj => cases hj; rfl
        | n + 3, _, _, hj => simp [relay_timers] at hj)
      relay_world rfl
    obtain ⟨g1, g2⟩ := (h1 0 (fun _ _ => rfl)).1 rfl
    exact ⟨w1, fired, h, h0, g1, g2⟩
  · obtain ⟨w1, fired, h, -, -, h1⟩ := C30_same_tick_visibility 100 relay_timers 0 2
      { callback := fun _ w =>
          { w with timeout := fun j => if j = 2 then 3 else (timer_stop 1 w).timeout j },
        period_ms := 100, periodic := false }
      { callback := fun _ w => w, period_ms := 300, periodic := false }
      rfl rfl (by decide) hvalid
      (by intro j t hj; omega)
      (by
        intro j t hlt hne hj x w
        match j, hlt, hne, hj with
        | 0, hlt, _, _ => exact absurd hlt (by decide)
        | 1, _, _, hj => cases hj; rfl
        | 2, _, hne, _ => exact absurd rfl hne
        | n + 3, _, _, hj => simp [relay_timers] at hj)
      relay_world rfl
    obtain ⟨g1, g2⟩ := (h1 3 (fun _ _ => rfl)).2.1 (by decide) (by decide)
    exact ⟨w1, fired, h, g1, g2⟩

end WsTimers

namespace WsFfn

/-! ### PAS emission and stopped trickles -/

/-- C32: PAS emission.  When the PAS trickle is running and `trickle_timer`
reports a fire for these ticks, a call of `ws_ffn_pas_trickle` hands exactly
one PAN Advertisement Solicit to the LLC and counts exactly one transmission in
the PAS statistic (the statistic is updated by 1 before the request); in every
other case it does neither. -/
theorem C32_pas_emission {T : Type} (ops : trickle_ops T) (cur : mngt_if T) (ticks : Int) :
    (cur.mngt.trickle_pas_running = true ∧
        (ops.trickle_timer cur.mngt.trickle_pas ticks).2 = true →
      (calls_since cur.calls (ws_ffn_pas_trickle ops cur ticks).calls).count
          ffn_call.llc_asynch_request_pas = 1 ∧
      (calls_since cur.calls (ws_ffn_pas_trickle ops cur ticks).calls).count
          ffn_call.stats_update_tx_pas = 1 ∧
      calls_since cur.calls (ws_ffn_pas_trickle ops cur ticks).calls =
        [ffn_call.trickle_timer_pas true, ffn_call.stats_update_tx_pas,
          ffn_call.llc_asynch_request_pas]) ∧
    (¬ (cur.mngt.trickle_pas_running = true ∧
        (ops.trickle_timer cur.mngt.trickle_pas ticks).2 = true) →
      ffn_call.llc_asynch_request_pas ∉
        calls_since cur.calls (ws_ffn_pas_trickle ops cur ticks).calls ∧
      ffn_call.stats_update_tx_pas ∉
        calls_since cur.calls (ws_ffn_pas_trickle ops cur ticks).calls) := by
  rw [pas_trickle_calls]
  by_cases hr : cur.mngt.trickle_pas_running = true <;>
    by_cases hf : (ops.trickle_timer cur.mngt.trickle_pas ticks).2 = true <;>
    simp [hr, hf, List.count_cons]

/-- C32 at `both_running` with a trickle timer that always fires: one solicit,
one count. -/
theorem C32_pas_emission_witness :
    (calls_since both_running.calls
      (ws_ffn_pas_trickle always_fire both_running 1).calls).count
        ffn_call.llc_asynch_request_pas = 1 ∧
    (calls_since both_running.calls
      (ws_ffn_pas_trickle always_fire both_running 1).calls).count
        ffn_call.stats_update_tx_pas = 1 :=
  ⟨((C32_pas_emission always_fire both_running 1).1 ⟨rfl, rfl⟩).1,
   ((C32_pas_emission always_fire both_running 1).1 ⟨rfl, rfl⟩).2.1⟩

theorem pas_trickle_stopped {T : Type} (ops : trickle_ops T) (cur : mngt_if T) (ticks : Int)
    (h : cur.mngt.trickle_pas_running = false) : ws_ffn_pas_trickle ops cur ticks = cur := by
  unfold ws_ffn_pas_trickle
  simp [h]

theorem pcs_trickle_stopped {T : Type} (PCS_MAX : Nat) (ops : trickle_ops T) (cur : mngt_if T)
    (ticks : Int) (h : cur.mngt.trickle_pcs_running = false) :
    ws_ffn_pcs_trickle PCS_MAX ops cur ticks = cur := by
  unfold ws_ffn_pcs_trickle
  simp [h]

/-- With both trickles stopped, any succession of calls of the two entry
points returns the state it was given. -/
theorem trickle_tick_run_stopped {T : Type} (PCS_MAX : Nat) (ops : trickle_ops T)
    (l : List trickle_tick) :
    ∀ cur : mngt_if T, cur.mngt.trickle_pas_running = false →
      cur.mngt.trickle_pcs_running = false → trickle_tick_run PCS_MAX ops cur l = cur := by
  induction l with
  | nil => intro cur _ _; rfl
  | cons e rest ih =>
    intro cur h1 h2
    have hstep : trickle_tick_run PCS_MAX ops cur (e :: rest) =
        trickle_tick_run PCS_MAX ops cur rest := by
      cases e with
      | pas ticks =>
        simp only [trickle_tick_run, List.foldl_cons, pas_trickle_stopped ops cur ticks h1]
      | pcs ticks =>
        simp only [trickle_tick_run, List.foldl_cons,
          pcs_trickle_stopped PCS_MAX ops cur ticks h2]
    rw [hstep]
    exact ih cur h1 h2

/-- C33: after `ws_ffn_trickle_stop`, ticking is a no-op.  On the state left
by `ws_ffn_trickle_stop`, a call of `ws_ffn_pas_trickle` or of
`ws_ffn_pcs_trickle` with any ticks, and any succession of such calls, returns
the state unchanged: both trickle timers, `pcs_count`, `pcs_max_timeout`, the
running flags, and the log of collaborator calls, so that `trickle_timer` is
not consulted, nothing is handed to the LLC and discovery is not restarted. -/
theorem C33_stopped_trickle_is_noop {T : Type} (PCS_MAX : Nat) (ops : trickle_ops T)
    (cur : mngt_if T) :
    (∀ ticks, ws_ffn_pas_trickle ops { cur with mngt := ws_ffn_trickle_stop cur.mngt } ticks =
      { cur with mngt := ws_ffn_trickle_stop cur.mngt }) ∧
    (∀ ticks,
      ws_ffn_pcs_trickle PCS_MAX ops { cur with mngt := ws_ffn_trickle_stop cur.mngt } ticks =
        { cur with mngt := ws_ffn_trickle_stop cur.mngt }) ∧
    (∀ l : List trickle_tick,
      trickle_tick_run PCS_MAX ops { cur with mngt := ws_ffn_trickle_stop cur.mngt } l =
        { cur with mngt := ws_ffn_trickle_stop cur.mngt } ∧
      calls_since cur.calls
        (trickle_tick_run PCS_MAX ops { cur with mngt := ws_ffn_trickle_stop cur.mngt }
          l).calls = []) ∧
    (ws_ffn_trickle_stop cur.mngt).trickle_pas = cur.mngt.trickle_pas ∧
    (ws_ffn_trickle_stop cur.mngt).trickle_pcs = cur.mngt.trickle_pcs ∧
    (ws_ffn_trickle_stop cur.mngt).pcs_count = cur.mngt.pcs_count ∧
    (ws_ffn_trickle_stop cur.mngt).pcs_max_timeout = cur.mngt.pcs_max_timeout := by
  refine ⟨fun ticks => pas_trickle_stopped ops _ ticks rfl,
    fun ticks => pcs_trickle_stopped PCS_MAX ops _ ticks rfl, fun l => ?_, rfl, rfl, rfl, rfl⟩
  rw [trickle_tick_run_stopped PCS_MAX ops l _ rfl rfl]
  exact ⟨rfl, calls_since_self _⟩

/-- C33 at `both_running` with a trickle timer that always fires: after
`ws_ffn_trickle_stop` three calls log nothing, where without the stop a single
call does. -/
theorem C33_stopped_trickle_is_noop_witness :
    (trickle_tick_run 3 always_fire
      { both_running with mngt := ws_ffn_trickle_stop both_running.mngt }
      [trickle_tick.pas 1, trickle_tick.pcs 1, trickle_tick.pcs 200]).calls = [] ∧
    (trickle_tick_run 3 always_fire both_running [trickle_tick.pas 1]).calls ≠ [] :=
  ⟨by rw [((C33_stopped_trickle_is_noop 3 always_fire both_running).2.2.1 _).1]; rfl,
   by decide⟩

end WsFfn

namespace WsFfn

/-! ### The address registration and BSI countdowns -/

theorem seconds_timer_bsi_frame {E : Type} (cur : seconds_if E) (seconds : Nat) :
    (seconds_timer_bsi cur seconds).info.aro_registration_timer =
      cur.info.aro_registration_timer ∧
    (seconds_timer_bsi cur seconds).info.pan_timeout_timer = cur.info.pan_timeout_timer ∧
    (seconds_timer_bsi cur seconds).calls = cur.calls := by
  unfold seconds_timer_bsi
  split_ifs <;> exact ⟨rfl, rfl, rfl⟩

/-- The address registration block for a running timer, with no assumption on
`ws_address_registration_update`. -/
theorem seconds_timer_aro_running {E : Type} (ops : seconds_ops E) (cur : seconds_if E)
    (seconds : Nat) (h0 : cur.info.aro_registration_timer ≠ 0) :
    (cur.info.aro_registration_timer > seconds →
      seconds_timer_aro ops cur seconds =
        { cur with info := { cur.info with
            aro_registration_timer :=
              ((cur.info.aro_registration_timer - seconds) % 4294967296) % 65536 } }) ∧
    (cur.info.aro_registration_timer ≤ seconds →
      seconds_timer_aro ops cur seconds =
        { info := ops.ws_address_registration_update
            { cur.info with aro_registration_timer := 0 },
          calls := cur.calls ++ [ffn_call.address_registration_update] }) := by
  unfold seconds_timer_aro
  constructor
  · intro h; rw [if_pos h0, if_pos h]
  · intro h; rw [if_pos h0, if_neg (by omega)]

theorem pan_block_calls_no_update (t p s : Nat) :
    ffn_call.address_registration_update ∉ pan_block_calls t p s := by
  unfold pan_block_calls
  split_ifs <;> simp

/-- C34: the address registration countdown.  With a running
`aro_registration_timer` holding `A` (a 16-bit value, `A > 0`) that the two
collaborators of the PAN timeout block do not write: if `A > seconds` the
timer becomes `A - seconds` and `ws_address_registration_update` is not
called; otherwise it is called exactly once, on the interface in which the
timer has already been set to 0, and the timer after the call of
`ws_bootstrap_ffn_seconds_timer` is the one this collaborator left, whatever
it is. -/
theorem C34_aro_countdown {E : Type} (ops : seconds_ops E) (cur : seconds_if E)
    (seconds : Nat) (h1 : keeps_counters ops.rpl_control_dao_timeout)
    (h2 : keeps_counters ops.ws_bootstrap_event_disconnect)
    (hA : 0 < cur.info.aro_registration_timer) (hrange : cur.info.aro_registration_timer < 65536) :
    (cur.info.aro_registration_timer > seconds →
      (ws_bootstrap_ffn_seconds_timer ops cur seconds).info.aro_registration_timer =
        cur.info.aro_registration_timer - seconds ∧
      ffn_call.address_registration_update ∉
        calls_since cur.calls (ws_bootstrap_ffn_seconds_timer ops cur seconds).calls) ∧
    (cur.info.aro_registration_timer ≤ seconds →
      (calls_since cur.calls (ws_bootstrap_ffn_seconds_timer ops cur seconds).calls).count
        ffn_call.address_registration_update = 1 ∧
      (ws_bootstrap_ffn_seconds_timer ops cur seconds).info.aro_registration_timer =
        (ops.ws_address_registration_update
          { (seconds_timer_pan ops cur seconds).info with
            aro_registration_timer := 0 }).aro_registration_timer) := by
  obtain ⟨-, a2, -, a4⟩ := seconds_timer_pan_spec ops cur seconds h1 h2
  have h0 : (seconds_timer_pan ops cur seconds).info.aro_registration_timer ≠ 0 := by
    rw [a2]; omega
  obtain ⟨b1, b2⟩ := seconds_timer_aro_running ops (seconds_timer_pan ops cur seconds) seconds h0
  obtain ⟨c1, -, c3⟩ :=
    seconds_timer_bsi_frame (seconds_timer_aro ops (seconds_timer_pan ops cur seconds) seconds)
      seconds
  have hno := pan_block_calls_no_update cur.info.pan_timeout_timer cur.info.pan_timeout seconds
  unfold ws_bootstrap_ffn_seconds_timer
  rw [c1, c3]
  constructor
  · intro h
    rw [b1 (by rw [a2]; exact h)]
    simp only [a2, a4, calls_since_append]
    refine ⟨?_, hno⟩
    have e1 : (cur.info.aro_registration_timer - seconds) % 4294967296 =
        cur.info.aro_registration_timer - seconds := Nat.mod_eq_of_lt (by omega)
    rw [e1]
    exact Nat.mod_eq_of_lt (by omega)
  · intro h
    rw [b2 (by rw [a2]; exact h)]
    simp only [a4, List.append_assoc, calls_since_append]
    refine ⟨?_, trivial⟩
    rw [List.count_append, List.count_eq_zero_of_not_mem hno]
    simp

/-- C34 with a `ws_address_registration_update` that sets the timer to 120 s:
from 30 s a call with 60 s requests one sweep and leaves the timer at 120 s;
from 90 s it leaves 30 s and requests none. -/
theorem C34_aro_countdown_witness :
    (ws_bootstrap_ffn_seconds_timer rearming_seconds_ops (seconds_start 0 30 0)
      60).info.aro_registration_timer = 120 ∧
    (calls_since (seconds_start 0 30 0).calls
      (ws_bootstrap_ffn_seconds_timer rearming_seconds_ops (seconds_start 0 30 0) 60).calls).count
        ffn_call.address_registration_update = 1 ∧
    (ws_bootstrap_ffn_seconds_timer rearming_seconds_ops (seconds_start 0 90 0)
      60).info.aro_registration_timer = 90 - 60 := by
  have k1 : keeps_counters rearming_seconds_ops.rpl_control_dao_timeout :=
    fun _ => ⟨rfl, rfl, rfl⟩
  have k2 : keeps_counters rearming_seconds_ops.ws_bootstrap_event_disconnect :=
    fun _ => ⟨rfl, rfl, rfl⟩
  obtain ⟨g1, g3⟩ :=
    (C34_aro_countdown rearming_seconds_ops (seconds_start 0 30 0) 60 k1 k2
      (by decide) (by decide)).2 (by decide)
  refine ⟨by rw [g3]; rfl, g1, ?_⟩
  exact ((C34_aro_countdown rearming_seconds_ops (seconds_start 0 90 0) 60 k1 k2
    (by decide) (by decide)).1 (by decide)).1

/-- C35: the BSI block countdown.  With collaborators that do not write
`ws_bsi_block` (the address registration update may re-arm its own timer) and
a running `ws_bsi_block.block_time` holding `B` (a 32-bit value, `B > 0`): if
`B > seconds` the block time becomes `B - seconds` and `old_bsi` is unchanged;
otherwise both the block time and `old_bsi` become 0. -/
theorem C35_bsi_block_countdown {E : Type} (ops : seconds_ops E) (cur : seconds_if E)
    (seconds : Nat) (h1 : keeps_bsi_block ops.rpl_control_dao_timeout)
    (h2 : keeps_bsi_block ops.ws_bootstrap_event_disconnect)
    (h3 : keeps_bsi_block ops.ws_address_registration_update)
    (hB : 0 < cur.info.ws_bsi_block.block_time)
    (hrange : cur.info.ws_bsi_block.block_time < 4294967296) :
    (cur.info.ws_bsi_block.block_time > seconds →
      (ws_bootstrap_ffn_seconds_timer ops cur seconds).info.ws_bsi_block.block_time =
        cur.info.ws_bsi_block.block_time - seconds ∧
      (ws_bootstrap_ffn_seconds_timer ops cur seconds).info.ws_bsi_block.old_bsi =
        cur.info.ws_bsi_block.old_bsi) ∧
    (cur.info.ws_bsi_block.block_time ≤ seconds →
      (ws_bootstrap_ffn_seconds_timer ops cur seconds).info.ws_bsi_block.block_time = 0 ∧
      (ws_bootstrap_ffn_seconds_timer ops cur seconds).info.ws_bsi_block.old_bsi = 0) := by
  have a := seconds_timer_pan_bsi ops cur seconds h1 h2
  obtain ⟨-, -, b⟩ := seconds_timer_aro_calls ops (seconds_timer_pan ops cur seconds) seconds
  obtain ⟨-, -, c3, c4, -⟩ :=
    seconds_timer_bsi_spec (seconds_timer_aro ops (seconds_timer_pan ops cur seconds) seconds)
      seconds
  have e3 : (ws_bootstrap_ffn_seconds_timer ops cur seconds).info.ws_bsi_block.block_time =
      countdown32 cur.info.ws_bsi_block.block_time seconds := by
    unfold ws_bootstrap_ffn_seconds_timer
    rw [c3, b h3, a]
  have e4 : (ws_bootstrap_ffn_seconds_timer ops cur seconds).info.ws_bsi_block.old_bsi =
      (if cur.info.ws_bsi_block.block_time ≠ 0 ∧ ¬ cur.info.ws_bsi_block.block_time > seconds
        then 0 else cur.info.ws_bsi_block.old_bsi) := by
    unfold ws_bootstrap_ffn_seconds_timer
    rw [c4, b h3, a]
  have h0 : cur.info.ws_bsi_block.block_time ≠ 0 := by omega
  rw [e3, e4]
  unfold countdown32
  constructor
  · intro h
    rw [if_pos h0, if_pos h, if_neg (by simp [h])]
    exact ⟨Nat.mod_eq_of_lt (by omega), rfl⟩
  · intro h
    rw [if_pos h0, if_neg (by omega), if_pos ⟨h0, by omega⟩]
    exact ⟨rfl, rfl⟩

/-- C35 with the blocked identifier 7 and a `ws_address_registration_update`
that re-arms its timer to 120 s, the address registration timer (2 s) expiring
in the same call: from 10 s a call with 4 s leaves 6 s and the identifier; from
3 s it clears both. -/
theorem C35_bsi_block_countdown_witness :
    (ws_bootstrap_ffn_seconds_timer rearming_seconds_ops (seconds_start 0 2 10)
      4).info.ws_bsi_block = { block_time := 10 - 4, old_bsi := 7 } ∧
    (ws_bootstrap_ffn_seconds_timer rearming_seconds_ops (seconds_start 0 2 10)
      4).info.aro_registration_timer = 120 ∧
    (ws_bootstrap_ffn_seconds_timer rearming_seconds_ops (seconds_start 0 2 3)
      4).info.ws_bsi_block = { block_time := 0, old_bsi := 0 } := by
  obtain ⟨g1, g2⟩ := (C35_bsi_block_countdown rearming_seconds_ops (seconds_start 0 2 10) 4
    (fun _ => rfl) (fun _ => rfl) (fun _ => rfl) (by decide) (by decide)).1 (by decide)
  obtain ⟨g3, g4⟩ := (C35_bsi_block_countdown rearming_seconds_ops (seconds_start 0 2 3) 4
    (fun _ => rfl) (fun _ => rfl) (fun _ => rfl) (by decide) (by decide)).2 (by decide)
  refine ⟨?_, by decide, ?_⟩
  · cases hb : (ws_bootstrap_ffn_seconds_timer rearming_seconds_ops (seconds_start 0 2 10)
      4).info.ws_bsi_block with
    | mk bt ob =>
      rw [hb] at g1 g2
      simp only at g1 g2
      rw [g1, g2]; rfl
  · cases hb : (ws_bootstrap_ffn_seconds_timer rearming_seconds_ops (seconds_start 0 2 3)
      4).info.ws_bsi_block with
    | mk bt ob =>
      rw [hb] at g3 g4
      simp only at g3 g4
      rw [g3, g4]

end WsFfn

namespace WsFfn

/-! ### The retry when the bind fails -/

/-- The fields of the interface written by `ws_bootstrap_ffn_neighbor_set`
before the collaborators are called. -/
theorem neighbor_set_pan (cur : net_if) (p : Nat) (clear_list g a : Bool) :
    (ws_bootstrap_ffn_neighbor_set cur p clear_list g a).1.network_pan_id =
      (cur.parents.pool p).pan_id ∧
    (ws_bootstrap_ffn_neighbor_set cur p clear_list g a).1.pan_information =
      { pan_size := (cur.parents.pool p).pan_size,
        routing_cost := (cur.parents.pool p).routing_cost,
        use_parent_bs := (cur.parents.pool p).use_parent_bs,
        pan_version := 0, lpan_version := 0 } := by
  unfold ws_bootstrap_ffn_neighbor_set
  cases g <;> cases a <;> cases clear_list <;>
    by_cases hp : cur.network_pan_id = (cur.parents.pool p).pan_id <;> simp [hp]

/-- C38: the retry is not atomic when the bind fails.  If `get_best` on the
table left by `mark_failure (previous_eui_64)` returns `h` and neither
`ws_bootstrap_neighbor_get` nor `ws_bootstrap_neighbor_add` succeeds, then
`ws_bootstrap_authentication_next_target` still returns the pointer to the
address field of `h` and writes the PAN id of `h` to `*pan_id`, although this
call has unlinked `h` from the reserved list and linked it at the end of the
free list, and the network PAN id and the PAN information of the interface
hold the values of `h` (both versions 0). -/
theorem C38_bind_failure_not_atomic (w1 w2 : Nat) (cur : net_if) (prev pan_id h : Nat)
    (hbest : ws_bootstrap_ffn_candidate_parent_get_best
      (ws_bootstrap_ffn_candidate_parent_mark_failure w1 w2 cur.parents prev) = some h) :
    (ws_bootstrap_authentication_next_target w1 w2 cur prev pan_id false false).2.1 =
      auth_target.parent_addr h ∧
    auth_target_bytes (ws_bootstrap_authentication_next_target w1 w2 cur prev pan_id false false).1
      prev (ws_bootstrap_authentication_next_target w1 w2 cur prev pan_id false false).2.1 =
      ((ws_bootstrap_ffn_candidate_parent_mark_failure w1 w2 cur.parents prev).pool h).addr ∧
    (ws_bootstrap_authentication_next_target w1 w2 cur prev pan_id false false).2.2 =
      ((ws_bootstrap_ffn_candidate_parent_mark_failure w1 w2 cur.parents prev).pool h).pan_id ∧
    h ∈ (ws_bootstrap_ffn_candidate_parent_mark_failure w1 w2 cur.parents
      prev).parent_list_reserved ∧
    (ws_bootstrap_authentication_next_target w1 w2 cur prev pan_id
        false false).1.parents.parent_list_reserved =
      ns_list_remove (ws_bootstrap_ffn_candidate_parent_mark_failure w1 w2 cur.parents
        prev).parent_list_reserved h ∧
    ((ws_bootstrap_ffn_candidate_parent_mark_failure w1 w2 cur.parents
        prev).parent_list_reserved.Nodup →
      h ∉ (ws_bootstrap_authentication_next_target w1 w2 cur prev pan_id
        false false).1.parents.parent_list_reserved) ∧
    (ws_bootstrap_authentication_next_target w1 w2 cur prev pan_id
        false false).1.parents.parent_list_free =
      (ws_bootstrap_ffn_candidate_parent_mark_failure w1 w2 cur.parents
        prev).parent_list_free ++ [h] ∧
    (ws_bootstrap_authentication_next_target w1 w2 cur prev pan_id
        false false).1.network_pan_id =
      ((ws_bootstrap_ffn_candidate_parent_mark_failure w1 w2 cur.parents prev).pool h).pan_id ∧
    (ws_bootstrap_authentication_next_target w1 w2 cur prev pan_id
        false false).1.pan_information =
      { pan_size :=
          ((ws_bootstrap_ffn_candidate_parent_mark_failure w1 w2 cur.parents prev).pool h).pan_size,
        routing_cost :=
          ((ws_bootstrap_ffn_candidate_parent_mark_failure w1 w2 cur.parents
            prev).pool h).routing_cost,
        use_parent_bs :=
          ((ws_bootstrap_ffn_candidate_parent_mark_failure w1 w2 cur.parents
            prev).pool h).use_parent_bs,
        pan_version := 0, lpan_version := 0 } := by
  have hmem : h ∈ (ws_bootstrap_ffn_candidate_parent_mark_failure w1 w2 cur.parents
      prev).parent_list_reserved := by
    unfold ws_bootstrap_ffn_candidate_parent_get_best ns_list_get_first at hbest
    exact List.mem_of_mem_head? hbest
  rw [next_target_some w1 w2 cur prev pan_id false false h hbest]
  simp only [neighbor_set_parents, neighbor_set_pan, and_self, if_true, neighbor_set_evict,
    ns_list_add_to_end, auth_target_bytes, true_and, and_true]
  refine ⟨hmem, ?_⟩
  intro hnd
  unfold ns_list_remove
  exact fun hc => (List.Nodup.mem_erase_iff hnd).mp hc |>.1 rfl

/-- C38 at `bind_net_if` with `previous_eui_64` not resident and both
collaborator calls failing: the retry returns slot 0 and its PAN id 100, with
slot 0 now at the end of the free list and the interface already on PAN 100. -/
theorem C38_bind_failure_not_atomic_witness :
    (ws_bootstrap_authentication_next_target 256 64 bind_net_if 99 7 false false).2.1 =
      auth_target.parent_addr 0 ∧
    (ws_bootstrap_authentication_next_target 256 64 bind_net_if 99 7 false false).2.2 = 100 ∧
    (ws_bootstrap_authentication_next_target 256 64 bind_net_if 99 7
      false false).1.parents.parent_list_reserved = [1] ∧
    (ws_bootstrap_authentication_next_target 256 64 bind_net_if 99 7
      false false).1.parents.parent_list_free = [2, 3, 0] ∧
    (ws_bootstrap_authentication_next_target 256 64 bind_net_if 99 7
      false false).1.network_pan_id = 100 := by
  obtain ⟨g1, -, g3, -, g5, -, g7, g8, -⟩ :=
    C38_bind_failure_not_atomic 256 64 bind_net_if 99 7 0 (by decide)
  exact ⟨g1, by rw [g3]; decide, by rw [g5]; decide, by rw [g7]; decide, by rw [g8]; decide⟩

/-! ### Saturation of the countdowns -/

end WsFfn

namespace WsTimers

/-! ### Stopping a timer -/

/-- The loop seen from a dormant timer `k` that no other callback writes: it
returns, `k` stays dormant and is not invoked. -/
theorem tick_loop_dormant {E : Type} (G : Int) (s_timers : List (timer_entry E)) (k : Nat)
    (hvalid : ∀ j t, s_timers.get? j = some t → t.periodic = true → t.period_ms.tmod G = 0)
    (hcb : ∀ j t, j ≠ k → s_timers.get? j = some t →
      ∀ x w, (t.callback x w).timeout k = w.timeout k) :
    ∀ (l : List Nat) (st : timer_world E × List Nat), st.1.timeout k = 0 →
      ∃ st1, timer_tick_loop G s_timers l st = some st1 ∧
        st1.1.timeout k = 0 ∧ st1.2.count k = st.2.count k := by
  intro l
  induction l with
  | nil => intro st h0; exact ⟨st, rfl, h0, rfl⟩
  | cons i rest ih =>
    intro st h0
    by_cases hik : i = k
    · have hstep : timer_tick_step G s_timers i st = some st := by
        unfold timer_tick_step
        rw [hik]
        cases s_timers.get? k with
        | none => rfl
        | some t => simp only [h0, if_true]
      obtain ⟨st2, g1, g2, g3⟩ := ih st h0
      exact ⟨st2, by simp only [timer_tick_loop, hstep, g1], g2, g3⟩
    · obtain ⟨st1, a1, a2, a3⟩ := tick_step_other G s_timers k i hik hvalid hcb st
      obtain ⟨st2, g1, g2, g3⟩ := ih st1 (by rw [a2]; exact h0)
      exact ⟨st2, by simp only [timer_tick_loop, a1, g1], g2, by rw [g3, a3]⟩

/-- A run of ticks seen from a dormant timer `k` that no other callback
writes. -/
theorem timer_run_dormant {E : Type} (G : Int) (s_timers : List (timer_entry E)) (k : Nat)
    (hvalid : ∀ j t, s_timers.get? j = some t → t.periodic = true → t.period_ms.tmod G = 0)
    (hcb : ∀ j t, j ≠ k → s_timers.get? j = some t →
      ∀ x w, (t.callback x w).timeout k = w.timeout k) :
    ∀ (N : Nat) (w : timer_world E), w.timeout k = 0 →
      ∃ w1 log, timer_run G s_timers N w = some (w1, log) ∧ log.length = N ∧
        w1.timeout k = 0 ∧ ∀ fired ∈ log, k ∉ fired := by
  intro N
  induction N with
  | zero => intro w h0; exact ⟨w, [], rfl, rfl, h0, by simp⟩
  | succ n ih =>
    intro w h0
    obtain ⟨st1, a1, a2, a3⟩ :=
      tick_loop_dormant G s_timers k hvalid hcb (List.range s_timers.length) (w, []) h0
    obtain ⟨w2, log, b1, b2, b3, b4⟩ := ih st1.1 a2
    have htick : timer_global_tick G s_timers w = some (st1.1, st1.2) := a1
    refine ⟨w2, st1.2 :: log, ?_, by simp [b2], b3, ?_⟩
    · simp only [timer_run, htick, b1]
    · intro fired hf
      rcases List.mem_cons.mp hf with h | h
      · rw [h]
        have : st1.2.count k = 0 := by rw [a3]; rfl
        exact List.count_eq_zero.mp this
      · exact b4 fired h

/-- C31: `timer_stop` is idempotent and safe on a dormant timer.  `timer_stop`
sets the countdown of `id` to 0 and changes no other countdown and nothing
else of the state; a second `timer_stop` changes nothing more; on a dormant
timer it is the identity; and in any table with valid periods in which no
callback of another timer writes the countdown of `id`, every run of ticks
after the stop returns with `id` still dormant and without an invocation of
its callback. -/
theorem C31_timer_stop_idempotent {E : Type} (id : Nat) (w : timer_world E) :
    (timer_stop id w).timeout id = 0 ∧
    (∀ j, j ≠ id → (timer_stop id w).timeout j = w.timeout j) ∧
    (timer_stop id w).env = w.env ∧
    timer_stop id (timer_stop id w) = timer_stop id w ∧
    (w.timeout id = 0 → timer_stop id w = w) ∧
    (∀ (TIMER_GLOBAL_PERIOD_MS : Int) (s_timers : List (timer_entry E)),
      (∀ j t, s_timers.get? j = some t → t.periodic = true →
        t.period_ms.tmod TIMER_GLOBAL_PERIOD_MS = 0) →
      (∀ j t, j ≠ id → s_timers.get? j = some t →
        ∀ x wa, (t.callback x wa).timeout id = wa.timeout id) →
      ∀ N, ∃ w1 log,
        timer_run TIMER_GLOBAL_PERIOD_MS s_timers N (timer_stop id w) = some (w1, log) ∧
        log.length = N ∧ w1.timeout id = 0 ∧ ∀ fired ∈ log, id ∉ fired) := by
  refine ⟨by simp [timer_stop], fun j hj => by simp [timer_stop, hj], rfl, ?_, ?_, ?_⟩
  · unfold timer_stop
    congr 1
    funext j
    by_cases hj : j = id <;> simp [hj]
  · intro h0
    unfold timer_stop
    cases w with
    | mk timeout env =>
      congr 1
      funext j
      by_cases hj : j = id
      · rw [hj]; simp only [if_true]; exact h0.symm
      · simp [hj]
  · intro G s_timers hvalid hcb N
    exact timer_run_dormant G s_timers id hvalid hcb N (timer_stop id w) (by simp [timer_stop])

/-- C31 at `demo_timers` with timer 1 (periodic, 100 ms) about to start its
period: once stopped it stays dormant over 5 ticks, and none of the 5 ticks
invokes it. -/
theorem C31_timer_stop_idempotent_witness :
    ∃ w1 log, timer_run 100 demo_timers 5
        (timer_stop 1 { timeout := fun _ => 1, env := 0 }) = some (w1, log) ∧
      log.length = 5 ∧ w1.timeout 1 = 0 ∧ ∀ fired ∈ log, 1 ∉ fired :=
  (C31_timer_stop_idempotent 1 { timeout := fun _ => 1, env := 0 }).2.2.2.2.2 100 demo_timers
    (by
      intro j t hj _
      match j, hj with
      | 0, hj => cases hj; decide
      | 1, hj => cases hj; decide
      | n + 2, hj => simp [demo_timers] at hj)
    (by
      intro j t _ hj x w
      match j, hj with
      | 0, hj => cases hj; rfl
      | 1, hj => cases hj; rfl
      | n + 2, hj => simp [demo_timers] at hj)
    5

/-- One tick seen from a timer `k` whose countdown is 1 and that no other
callback writes. -/
theorem global_tick_expiring {E : Type} (G : Int) (s_timers : List (timer_entry E)) (k : Nat)
    (t : timer_entry E) (hk : s_timers.get? k = some t)
    (hvalid : ∀ j t, s_timers.get? j = some t → t.periodic = true → t.period_ms.tmod G = 0)
    (hcb : ∀ j t, j ≠ k → s_timers.get? j = some t →
      ∀ x w, (t.callback x w).timeout k = w.timeout k)
    (w : timer_world E) (h1 : w.timeout k = 1) :
    ∃ w1 fired, timer_global_tick G s_timers w = some (w1, fired) ∧ fired.count k = 1 ∧
      (t.periodic = true → w1.timeout k = t.period_ms.tdiv G) ∧
      (t.periodic = false →
        ∃ wa : timer_world E, wa.timeout k = 0 ∧ w1.timeout k = (t.callback 1 wa).timeout k) := by
  have hklt : k < s_timers.length := by
    rcases Nat.lt_or_ge k s_timers.length with h | h
    · exact h
    · rw [List.get?_eq_none.mpr h] at hk; exact absurd hk (by simp)
  obtain ⟨l1, l2, hsplit⟩ := List.append_of_mem (List.mem_range.mpr hklt)
  have hnd : (l1 ++ k :: l2).Nodup := hsplit ▸ List.nodup_range _
  have hk1 : k ∉ l1 := fun h => (List.nodup_append.mp hnd).2.2 h (List.mem_cons_self _ _)
  have hk2 : k ∉ l2 := (List.nodup_cons.mp (List.nodup_append.mp hnd).2.1).1
  unfold timer_global_tick
  rw [hsplit, tick_loop_append]
  obtain ⟨sa, a1, a2, a3⟩ := tick_loop_other G s_timers k hvalid hcb l1 hk1 (w, [])
  rw [a1]
  simp only [Option.some_bind, timer_tick_loop]
  obtain ⟨sb, b1, -, -, b4⟩ := tick_step_at G s_timers k t hk (hvalid k t hk) sa
  rw [b1]
  obtain ⟨sc, c1, c2, c3⟩ := tick_loop_other G s_timers k hvalid hcb l2 hk2 sb
  simp only [c1]
  have a2w : sa.1.timeout k = 1 := by rw [a2]; exact h1
  have a3w : sa.2.count k = 0 := by rw [a3]; rfl
  obtain ⟨e1, e2, e3⟩ := b4 a2w
  refine ⟨sc.1, sc.2, rfl, ?_, ?_, ?_⟩
  · rw [c3, e1, List.count_append, a3w]; simp
  · intro hp; rw [c2, e2 hp]
  · intro hp
    refine ⟨{ sa.1 with timeout := fun j => if j = k then 0 else sa.1.timeout j }, by simp, ?_⟩
    rw [c2, e3 hp]

/-- C37: a periodic timer cannot stop itself from inside its own callback.
For a timer `k` whose countdown is 1 at a call of `timer_global_tick` (and
that no other callback writes): if `k` is periodic, its callback is invoked
once and the countdown after the call is `period_ms / TIMER_GLOBAL_PERIOD_MS`,
whatever the callback did, a `timer_stop` of `k` included; if `k` is one-shot
and its callback stops it (or any callback that leaves its countdown at 0),
the countdown after the call is 0.  A `timer_stop` issued before the call
leaves `k` dormant after the call without an invocation, periodic or not. -/
theorem C37_periodic_cannot_stop_itself {E : Type} (TIMER_GLOBAL_PERIOD_MS : Int)
    (s_timers : List (timer_entry E)) (k : Nat) (t : timer_entry E)
    (hk : s_timers.get? k = some t)
    (hvalid : ∀ j t, s_timers.get? j = some t → t.periodic = true →
      t.period_ms.tmod TIMER_GLOBAL_PERIOD_MS = 0)
    (hcb : ∀ j t, j ≠ k → s_timers.get? j = some t →
      ∀ x w, (t.callback x w).timeout k = w.timeout k)
    (w : timer_world E) :
    (t.periodic = true → w.timeout k = 1 →
      ∃ w1 fired, timer_global_tick TIMER_GLOBAL_PERIOD_MS s_timers w = some (w1, fired) ∧
        fired.count k = 1 ∧ w1.timeout k = t.period_ms.tdiv TIMER_GLOBAL_PERIOD_MS) ∧
    (t.periodic = false → w.timeout k = 1 →
      (∀ x wa, wa.timeout k = 0 → (t.callback x wa).timeout k = 0) →
      ∃ w1 fired, timer_global_tick TIMER_GLOBAL_PERIOD_MS s_timers w = some (w1, fired) ∧
        fired.count k = 1 ∧ w1.timeout k = 0) ∧
    (∃ w1 fired,
      timer_global_tick TIMER_GLOBAL_PERIOD_MS s_timers (timer_stop k w) = some (w1, fired) ∧
        k ∉ fired ∧ w1.timeout k = 0) := by
  refine ⟨?_, ?_, ?_⟩
  · intro hp h1
    obtain ⟨w1, fired, g1, g2, g3, -⟩ :=
      global_tick_expiring TIMER_GLOBAL_PERIOD_MS s_timers k t hk hvalid hcb w h1
    exact ⟨w1, fired, g1, g2, g3 hp⟩
  · intro hp h1 hown
    obtain ⟨w1, fired, g1, g2, -, g4⟩ :=
      global_tick_expiring TIMER_GLOBAL_PERIOD_MS s_timers k t hk hvalid hcb w h1
    obtain ⟨wa, ha, hw1⟩ := g4 hp
    exact ⟨w1, fired, g1, g2, by rw [hw1, hown 1 wa ha]⟩
  · obtain ⟨st1, a1, a2, a3⟩ :=
      tick_loop_dormant TIMER_GLOBAL_PERIOD_MS s_timers k hvalid hcb
        (List.range s_timers.length) (timer_stop k w, []) (by simp [timer_stop])
    refine ⟨st1.1, st1.2, a1, ?_, a2⟩
    have : st1.2.count k = 0 := by rw [a3]; rfl
    exact List.count_eq_zero.mp this

/-- C37 at `selfstop_timers` with base period 100 ms, both timers about to
expire and both callbacks calling `timer_stop` on their own timer: after the
tick the periodic timer 0 is armed again with countdown 3, the one-shot timer
1 is dormant. -/
theorem C37_periodic_cannot_stop_itself_witness :
    (∃ w1 fired, timer_global_tick 100 selfstop_timers both_expiring = some (w1, fired) ∧
      fired.count 0 = 1 ∧ w1.timeout 0 = 3) ∧
    (∃ w1 fired, timer_global_tick 100 selfstop_timers both_expiring = some (w1, fired) ∧
      fired.count 1 = 1 ∧ w1.timeout 1 = 0) := by
  have hvalid : ∀ j t, selfstop_timers.get? j = some t → t.periodic = true →
      t.period_ms.tmod 100 = 0 := by
    intro j t hj _
    match j, hj with
    | 0, hj => cases hj; decide
    | 1, hj => cases hj; decide
    | n + 2, hj => simp [selfstop_timers] at hj
  constructor
  · obtain ⟨w1, fired, g1, g2, g3⟩ := (C37_periodic_cannot_stop_itself 100 selfstop_timers 0
      { callback := fun _ w => timer_stop 0 w, period_ms := 300, periodic := true }
      rfl hvalid
      (by
        intro j t hne hj x w
        match j, hne, hj with
        | 0, hne, _ => exact absurd rfl hne
        | 1, _, hj => cases hj; rfl
        | n + 2, _, hj => simp [selfstop_timers] at hj)
      both_expiring).1 rfl rfl
    exact ⟨w1, fired, g1, g2, by rw [g3]; decide⟩
  · exact (C37_periodic_cannot_stop_itself 100 selfstop_timers 1
      { callback := fun _ w => timer_stop 1 w, period_ms := 300, periodic := false }
      rfl hvalid
      (by
        intro j t hne hj x w
        match j, hne, hj with
        | 0, _, hj => cases hj; rfl
        | 1, hne, _ => exact absurd rfl hne
        | n + 2, _, hj => simp [selfstop_timers] at hj)
      both_expiring).2.1 rfl rfl (fun _ _ _ => by simp [timer_stop])

end WsTimers

namespace TrickleTimer

/-! ### The interval bound -/

theorem draw_range (I r : Nat) : ((I / 2 : Nat) : Int) ≤ draw I r ∧ draw I r ≤ (I : Int) := by
  unfold draw
  have h : r % (I - I / 2 + 1) < I - I / 2 + 1 := Nat.mod_lt r (by omega)
  have h2 : I / 2 ≤ I := Nat.div_le_self I 2
  constructor <;> omega

theorem apply_op_params (s : trickle_t) (op : trickle_op) :
    (apply_op s op).Imin = s.Imin ∧ (apply_op s op).Imax = s.Imax ∧ (apply_op s op).k = s.k := by
  cases op with
  | start r => exact ⟨rfl, rfl, rfl⟩
  | tick n r =>
    simp only [apply_op, tick]
    split_ifs <;> exact ⟨rfl, rfl, rfl⟩
  | heard_transmission => exact ⟨rfl, rfl, rfl⟩
  | heard_inconsistency r => exact ⟨rfl, rfl, rfl⟩
  | stop => exact ⟨rfl, rfl, rfl⟩

theorem apply_op_bounded (s : trickle_t) (op : trickle_op) (h : interval_bounded s) :
    interval_bounded (apply_op s op) := by
  have hpow : 1 ≤ 2 ^ s.Imax := Nat.one_le_two_pow
  have hcap : s.Imin ≤ s.Imin * 2 ^ s.Imax := Nat.le_mul_of_pos_right _ hpow
  obtain ⟨h1, h2⟩ := h
  cases op with
  | start r => exact ⟨Nat.le_refl _, hcap⟩
  | tick n r =>
    simp only [apply_op, tick, interval_bounded]
    split_ifs
    · exact ⟨by simp only [Nat.le_min]; exact ⟨by omega, hcap⟩, Nat.min_le_right _ _⟩
    · exact ⟨h1, h2⟩
    · exact ⟨h1, h2⟩
  | heard_transmission => exact ⟨h1, h2⟩
  | heard_inconsistency r => exact ⟨Nat.le_refl _, hcap⟩
  | stop => exact ⟨h1, h2⟩

theorem run_params (ops : List trickle_op) :
    ∀ s : trickle_t, (run s ops).Imin = s.Imin ∧ (run s ops).Imax = s.Imax ∧
      (run s ops).k = s.k := by
  induction ops with
  | nil => intro s; exact ⟨rfl, rfl, rfl⟩
  | cons op rest ih =>
    intro s
    obtain ⟨a1, a2, a3⟩ := ih (apply_op s op)
    obtain ⟨b1, b2, b3⟩ := apply_op_params s op
    exact ⟨a1.trans b1, a2.trans b2, a3.trans b3⟩

theorem run_bounded (ops : List trickle_op) :
    ∀ s : trickle_t, interval_bounded s → interval_bounded (run s ops) := by
  induction ops with
  | nil => intro s h; exact h
  | cons op rest ih => intro s h; exact ih (apply_op s op) (apply_op_bounded s op h)

theorem start_bounded (s : trickle_t) (r : Nat) : interval_bounded (start s r) :=
  ⟨Nat.le_refl _, Nat.le_mul_of_pos_right _ Nat.one_le_two_pow⟩

/-- C36: the trickle interval bound.  For a trickle timer that satisfies
`Imin ≤ I ≤ Imin * 2 ^ Imax`, and for any trickle timer once `start` has been
called, the bound holds after every sequence of `start`, `tick`,
`heard_transmission`, `heard_inconsistency` and `stop`, with `Imin`, `Imax`
and `k` as they were; and immediately after `heard_inconsistency`, at any
point of such a sequence, `I` equals `Imin` and `t` lies in
`[Imin / 2, Imin]`. -/
theorem C36_trickle_interval_bound (s : trickle_t) (ops : List trickle_op) :
    (interval_bounded s →
      (run s ops).Imin ≤ (run s ops).I ∧ (run s ops).I ≤ (run s ops).Imin * 2 ^ (run s ops).Imax) ∧
    (∀ r, s.Imin ≤ (run (start s r) ops).I ∧ (run (start s r) ops).I ≤ s.Imin * 2 ^ s.Imax) ∧
    ((run s ops).Imin = s.Imin ∧ (run s ops).Imax = s.Imax ∧ (run s ops).k = s.k) ∧
    (∀ r, (heard_inconsistency (run s ops) r).I = s.Imin ∧
      ((s.Imin / 2 : Nat) : Int) ≤ (heard_inconsistency (run s ops) r).t ∧
      (heard_inconsistency (run s ops) r).t ≤ (s.Imin : Int)) := by
  obtain ⟨p1, p2, p3⟩ := run_params ops s
  refine ⟨fun h => run_bounded ops s h, ?_, ⟨p1, p2, p3⟩, ?_⟩
  · intro r
    have hb := run_bounded ops (start s r) (start_bounded s r)
    obtain ⟨q1, q2, -⟩ := run_params ops (start s r)
    unfold interval_bounded at hb
    rw [q1, q2] at hb
    exact hb
  · intro r
    have hd := draw_range (run s ops).Imin r
    rw [p1] at hd
    refine ⟨p1, ?_, ?_⟩
    · show ((s.Imin / 2 : Nat) : Int) ≤ draw (run s ops).Imin r
      rw [p1]; exact hd.1
    · show draw (run s ops).Imin r ≤ (s.Imin : Int)
      rw [p1]; exact hd.2

/-- C36 at `fresh_trickle` (`Imin = 4`, 3 doublings): after `start` the
interval runs 4, 8, 16, 32 and stays at 32 over expiring ticks, and
`heard_inconsistency` brings it back to 4 with `t` between 2 and 4. -/
theorem C36_trickle_interval_bound_witness :
    (run (start fresh_trickle 0)
      [trickle_op.tick 100 1, trickle_op.tick 100 2, trickle_op.tick 100 3]).I = 32 ∧
    (run (start fresh_trickle 0)
      [trickle_op.tick 100 1, trickle_op.tick 100 2, trickle_op.tick 100 3,
        trickle_op.heard_transmission, trickle_op.tick 100 4]).I ≤ 4 * 2 ^ 3 ∧
    (heard_inconsistency (run fresh_trickle
      [trickle_op.start 0, trickle_op.tick 100 1]) 5).I = 4 ∧
    2 ≤ (heard_inconsistency (run fresh_trickle
      [trickle_op.start 0, trickle_op.tick 100 1]) 5).t :=
  ⟨by decide,
   ((C36_trickle_interval_bound fresh_trickle
      [trickle_op.tick 100 1, trickle_op.tick 100 2, trickle_op.tick 100 3,
        trickle_op.heard_transmission, trickle_op.tick 100 4]).2.1 0).2,
   ((C36_trickle_interval_bound fresh_trickle
      [trickle_op.start 0, trickle_op.tick 100 1]).2.2.2 5).1,
   ((C36_trickle_interval_bound fresh_trickle
      [trickle_op.start 0, trickle_op.tick 100 1]).2.2.2 5).2.1⟩

end TrickleTimer

namespace BusUart

/-! ### The frame check sequence is CRC-16/XMODEM -/

theorem xor_mod_pow (x y n : Nat) : (x ^^^ y) % 2 ^ n = x % 2 ^ n ^^^ y % 2 ^ n := by
  apply Nat.eq_of_testBit_eq
  intro i
  simp only [Nat.testBit_xor, Nat.testBit_mod_two_pow]
  cases decide (i < n) <;> simp

theorem xor_mod16 (x y : Nat) : (x ^^^ y) % 65536 = x % 65536 ^^^ y % 65536 :=
  xor_mod_pow x y 16

theorem shl_xor (x y k : Nat) : (x ^^^ y) <<< k = x <<< k ^^^ y <<< k := by
  apply Nat.eq_of_testBit_eq
  intro i
  simp only [Nat.testBit_xor, Nat.testBit_shiftLeft]
  cases decide (i ≥ k) <;> simp

theorem xor_cancel_mid (x y p : Nat) : x ^^^ p ^^^ (y ^^^ p) = x ^^^ y := by
  rw [Nat.xor_assoc, Nat.xor_comm y p, ← Nat.xor_assoc p, Nat.xor_self, Nat.zero_xor]

theorem shift_xor (a b : Nat) :
    crc16_xmodem_shift (a ^^^ b) = crc16_xmodem_shift a ^^^ crc16_xmodem_shift b := by
  unfold crc16_xmodem_shift
  rw [Nat.testBit_xor a b 15]
  cases ha : a.testBit 15 <;> cases hb : b.testBit 15 <;>
    simp only [Bool.xor_false, Bool.xor_true, Bool.not_false, Bool.not_true, if_true, if_false,
      Bool.false_eq_true, shl_xor, xor_mod16, Bool.false_xor, Bool.true_xor]
  · rw [Nat.xor_assoc]
  · rw [Nat.xor_assoc, Nat.xor_comm (b <<< 1 % 65536), Nat.xor_assoc]
  · rw [xor_cancel_mid]

theorem shifts_xor (n : Nat) : ∀ a b : Nat,
    crc16_xmodem_shifts n (a ^^^ b) = crc16_xmodem_shifts n a ^^^ crc16_xmodem_shifts n b := by
  induction n with
  | zero => intro a b; rfl
  | succ n ih => intro a b; simp only [crc16_xmodem_shifts, shift_xor, ih]

set_option maxRecDepth 20000 in
theorem shifts_low : ∀ lo, lo < 256 → crc16_xmodem_shifts 8 lo = lo <<< 8 := by
  decide

set_option maxRecDepth 20000 in
theorem shifts_high : ∀ y, y < 256 → crc16_xmodem_shifts 8 (y <<< 8) = crc16_high y := by
  decide

theorem shl8_mod (crc : Nat) : (crc <<< 8) % 65536 = (crc % 256) <<< 8 := by
  apply Nat.eq_of_testBit_eq
  intro i
  rw [show (65536 : Nat) = 2 ^ 16 from rfl, show (256 : Nat) = 2 ^ 8 from rfl]
  simp only [Nat.testBit_mod_two_pow, Nat.testBit_shiftLeft]
  by_cases h8 : i ≥ 8
  · have e : decide (i < 16) = decide (i - 8 < 8) := by
      by_cases h16 : i < 16
      · simp [h16, show i - 8 < 8 by omega]
      · simp [h16, show ¬ i - 8 < 8 by omega]
    rw [e]
    cases decide (i - 8 < 8) <;> simp [h8]
  · simp [h8]

theorem split_bytes (crc b : Nat) :
    crc ^^^ (b <<< 8) = (((crc >>> 8) ^^^ b) <<< 8) ^^^ (crc % 256) := by
  apply Nat.eq_of_testBit_eq
  intro i
  rw [show (256 : Nat) = 2 ^ 8 from rfl]
  simp only [Nat.testBit_xor, Nat.testBit_shiftLeft, Nat.testBit_shiftRight,
    Nat.testBit_mod_two_pow]
  by_cases h8 : i ≥ 8
  · have e : 8 + (i - 8) = i := by omega
    have h : ¬ i < 8 := by omega
    simp [h8, e, h]
  · have h : i < 8 := by omega
    simp [h8, h]

theorem xor_rotate (a b c d : Nat) : a ^^^ b ^^^ c ^^^ d = b ^^^ c ^^^ d ^^^ a := by
  rw [Nat.xor_comm (b ^^^ c ^^^ d) a]
  simp only [Nat.xor_assoc]

theorem crc16_step_lt (crc b : Nat) : crc16_step crc b < 65536 := by
  unfold crc16_step
  exact Nat.mod_lt _ (by decide)

theorem crc16_step_eq (crc b : Nat) (hc : crc < 65536) (hb : b < 256) :
    crc16_step crc b = crc16_xmodem_byte crc b := by
  have hy : (crc >>> 8) ^^^ b < 256 := by
    have h1 : crc >>> 8 < 2 ^ 8 := by
      rw [Nat.shiftRight_eq_div_pow]
      exact Nat.div_lt_of_lt_mul (by simpa using hc)
    exact Nat.xor_lt_two_pow h1 (by simpa using hb)
  have hlo : crc % 256 < 256 := Nat.mod_lt _ (by decide)
  unfold crc16_xmodem_byte
  rw [split_bytes, shifts_xor, shifts_high _ hy, shifts_low _ hlo]
  unfold crc16_step crc16_high
  simp only [Nat.mod_eq_of_lt hy, xor_mod16, Nat.mod_mod, shl8_mod]
  exact xor_rotate _ _ _ _

theorem crc16_fold_eq (data : List Nat) (h : ∀ b ∈ data, b < 256) :
    ∀ crc, crc < 65536 → data.foldl crc16_step crc = data.foldl crc16_xmodem_byte crc := by
  induction data with
  | nil => intro crc _; rfl
  | cons b rest ih =>
    intro crc hc
    simp only [List.foldl_cons]
    rw [← crc16_step_eq crc b hc (h b (List.mem_cons_self _ _))]
    exact ih (fun x hx => h x (List.mem_cons_of_mem _ hx)) _ (crc16_step_lt crc b)

/-- C40: `crc16` is CRC-16/XMODEM.  For every sequence of bytes, `crc16`
returns the value of the reference bit-serial CRC-16 with polynomial 0x1021,
initial value 0, no reflection and no final xor; the result is a 16-bit value,
and `crc16` of the empty sequence is 0. -/
theorem C40_crc16_is_xmodem (data : List Nat) (h : ∀ b ∈ data, b < 256) :
    crc16 data = crc16_xmodem data ∧ crc16 [] = 0 ∧ crc16 data < 65536 := by
  refine ⟨crc16_fold_eq data h 0 (by decide), rfl, ?_⟩
  unfold crc16
  induction data using List.reverseRecOn with
  | nil => decide
  | append_singleton l b _ => rw [List.foldl_append]; exact crc16_step_lt _ _

/-- C40 at the check input "123456789": both give 0x31C3, the check value of
CRC-16/XMODEM. -/
theorem C40_crc16_is_xmodem_witness :
    crc16 check_digits = crc16_xmodem check_digits ∧ crc16 check_digits = 0x31C3 :=
  ⟨(C40_crc16_is_xmodem check_digits (by decide)).1, by decide⟩

end BusUart
